import Mathlib

/-!
Verification development for the CloudFormation cost estimation and diff
engine (cfn-cost-calc).  The definitions below are a shallow embedding of
the TypeScript sources:

* `src/template-parser.ts` — `TemplateParser.resolveBasicIntrinsics` and
  `TemplateParser.getPropertyValue`, over a model `JsValue` of the JSON-like
  runtime values a parsed template contains (JavaScript numbers are modelled
  as exact rationals; `NaN`/`Infinity` corner values are outside the model).
* `src/pricing-data.ts` — the base pricing table, the regional multiplier
  table, `getRegionalPricing` and `applyMultiplier`.
* `src/cost-calculator.ts` — `CostCalculator.calculateStackCost` (with the
  calculator registry passed explicitly, and a thrown calculator error
  modelled by `Except.error` carrying the message), the free/usage-based
  resource type sets, and the arithmetic bodies of every calculator of the
  registry and of every usage-based estimator.  Each calculator body is a
  function of the property values the source reads via
  `TemplateParser.getPropertyValue` (with the source's documented defaults)
  and of the unit prices it looks up (after the source's `||` fallbacks);
  the quantification over those arguments covers every template and pricing
  table.
* `src/diff-calculator.ts` — `DiffCalculator.compareEstimates`, with the
  JavaScript `Map` semantics (first-insertion order, last value wins)
  modelled explicitly and the stable sort by descending absolute cost
  difference modelled by a stable insertion sort.
-/

namespace CfnCost

/-- A JavaScript runtime value as it occurs in a parsed template: `undefined`,
`null`, booleans, numbers (exact rationals), strings, arrays and plain
objects (association lists of fields, in property order). -/
inductive JsValue : Type where
  | undef : JsValue
  | null : JsValue
  | bool : Bool → JsValue
  | num : ℚ → JsValue
  | str : String → JsValue
  | arr : List JsValue → JsValue
  | obj : List (String × JsValue) → JsValue

/-- Field lookup in an object literal (`obj[key]`, returning `none` when the
key is absent).  JavaScript objects have unique keys, so first match is the
match. -/
def lookupField : List (String × JsValue) → String → Option JsValue
  | [], _ => none
  | (k, v) :: rest, key => if k = key then some v else lookupField rest key

/-- JavaScript truthiness of a modelled value (`NaN` is outside the model). -/
def truthy : JsValue → Bool
  | .undef => false
  | .null => false
  | .bool b => b
  | .num q => q ≠ 0
  | .str s => s ≠ ""
  | .arr _ => true
  | .obj _ => true

/-- Property access `v[key]` for a string key: object field (or `undefined`),
array element for a numeric key (or `undefined`), `undefined` on primitives. -/
def getField : JsValue → String → JsValue
  | .obj fields, key => (lookupField fields key).getD .undef
  | .arr xs, key =>
    match key.toNat? with
    | some i => (xs.get? i).getD .undef
    | none => .undef
  | _, _ => (.undef)

/-- Array indexing `ys[n]` with a JavaScript number index: the element when
`n` is an integer in range, `undefined` otherwise (negative, fractional or
out-of-range indexes all read an absent property). -/
def jsIndex (ys : List JsValue) (n : ℚ) : JsValue :=
  if h : n.den = 1 ∧ 0 ≤ n.num ∧ n.num.toNat < ys.length then
    ys.get ⟨n.num.toNat, h.2.2⟩
  else (.undef)

/-- String interpolation of a value inside a template literal (faithful for
strings, which is the only case the sources exercise; best-effort for the
remaining constructors). -/
def jsTemplateStr : JsValue → String
  | .undef => "undefined"
  | .null => "null"
  | .bool b => if b then "true" else "false"
  | .num q => toString q
  | .str s => s
  | .arr _ => ""
  | .obj _ => "[object Object]"

/-- One resource entry of a template: the `Type` string (the dispatch key;
spelled `resType` because `Type` is reserved in Lean) and the optional
`Properties` value. -/
structure CfnResource where
  resType : String
  properties : Option JsValue

/-- A parsed CloudFormation template: the optional `Parameters` section (a
record of parameter declarations) and the `Resources` entries in template
order. -/
structure CfnTemplate where
  parameters : Option (List (String × JsValue))
  resources : List (String × CfnResource)

/-- The unresolved-reference placeholder string `{{Ref:<name>}}`. -/
def refPlaceholder (refName : String) : JsValue :=
  .str ("\x7b\x7bRef:" ++ refName ++ "\x7d\x7d")

/-- The `param.Default !== undefined` step of the `Ref` handler: the declared
default when present, else the placeholder. -/
def paramDefault (param : JsValue) (refName : String) : JsValue :=
  match getField param "Default" with
  | .undef => refPlaceholder refName
  | d => d

/-- The `context.parameters && context.parameters[refName] !== undefined`
test of the `Ref` handler: the override value it selects, when the context
carries a parameters record whose entry for the name is present and not
`undefined`. -/
def contextOverride (ctx : Option (List (String × JsValue))) (refName : String) :
    Option JsValue :=
  match ctx with
  | some cps =>
    match lookupField cps refName with
    | some .undef => none
    | some v => some v
    | none => none
  | none => none

/-- The `Ref` branch of `resolveBasicIntrinsics` (template-parser.ts lines
211-228): a context override applies only when the referenced name is a
declared, truthy parameter; then the declared default; else the placeholder. -/
def resolveRef (tpl : CfnTemplate) (ctx : Option (List (String × JsValue)))
    (refName : String) : JsValue :=
  match tpl.parameters with
  | some params =>
    match lookupField params refName with
    | some param =>
      if truthy param then
        match contextOverride ctx refName with
        | some v => v
        | none => paramDefault param refName
      else refPlaceholder refName
    | none => refPlaceholder refName
  | none => refPlaceholder refName

/-- Shape guard for the `Ref` branch: `'Ref' in obj && typeof obj.Ref ===
'string'`. -/
def refGuard : Option JsValue → Option String
  | some (.str s) => some s
  | _ => none

/-- Shape guard for the `Fn::GetAtt` branch: an array of exactly two
elements. -/
def getAttGuard : Option JsValue → Option (JsValue × JsValue)
  | some (.arr [t, a]) => some (t, a)
  | _ => none

/-- Shape guard for the `Fn::Sub` branch: a string operand. -/
def subGuard : Option JsValue → Option String
  | some (.str s) => some s
  | _ => none

/-- Shape guard for the `Fn::If` branch: an array of length at least two;
yields the element at index 1 (the true branch). -/
def ifGuard : Option JsValue → Option JsValue
  | some (.arr (_ :: tBranch :: _)) => some tBranch
  | _ => none

/-- Shape guard for the `Fn::Select` branch: an array of exactly two
elements (index expression, list expression). -/
def selectGuard : Option JsValue → Option (JsValue × JsValue)
  | some (.arr [idx, listExpr]) => some (idx, listExpr)
  | _ => none

theorem sizeOf_lt_of_lookupField {fields : List (String × JsValue)} {key : String}
    {v : JsValue} (h : lookupField fields key = some v) :
    sizeOf v < sizeOf (JsValue.obj fields) := by
  induction fields with
  | nil => simp [lookupField] at h
  | cons p rest ih =>
    obtain ⟨k, w⟩ := p
    simp only [lookupField] at h
    split at h
    · cases h
      simp
      omega
    · have := ih h
      simp at this ⊢
      omega

theorem sizeOf_lt_of_mem_arr {xs : List JsValue} {x : JsValue} (h : x ∈ xs) :
    sizeOf x < sizeOf (JsValue.arr xs) := by
  have := List.sizeOf_lt_of_mem h
  simp
  omega

theorem sizeOf_snd_lt_of_mem_fields {fields : List (String × JsValue)}
    {p : String × JsValue} (h : p ∈ fields) :
    sizeOf p.2 < sizeOf (JsValue.obj fields) := by
  have h1 := List.sizeOf_lt_of_mem h
  obtain ⟨k, v⟩ := p
  simp at h1 ⊢
  omega

theorem sizeOf_lt_of_ifGuard {fields : List (String × JsValue)} {key : String}
    {t : JsValue} (h : ifGuard (lookupField fields key) = some t) :
    sizeOf t < sizeOf (JsValue.obj fields) := by
  match hl : lookupField fields key with
  | none => rw [hl] at h; simp [ifGuard] at h
  | some v =>
    rw [hl] at h
    have hv := sizeOf_lt_of_lookupField hl
    match v, h with
    | .arr (c :: tB :: rest), h =>
      simp only [ifGuard, Option.some.injEq] at h
      subst h
      exact lt_trans (sizeOf_lt_of_mem_arr (by simp)) hv

theorem sizeOf_lt_of_selectGuard {fields : List (String × JsValue)} {key : String}
    {idx listExpr : JsValue}
    (h : selectGuard (lookupField fields key) = some (idx, listExpr)) :
    sizeOf listExpr < sizeOf (JsValue.obj fields) := by
  match hl : lookupField fields key with
  | none => rw [hl] at h; simp [selectGuard] at h
  | some v =>
    rw [hl] at h
    have hv := sizeOf_lt_of_lookupField hl
    match v, h with
    | .arr [i, l], h =>
      simp only [selectGuard, Option.some.injEq, Prod.mk.injEq] at h
      obtain ⟨h1, h2⟩ := h
      subst h2
      exact lt_trans (sizeOf_lt_of_mem_arr (by simp)) hv

/-- `TemplateParser.resolveBasicIntrinsics` (template-parser.ts lines
192-274).  Scalars pass through; arrays resolve elementwise; an object is
checked for `Ref`, `Fn::GetAtt`, `Fn::Sub`, `Fn::If`, `Fn::Select` in that
order (each guard falls through to the next check when its shape test
fails, exactly as the source's `if` chain does), and any other object is
resolved field by field. -/
def resolve (tpl : CfnTemplate) (ctx : Option (List (String × JsValue))) :
    JsValue → JsValue
  | .undef => .undef
  | .null => .null
  | .bool b => .bool b
  | .num q => .num q
  | .str s => .str s
  | .arr items => .arr (items.attach.map (fun x => resolve tpl ctx x.1))
  | .obj fields =>
    match refGuard (lookupField fields "Ref") with
    | some refName => resolveRef tpl ctx refName
    | none =>
      match getAttGuard (lookupField fields "Fn::GetAtt") with
      | some (t, a) =>
        .str ("\x7b\x7bGetAtt:" ++ jsTemplateStr t ++ "." ++ jsTemplateStr a ++ "\x7d\x7d")
      | none =>
        match subGuard (lookupField fields "Fn::Sub") with
        | some s => .str s
        | none =>
          match hi : ifGuard (lookupField fields "Fn::If") with
          | some tBranch => resolve tpl ctx tBranch
          | none =>
            match hsel : selectGuard (lookupField fields "Fn::Select") with
            | some (idx, listExpr) =>
              match idx with
              | .num n =>
                match resolve tpl ctx listExpr with
                | .arr ys => jsIndex ys n
                | _ => .obj (fields.attach.map (fun x => (x.1.1, resolve tpl ctx x.1.2)))
              | _ => .obj (fields.attach.map (fun x => (x.1.1, resolve tpl ctx x.1.2)))
            | none => .obj (fields.attach.map (fun x => (x.1.1, resolve tpl ctx x.1.2)))
termination_by v => sizeOf v
decreasing_by
  all_goals first
    | exact sizeOf_lt_of_mem_arr x.2
    | exact sizeOf_lt_of_ifGuard hi
    | exact sizeOf_lt_of_selectGuard hsel
    | exact sizeOf_snd_lt_of_mem_fields x.2

/-- Array/property walk of one dot-separated path segment list, mirroring the
loop of `getPropertyValue`: `none` signals the early `return defaultValue`
taken when the current value is `null`/`undefined`/not an object. -/
def walkPath : List String → JsValue → Option JsValue
  | [], v => some v
  | p :: ps, v =>
    match v with
    | .obj fields => walkPath ps ((lookupField fields p).getD .undef)
    | .arr xs => walkPath ps (getField (.arr xs) p)
    | _ => none

/-- Accumulator pass of `splitDot`. -/
def splitDotAux : List Char → List Char → List String
  | [], acc => [String.mk acc.reverse]
  | c :: cs, acc =>
    if c = '.' then String.mk acc.reverse :: splitDotAux cs []
    else splitDotAux cs (c :: acc)

/-- JavaScript `propertyPath.split('.')` (kernel-computable rendition of the
standard dot split: `"a.b" ↦ ["a", "b"]`, `"X" ↦ ["X"]`, `"" ↦ [""]`). -/
def splitDot (s : String) : List String := splitDotAux s.toList []

/-- `TemplateParser.getPropertyValue` (template-parser.ts lines 279-301):
walk the dot-separated path through `resource.Properties`, return the
caller's default when a segment cannot be entered or the walk ends on
`undefined`, and otherwise resolve the found value with an empty context. -/
def getPropertyValue (tpl : CfnTemplate) (resource : CfnResource)
    (propertyPath : String) (defaultValue : JsValue) : JsValue :=
  let properties := resource.properties.getD (.obj [])
  let parts := splitDot propertyPath
  match walkPath parts properties with
  | none => defaultValue
  | some .undef => defaultValue
  | some v => resolve tpl none v

/-! ### Pricing catalog (`src/pricing-data.ts`) -/

/-- A pricing table value: either a numeric unit price or a nested table of
named entries (the JSON shape of `RegionalPricing`). -/
inductive PriceTree : Type where
  | price : ℚ → PriceTree
  | table : List (String × PriceTree) → PriceTree

mutual

/-- `applyMultiplier` (pricing-data.ts lines 367-384): the source deep-clones
the table through a JSON round trip and then multiplies every numeric leaf in
place; in the pure model this is the structural map over leaves (the clone
step guarantees the base table is not aliased, which value semantics gives
for free). -/
def applyMultiplier : PriceTree → ℚ → PriceTree
  | .price q, m => .price (q * m)
  | .table fs, m => .table (applyMultiplierFields fs m)

/-- Field-by-field recursion of `applyMultiplier` over a nested table. -/
def applyMultiplierFields : List (String × PriceTree) → ℚ → List (String × PriceTree)
  | [], _ => []
  | (k, v) :: rest, m => (k, applyMultiplier v m) :: applyMultiplierFields rest m

end

/-- Association lookup in a pricing table node. -/
def lookupTree : List (String × PriceTree) → String → Option PriceTree
  | [], _ => none
  | (k, v) :: rest, key => if k = key then some v else lookupTree rest key

/-- Numeric leaf of a pricing table at a nested key path (`none` when the
path leaves the table or ends on a non-leaf). -/
def leafAt : PriceTree → List String → Option ℚ
  | .price q, [] => some q
  | .price _, _ :: _ => none
  | .table _, [] => none
  | .table fs, k :: ks =>
    match lookupTree fs k with
    | some t => leafAt t ks
    | none => none

/-- Association lookup in the regional multiplier record. -/
def lookupQ : List (String × ℚ) → String → Option ℚ
  | [], _ => none
  | (k, v) :: rest, key => if k = key then some v else lookupQ rest key

/-- JavaScript `lookup || default` over numbers: the looked-up value when it
is present and truthy (nonzero), the default otherwise. -/
def jsOrNum (v : Option ℚ) (d : ℚ) : ℚ :=
  match v with
  | some q => if q = 0 then d else q
  | none => d

/-- `REGIONAL_MULTIPLIERS` (pricing-data.ts lines 337-354). -/
def REGIONAL_MULTIPLIERS : List (String × ℚ) :=
  [("us-east-1", 1.0), ("us-east-2", 1.0), ("us-west-1", 1.1), ("us-west-2", 1.0),
   ("eu-west-1", 1.05), ("eu-west-2", 1.08), ("eu-west-3", 1.1), ("eu-central-1", 1.08),
   ("eu-north-1", 1.05), ("ap-southeast-1", 1.1), ("ap-southeast-2", 1.15),
   ("ap-northeast-1", 1.15), ("ap-northeast-2", 1.12), ("ap-south-1", 1.05),
   ("ca-central-1", 1.05), ("sa-east-1", 1.5)]

/-- `US_EAST_1_PRICING` (pricing-data.ts lines 125-334), the base table for
US East (N. Virginia). -/
def US_EAST_1_PRICING : PriceTree :=
  .table
    [("ec2", .table
      [("t3.nano", .price 0.0052), ("t3.micro", .price 0.0104), ("t3.small", .price 0.0208),
       ("t3.medium", .price 0.0416), ("t3.large", .price 0.0832), ("t3.xlarge", .price 0.1664),
       ("t3.2xlarge", .price 0.3328), ("t3a.nano", .price 0.0047), ("t3a.micro", .price 0.0094),
       ("t3a.small", .price 0.0188), ("t3a.medium", .price 0.0376), ("t3a.large", .price 0.0752),
       ("t3a.xlarge", .price 0.1504), ("t3a.2xlarge", .price 0.3008),
       ("m5.large", .price 0.096), ("m5.xlarge", .price 0.192), ("m5.2xlarge", .price 0.384),
       ("m5.4xlarge", .price 0.768), ("m5.8xlarge", .price 1.536), ("m5.12xlarge", .price 2.304),
       ("m5.16xlarge", .price 3.072), ("m5.24xlarge", .price 4.608),
       ("m6i.large", .price 0.096), ("m6i.xlarge", .price 0.192), ("m6i.2xlarge", .price 0.384),
       ("m6i.4xlarge", .price 0.768), ("m6i.8xlarge", .price 1.536),
       ("m7i.large", .price 0.1008), ("m7i.xlarge", .price 0.2016), ("m7i.2xlarge", .price 0.4032),
       ("c5.large", .price 0.085), ("c5.xlarge", .price 0.17), ("c5.2xlarge", .price 0.34),
       ("c5.4xlarge", .price 0.68), ("c5.9xlarge", .price 1.53),
       ("c6i.large", .price 0.085), ("c6i.xlarge", .price 0.17), ("c6i.2xlarge", .price 0.34),
       ("c7i.large", .price 0.0893), ("c7i.xlarge", .price 0.1785),
       ("r5.large", .price 0.126), ("r5.xlarge", .price 0.252), ("r5.2xlarge", .price 0.504),
       ("r5.4xlarge", .price 1.008), ("r6i.large", .price 0.126), ("r6i.xlarge", .price 0.252),
       ("r7i.large", .price 0.1323), ("i3.large", .price 0.156), ("i3.xlarge", .price 0.312),
       ("i3.2xlarge", .price 0.624), ("t4g.nano", .price 0.0042), ("t4g.micro", .price 0.0084),
       ("t4g.small", .price 0.0168), ("t4g.medium", .price 0.0336), ("t4g.large", .price 0.0672),
       ("t4g.xlarge", .price 0.1344), ("m6g.large", .price 0.077), ("m6g.xlarge", .price 0.154),
       ("m6g.2xlarge", .price 0.308), ("m7g.large", .price 0.0816), ("m7g.xlarge", .price 0.1632),
       ("c6g.large", .price 0.068), ("c6g.xlarge", .price 0.136), ("c7g.large", .price 0.0725),
       ("r6g.large", .price 0.1008), ("r6g.xlarge", .price 0.2016), ("r7g.large", .price 0.107)]),
     ("ebs", .table
      [("gp2", .price 0.10), ("gp3", .price 0.08), ("io1", .price 0.125), ("io2", .price 0.125),
       ("st1", .price 0.045), ("sc1", .price 0.015), ("standard", .price 0.05)]),
     ("rds", .table
      [("db.t3.micro", .price 0.017), ("db.t3.small", .price 0.034), ("db.t3.medium", .price 0.068),
       ("db.t3.large", .price 0.136), ("db.t3.xlarge", .price 0.272), ("db.t3.2xlarge", .price 0.544),
       ("db.t4g.micro", .price 0.016), ("db.t4g.small", .price 0.032), ("db.t4g.medium", .price 0.065),
       ("db.t4g.large", .price 0.129), ("db.m5.large", .price 0.171), ("db.m5.xlarge", .price 0.342),
       ("db.m5.2xlarge", .price 0.684), ("db.m5.4xlarge", .price 1.368), ("db.m6i.large", .price 0.171),
       ("db.m6i.xlarge", .price 0.342), ("db.m6g.large", .price 0.154), ("db.m6g.xlarge", .price 0.308),
       ("db.r5.large", .price 0.24), ("db.r5.xlarge", .price 0.48), ("db.r5.2xlarge", .price 0.96),
       ("db.r6i.large", .price 0.24), ("db.r6g.large", .price 0.216), ("db.r6g.xlarge", .price 0.432),
       ("db.serverless", .price 0.06)]),
     ("lambda", .table
      [("requestPrice", .price 0.20), ("durationPrice", .price 0.0000166667),
       ("freeRequests", .price 1000000), ("freeDuration", .price 400000)]),
     ("s3", .table [("storage", .price 0.023), ("requests", .price 0.0004)]),
     ("dynamodb", .table
      [("writeCapacityUnit", .price (0.00065 * 730)), ("readCapacityUnit", .price (0.00013 * 730)),
       ("storagePerGB", .price 0.25), ("onDemandWrite", .price 1.25), ("onDemandRead", .price 0.25)]),
     ("elasticache", .table
      [("cache.t3.micro", .price 0.017), ("cache.t3.small", .price 0.034),
       ("cache.t3.medium", .price 0.068), ("cache.t4g.micro", .price 0.016),
       ("cache.t4g.small", .price 0.032), ("cache.t4g.medium", .price 0.065),
       ("cache.m5.large", .price 0.155), ("cache.m5.xlarge", .price 0.31),
       ("cache.m6g.large", .price 0.14), ("cache.r5.large", .price 0.218),
       ("cache.r6g.large", .price 0.196)]),
     ("sns", .table [("requestsPerMillion", .price 0.50), ("smsPerMessage", .price 0.00645)]),
     ("sqs", .table [("requestsPerMillion", .price 0.40)]),
     ("apiGateway", .table
      [("restApiPerMillion", .price 3.50), ("httpApiPerMillion", .price 1.00),
       ("websocketPerMillion", .price 1.00)]),
     ("cloudwatch", .table
      [("metricsPerMonth", .price 0.30), ("logsIngestionPerGB", .price 0.50),
       ("logsStoragePerGB", .price 0.03), ("dashboardsPerMonth", .price 3.00),
       ("alarmsPerMonth", .price 0.10)]),
     ("ecs", .table
      [("fargateVCPUPerHour", .price 0.04048), ("fargateMemoryPerGBHour", .price 0.004445)]),
     ("eks", .table [("clusterPerHour", .price 0.10)]),
     ("nat", .table [("gatewayPerHour", .price 0.045), ("dataProcessedPerGB", .price 0.045)]),
     ("alb", .table [("perHour", .price 0.0225), ("lcuPerHour", .price 0.008)]),
     ("nlb", .table [("perHour", .price 0.0225), ("lcuPerHour", .price 0.006)]),
     ("elasticIP", .table [("perHour", .price 0.005), ("dataTransferPerGB", .price 0.00)]),
     ("secretsManager", .table
      [("perSecretPerMonth", .price 0.40), ("perAPICallPer10k", .price 0.05)]),
     ("kms", .table [("perKeyPerMonth", .price 1.00), ("perRequestPer10k", .price 0.03)]),
     ("stepFunctions", .table
      [("standardTransitionsPerMillion", .price 25.00), ("expressPerMillion", .price 1.00)]),
     ("eventBridge", .table
      [("customEventsPerMillion", .price 1.00), ("archivePerGB", .price 0.023)]),
     ("cognito", .table [("mauFreeLimit", .price 50000), ("perMAUAboveFree", .price 0.0055)]),
     ("route53", .table
      [("hostedZonePerMonth", .price 0.50), ("queriesPerMillion", .price 0.40)])]

/-- `getRegionalPricing` (pricing-data.ts lines 356-365): the literal base
table for the canonical region, a leaf-scaled copy for every other region,
with the `|| 1.1` fallback multiplier for unknown regions. -/
def getRegionalPricing (region : String) : PriceTree :=
  let multiplier := jsOrNum (lookupQ REGIONAL_MULTIPLIERS region) 1.1
  if region = "us-east-1" then US_EAST_1_PRICING
  else applyMultiplier US_EAST_1_PRICING multiplier

/-- `HOURS_PER_MONTH = 730` (pricing-data.ts line 386). -/
def HOURS_PER_MONTH : ℚ := 730

/-- `FREE_RESOURCES` (pricing-data.ts lines 390-435). -/
def FREE_RESOURCES : List String :=
  ["AWS::CloudFormation::Stack", "AWS::CloudFormation::WaitCondition",
   "AWS::CloudFormation::WaitConditionHandle", "AWS::CloudFormation::CustomResource",
   "AWS::CloudFormation::Macro", "Custom::*",
   "AWS::IAM::Role", "AWS::IAM::Policy", "AWS::IAM::ManagedPolicy",
   "AWS::IAM::InstanceProfile", "AWS::IAM::User", "AWS::IAM::Group",
   "AWS::IAM::AccessKey", "AWS::IAM::ServiceLinkedRole",
   "AWS::EC2::SecurityGroup", "AWS::EC2::SecurityGroupIngress",
   "AWS::EC2::SecurityGroupEgress", "AWS::EC2::RouteTable", "AWS::EC2::Route",
   "AWS::EC2::SubnetRouteTableAssociation", "AWS::EC2::NetworkAclEntry",
   "AWS::EC2::VPCGatewayAttachment", "AWS::EC2::InternetGateway",
   "AWS::Lambda::Permission", "AWS::Lambda::EventSourceMapping", "AWS::Lambda::Alias",
   "AWS::Lambda::Version", "AWS::Lambda::LayerVersion", "AWS::Lambda::LayerVersionPermission",
   "AWS::Logs::LogGroup", "AWS::Logs::LogStream", "AWS::Logs::SubscriptionFilter",
   "AWS::SNS::Topic", "AWS::SNS::Subscription", "AWS::SQS::QueuePolicy",
   "AWS::Events::Rule", "AWS::Events::EventBus",
   "AWS::ApplicationAutoScaling::ScalableTarget", "AWS::ApplicationAutoScaling::ScalingPolicy",
   "AWS::AutoScaling::LaunchConfiguration", "AWS::AutoScaling::ScalingPolicy",
   "AWS::AutoScaling::LifecycleHook", "AWS::SSM::Parameter", "AWS::CDK::Metadata"]

/-- `USAGE_BASED_RESOURCES` (pricing-data.ts lines 438-449). -/
def USAGE_BASED_RESOURCES : List String :=
  ["AWS::Lambda::Function", "AWS::DynamoDB::Table", "AWS::S3::Bucket",
   "AWS::SNS::Topic", "AWS::SQS::Queue", "AWS::ApiGateway::RestApi",
   "AWS::ApiGatewayV2::Api", "AWS::StepFunctions::StateMachine",
   "AWS::Kinesis::Stream", "AWS::Firehose::DeliveryStream"]

/-! ### Cost records (`src/types.ts`) -/

/-- Confidence grade of a resource estimate. -/
inductive Confidence : Type where
  | high | medium | low | unknown
deriving DecidableEq

/-- One priced line item of a resource estimate. -/
structure CostDetail : Type where
  component : String
  quantity : ℚ
  unitPrice : ℚ
  monthlyCost : ℚ
  unit : String
deriving DecidableEq

/-- The cost record a calculator returns for one resource. -/
structure ResourceCost : Type where
  resourceId : String
  resourceType : String
  monthlyCost : ℚ
  hourlyCost : ℚ
  unit : String
  details : List CostDetail
  confidence : Confidence
deriving DecidableEq

/-- The record emitted for a resource that could not be priced. -/
structure UnsupportedResource : Type where
  resourceId : String
  resourceType : String
  reason : String
deriving DecidableEq

/-- Where a template came from. -/
inductive TemplateSource : Type where
  | deployed | synthesized | local
deriving DecidableEq

/-- A stack-level estimate.  The source also stamps a wall-clock `timestamp`
string; reading the clock is I/O, so the field is left out of the model (no
claim concerns it). -/
structure StackCostEstimate : Type where
  stackName : String
  templateSource : TemplateSource
  totalMonthlyCost : ℚ
  totalHourlyCost : ℚ
  resources : List ResourceCost
  unsupportedResources : List UnsupportedResource
deriving DecidableEq

/-- Classification of one resource in a diff. -/
inductive ChangeType : Type where
  | added | removed | modified | unchanged
deriving DecidableEq

/-- One per-resource row of a cost comparison. -/
structure ResourceChange : Type where
  resourceId : String
  resourceType : String
  changeType : ChangeType
  beforeCost : ℚ
  afterCost : ℚ
  costDifference : ℚ
deriving DecidableEq

/-- The result of comparing two stack estimates. -/
structure CostComparison : Type where
  stackName : String
  before : StackCostEstimate
  after : StackCostEstimate
  costDifference : ℚ
  percentageChange : ℚ
  resourceChanges : List ResourceChange
deriving DecidableEq

/-! ### Stack cost aggregation (`src/cost-calculator.ts` lines 31-148) -/

/-- A registry calculator.  The source signature is
`(logicalId, resource, template, pricing) -> ResourceCost | null`, with the
pricing table closed over per `CostCalculator` instance; a thrown error is
modelled as `Except.error` carrying the message string the caller
interpolates into the `Calculation error` reason. -/
def CalcFn : Type := String → CfnResource → CfnTemplate → Except String (Option ResourceCost)

/-- A calculator registry: exact resource-type string to calculator, as built
by `initializeCalculators`.  `calculateStackCost` below takes the registry
(and the usage-based estimator) as explicit arguments, so that the theorems
about its aggregation logic quantify over every registry, the source's one
included. -/
def Registry : Type := String → Option CalcFn

/-- A usage-based estimator in the shape of `calculateUsageBasedResource`:
per-type dispatch returning an estimate or `null`. -/
def UsageFn : Type := String → CfnResource → CfnTemplate → Option ResourceCost

/-- String-prefix test, the semantics of JavaScript `startsWith` (stated on
the character lists so that the kernel can evaluate it). -/
def strStartsWith (s pre : String) : Bool := pre.toList.isPrefixOf s.toList

/-- `isFreeResource` (cost-calculator.ts lines 98-109): membership in
`FREE_RESOURCES` or a `Custom::` name space. -/
def isFreeResource (resourceType : String) : Bool :=
  FREE_RESOURCES.contains resourceType || strStartsWith resourceType "Custom::"

/-- `extractResources` (template-parser.ts lines 146-156).  In the typed
model every `resources` entry is already a record with a `Type` field, so
the source's shape filter keeps all of them; entries of other shapes are
outside the model (the source silently drops them). -/
def extractResources (tpl : CfnTemplate) : List (String × CfnResource) :=
  tpl.resources

/-- The body of the per-resource loop of `calculateStackCost` (lines 41-78):
the pair of (resource-cost, unsupported) records one entry contributes.
Free types are skipped; a registry calculator is tried first, its thrown
errors are converted to an `UnsupportedResource` with reason
`Calculation error: <message>`; otherwise the usage-based estimator handles
the types in `USAGE_BASED_RESOURCES`; otherwise the entry is recorded as
unsupported with the fixed reason string. -/
def processEntry (calcs : Registry) (usage : UsageFn) (tpl : CfnTemplate)
    (entry : String × CfnResource) : List ResourceCost × List UnsupportedResource :=
  let logicalId := entry.1
  let resource := entry.2
  let resourceType := resource.resType
  if isFreeResource resourceType then ([], [])
  else
    match calcs resourceType with
    | some calculator =>
      match calculator logicalId resource tpl with
      | .ok (some cost) => ([cost], [])
      | .ok none => ([], [])
      | .error msg =>
        ([], [{ resourceId := logicalId, resourceType := resourceType,
                reason := "Calculation error: " ++ msg }])
    | none =>
      if USAGE_BASED_RESOURCES.contains resourceType then
        match usage logicalId resource tpl with
        | some cost => ([cost], [])
        | none => ([], [])
      else
        ([], [{ resourceId := logicalId, resourceType := resourceType,
                reason := "No pricing calculator available for this resource type" }])

/-- The two accumulator arrays of `calculateStackCost` after the loop, built
exactly in template resource order. -/
def stackLists (calcs : Registry) (usage : UsageFn) (tpl : CfnTemplate) :
    List ResourceCost × List UnsupportedResource :=
  (extractResources tpl).foldl
    (fun acc entry =>
      let c := processEntry calcs usage tpl entry
      (acc.1 ++ c.1, acc.2 ++ c.2))
    ([], [])

/-- `CostCalculator.calculateStackCost` (cost-calculator.ts lines 31-93),
with the registry and usage-based estimator passed explicitly (see
`Registry`) and the timestamp omitted. -/
def calculateStackCost (calcs : Registry) (usage : UsageFn) (stackName : String)
    (tpl : CfnTemplate) (source : TemplateSource) : StackCostEstimate :=
  let lists := stackLists calcs usage tpl
  let resources := lists.1
  let unsupportedResources := lists.2
  let totalMonthlyCost := resources.foldl (fun sum r => sum + r.monthlyCost) 0
  let totalHourlyCost := resources.foldl (fun sum r => sum + r.hourlyCost) 0
  { stackName := stackName, templateSource := source,
    totalMonthlyCost := totalMonthlyCost, totalHourlyCost := totalHourlyCost,
    resources := resources, unsupportedResources := unsupportedResources }

/-- The case labels of the `switch` in `calculateUsageBasedResource`
(cost-calculator.ts lines 121-148); for every other type the switch's
default branch returns `null`. -/
def usageBasedSwitchTypes : List String :=
  ["AWS::Lambda::Function", "AWS::DynamoDB::Table", "AWS::S3::Bucket",
   "AWS::SQS::Queue", "AWS::ApiGateway::RestApi", "AWS::ApiGatewayV2::Api",
   "AWS::StepFunctions::StateMachine", "AWS::SNS::Topic", "AWS::Logs::LogGroup",
   "AWS::SSM::Parameter", "AWS::ECR::Repository", "AWS::Route53::RecordSet"]

/-! ### Diff engine (`src/diff-calculator.ts`) -/

/-- JavaScript `Map.set`: overwrite the value in place when the key exists,
append otherwise (so entry order is first-insertion order and the last value
wins). -/
def jsMapSet (m : List (String × ResourceCost)) (k : String) (v : ResourceCost) :
    List (String × ResourceCost) :=
  if m.any (fun p => p.1 = k) then m.map (fun p => if p.1 = k then (p.1, v) else p)
  else m ++ [(k, v)]

/-- JavaScript `new Map(entries)`: left-to-right insertion. -/
def jsMapOfList (l : List (String × ResourceCost)) : List (String × ResourceCost) :=
  l.foldl (fun m p => jsMapSet m p.1 p.2) []

/-- JavaScript `Map.get` (`none` for a missing key). -/
def jsMapGet (m : List (String × ResourceCost)) (k : String) : Option ResourceCost :=
  (m.find? (fun p => p.1 = k)).map (fun p => p.2)

/-- JavaScript `Map.has`. -/
def jsMapHas (m : List (String × ResourceCost)) (k : String) : Bool :=
  m.any (fun p => p.1 = k)

/-- The `resourceId -> resource` map the diff builds over an estimate's
resource list. -/
def resourceMap (rs : List ResourceCost) : List (String × ResourceCost) :=
  jsMapOfList (rs.map (fun r => (r.resourceId, r)))

/-- The classification of one identifier found in the `after` map (the first
loop of `compareEstimates`, lines 35-69): `added` when absent from `before`,
`modified` when the monthly costs differ by more than a cent, `unchanged`
(with the difference zeroed) otherwise. -/
def classifyAfter (beforeResources : List (String × ResourceCost))
    (resourceId : String) (afterResource : ResourceCost) : ResourceChange :=
  match jsMapGet beforeResources resourceId with
  | none =>
    { resourceId := resourceId, resourceType := afterResource.resourceType,
      changeType := .added, beforeCost := 0, afterCost := afterResource.monthlyCost,
      costDifference := afterResource.monthlyCost }
  | some beforeResource =>
    if |beforeResource.monthlyCost - afterResource.monthlyCost| > 0.01 then
      { resourceId := resourceId, resourceType := afterResource.resourceType,
        changeType := .modified, beforeCost := beforeResource.monthlyCost,
        afterCost := afterResource.monthlyCost,
        costDifference := afterResource.monthlyCost - beforeResource.monthlyCost }
    else
      { resourceId := resourceId, resourceType := afterResource.resourceType,
        changeType := .unchanged, beforeCost := beforeResource.monthlyCost,
        afterCost := afterResource.monthlyCost, costDifference := 0 }

/-- The `removed` rows (the second loop, lines 72-83). -/
def removedChanges (beforeResources afterResources : List (String × ResourceCost)) :
    List ResourceChange :=
  (beforeResources.filter (fun p => ¬ jsMapHas afterResources p.1)).map
    (fun p =>
      { resourceId := p.1, resourceType := p.2.resourceType, changeType := .removed,
        beforeCost := p.2.monthlyCost, afterCost := 0,
        costDifference := -p.2.monthlyCost })

/-- Stable insertion step for the sort by descending absolute cost
difference. -/
def insertByAbs (c : ResourceChange) : List ResourceChange → List ResourceChange
  | [] => [c]
  | d :: rest =>
    if |d.costDifference| < |c.costDifference| then c :: d :: rest
    else d :: insertByAbs c rest

/-- The sort `resourceChanges.sort((a, b) => |b| - |a|)` of line 86: a stable
sort by descending absolute cost difference (JavaScript's sort is stable;
the model uses a stable insertion sort). -/
def sortChanges : List ResourceChange → List ResourceChange
  | [] => []
  | c :: rest => insertByAbs c (sortChanges rest)

/-- `DiffCalculator.compareEstimates` (diff-calculator.ts lines 20-101). -/
def compareEstimates (before after : StackCostEstimate) : CostComparison :=
  let beforeResources := resourceMap before.resources
  let afterResources := resourceMap after.resources
  let resourceChanges :=
    sortChanges
      ((afterResources.map (fun p => classifyAfter beforeResources p.1 p.2)) ++
       removedChanges beforeResources afterResources)
  let costDifference := after.totalMonthlyCost - before.totalMonthlyCost
  let percentageChange :=
    if before.totalMonthlyCost > 0 then costDifference / before.totalMonthlyCost * 100
    else if costDifference > 0 then 100 else 0
  { stackName := after.stackName, before := before, after := after,
    costDifference := costDifference, percentageChange := percentageChange,
    resourceChanges := resourceChanges }

/-! ### Calculator bodies (`src/cost-calculator.ts` lines 153-2155)

Each definition below is the body of one registry calculator, as a function
of the property values the source reads through `getPropertyValue` (with the
source's defaults already applied by that helper) and of the unit prices it
takes from the pricing table (after the source's `||`-fallback constants).
Quantifying the theorems over these arguments covers every template, every
region and every pricing table. -/

/-- Rendering of a number inside a component string. -/
def ratStr (q : ℚ) : String := toString q

/-- Calculator for `AWS::EC2::Instance` (lines 157-176). -/
def ec2InstanceCalc (logicalId instanceType : String) (hourlyPrice : ℚ) : ResourceCost :=
  { resourceId := logicalId, resourceType := "AWS::EC2::Instance",
    monthlyCost := hourlyPrice * HOURS_PER_MONTH, hourlyCost := hourlyPrice,
    unit := "instance",
    details := [{ component := "EC2 " ++ instanceType, quantity := 1,
                  unitPrice := hourlyPrice, monthlyCost := hourlyPrice * HOURS_PER_MONTH,
                  unit := "hour" }],
    confidence := .high }

/-- Calculator for `AWS::AutoScaling::AutoScalingGroup` (lines 179-208):
`instanceType` is the constant `'t3.micro'` in the source; `instanceCount`
is the resolved desired capacity (or the min size when the desired capacity
is not a number); `hasLaunch` records whether a launch template or launch
configuration name was present (it only affects the confidence grade). -/
def autoScalingGroupCalc (logicalId : String) (instanceCount hourlyPrice : ℚ)
    (hasLaunch : Bool) : ResourceCost :=
  { resourceId := logicalId, resourceType := "AWS::AutoScaling::AutoScalingGroup",
    monthlyCost := hourlyPrice * HOURS_PER_MONTH * instanceCount,
    hourlyCost := hourlyPrice * instanceCount,
    unit := "instances",
    details := [{ component := "ASG (" ++ ratStr instanceCount ++ " x t3.micro)",
                  quantity := instanceCount, unitPrice := hourlyPrice * HOURS_PER_MONTH,
                  monthlyCost := hourlyPrice * HOURS_PER_MONTH * instanceCount,
                  unit := "instance/month" }],
    confidence := if hasLaunch then .medium else .low }

/-- Calculator for `AWS::EC2::Volume` (lines 211-278).  `volumeType` is the
lower-cased `VolumeType` read; the three price arguments are the storage,
provisioned-IOPS and gp3 add-on unit prices the source looks up. -/
def ec2VolumeCalc (logicalId volumeType : String)
    (size iops throughput pricePerGB iopsPriceProvisioned iopsPriceGp3
     throughputPriceGp3 : ℚ) : ResourceCost :=
  let storageCost := pricePerGB * size
  let iopsPart : ℚ × List CostDetail :=
    if volumeType = "io1" ∨ volumeType = "io2" then
      (iopsPriceProvisioned * iops,
       [{ component := "Provisioned IOPS", quantity := iops,
          unitPrice := iopsPriceProvisioned, monthlyCost := iopsPriceProvisioned * iops,
          unit := "IOPS/month" }])
    else if volumeType = "gp3" ∧ iops > 3000 then
      (iopsPriceGp3 * (iops - 3000),
       [{ component := "Additional IOPS (above 3000)", quantity := iops - 3000,
          unitPrice := iopsPriceGp3, monthlyCost := iopsPriceGp3 * (iops - 3000),
          unit := "IOPS/month" }])
    else (0, [])
  let throughputPart : ℚ × List CostDetail :=
    if volumeType = "gp3" ∧ throughput > 125 then
      (throughputPriceGp3 * (throughput - 125),
       [{ component := "Additional Throughput (above 125 MBps)",
          quantity := throughput - 125, unitPrice := throughputPriceGp3,
          monthlyCost := throughputPriceGp3 * (throughput - 125), unit := "MBps/month" }])
    else (0, [])
  let monthlyCost := storageCost + iopsPart.1 + throughputPart.1
  { resourceId := logicalId, resourceType := "AWS::EC2::Volume",
    monthlyCost := monthlyCost, hourlyCost := monthlyCost / HOURS_PER_MONTH,
    unit := "volume",
    details := [{ component := "EBS " ++ volumeType.toUpper ++ " Storage",
                  quantity := size, unitPrice := pricePerGB, monthlyCost := storageCost,
                  unit := "GB/month" }] ++ iopsPart.2 ++ throughputPart.2,
    confidence := .high }

/-- Calculator for `AWS::RDS::DBInstance` (lines 281-326). -/
def rdsDBInstanceCalc (logicalId instanceClass storageType : String)
    (allocatedStorage hourlyPrice storagePrice : ℚ) (multiAZ : Bool) : ResourceCost :=
  let azFactor : ℚ := if multiAZ then 2 else 1
  let instanceCost := hourlyPrice * HOURS_PER_MONTH * azFactor
  let storageCost := storagePrice * allocatedStorage * azFactor
  { resourceId := logicalId, resourceType := "AWS::RDS::DBInstance",
    monthlyCost := instanceCost + storageCost,
    hourlyCost := (instanceCost + storageCost) / HOURS_PER_MONTH,
    unit := "instance",
    details :=
      [{ component := "RDS " ++ instanceClass ++ (if multiAZ then " (Multi-AZ)" else ""),
         quantity := azFactor, unitPrice := hourlyPrice * HOURS_PER_MONTH,
         monthlyCost := instanceCost, unit := "instance/month" },
       { component := "Storage (" ++ storageType ++ ")", quantity := allocatedStorage,
         unitPrice := storagePrice, monthlyCost := storageCost, unit := "GB/month" }],
    confidence := .high }

/-- Calculator for `AWS::RDS::DBCluster` (lines 329-374): the serverless
branch prices average capacity at the hard-coded `0.06` ACU-hour rate; a
provisioned cluster reports zero with an explanatory detail. -/
def rdsDBClusterCalc (logicalId engineMode : String)
    (minCapacity maxCapacity : ℚ) : ResourceCost :=
  if engineMode = "serverless" then
    let avgCapacity := (minCapacity + maxCapacity) / 2
    let acuPrice : ℚ := 0.06
    let monthlyCost := acuPrice * avgCapacity * HOURS_PER_MONTH
    { resourceId := logicalId, resourceType := "AWS::RDS::DBCluster",
      monthlyCost := monthlyCost, hourlyCost := monthlyCost / HOURS_PER_MONTH,
      unit := "cluster",
      details := [{ component := "Aurora Serverless (avg " ++ ratStr avgCapacity ++ " ACU)",
                    quantity := avgCapacity, unitPrice := acuPrice * HOURS_PER_MONTH,
                    monthlyCost := monthlyCost, unit := "ACU/month" }],
      confidence := .medium }
  else
    { resourceId := logicalId, resourceType := "AWS::RDS::DBCluster",
      monthlyCost := 0, hourlyCost := 0, unit := "cluster",
      details := [{ component := "Aurora Cluster (cost in DB instances)", quantity := 1,
                    unitPrice := 0, monthlyCost := 0, unit := "cluster" }],
      confidence := .high }

/-- Calculator for `AWS::ElastiCache::CacheCluster` (lines 377-399). -/
def elastiCacheClusterCalc (logicalId nodeType : String)
    (numNodes hourlyPrice : ℚ) : ResourceCost :=
  let monthlyCost := hourlyPrice * HOURS_PER_MONTH * numNodes
  { resourceId := logicalId, resourceType := "AWS::ElastiCache::CacheCluster",
    monthlyCost := monthlyCost, hourlyCost := hourlyPrice * numNodes,
    unit := "cluster",
    details := [{ component := "ElastiCache " ++ nodeType, quantity := numNodes,
                  unitPrice := hourlyPrice * HOURS_PER_MONTH, monthlyCost := monthlyCost,
                  unit := "node/month" }],
    confidence := .high }

/-- Calculator for `AWS::ElastiCache::ReplicationGroup` (lines 402-426). -/
def elastiCacheReplicationGroupCalc (logicalId nodeType : String)
    (numNodeGroups replicasPerNodeGroup hourlyPrice : ℚ) : ResourceCost :=
  let totalNodes := numNodeGroups * (1 + replicasPerNodeGroup)
  let monthlyCost := hourlyPrice * HOURS_PER_MONTH * totalNodes
  { resourceId := logicalId, resourceType := "AWS::ElastiCache::ReplicationGroup",
    monthlyCost := monthlyCost, hourlyCost := hourlyPrice * totalNodes,
    unit := "replication group",
    details := [{ component := "ElastiCache " ++ nodeType ++ " (" ++ ratStr totalNodes ++ " nodes)",
                  quantity := totalNodes, unitPrice := hourlyPrice * HOURS_PER_MONTH,
                  monthlyCost := monthlyCost, unit := "node/month" }],
    confidence := .high }

/-- Calculator for `AWS::EC2::NatGateway` (lines 429-462): the monthly cost
adds an estimated 100 GB of data processing, the hourly cost is the bare
hourly rate. -/
def natGatewayCalc (logicalId : String) (hourlyPrice dataPrice : ℚ) : ResourceCost :=
  let monthlyCost := hourlyPrice * HOURS_PER_MONTH
  let estimatedDataGB : ℚ := 100
  let dataProcessingCost := dataPrice * estimatedDataGB
  { resourceId := logicalId, resourceType := "AWS::EC2::NatGateway",
    monthlyCost := monthlyCost + dataProcessingCost, hourlyCost := hourlyPrice,
    unit := "gateway",
    details :=
      [{ component := "NAT Gateway Hourly", quantity := HOURS_PER_MONTH,
         unitPrice := hourlyPrice, monthlyCost := monthlyCost, unit := "hours" },
       { component := "Data Processing (est. 100GB)", quantity := estimatedDataGB,
         unitPrice := dataPrice, monthlyCost := dataProcessingCost, unit := "GB" }],
    confidence := .medium }

/-- Calculator for `AWS::ElasticLoadBalancingV2::LoadBalancer` (lines
465-503): base hourly rate plus an assumed 10 average LCUs. -/
def loadBalancerV2Calc (logicalId : String) (isNLB : Bool)
    (hourlyPrice lcuHourlyPrice : ℚ) : ResourceCost :=
  let baseMonthlyCost := hourlyPrice * HOURS_PER_MONTH
  let estimatedLCU : ℚ := 10
  let lcuCost := lcuHourlyPrice * HOURS_PER_MONTH * estimatedLCU
  { resourceId := logicalId, resourceType := "AWS::ElasticLoadBalancingV2::LoadBalancer",
    monthlyCost := baseMonthlyCost + lcuCost,
    hourlyCost := hourlyPrice + lcuHourlyPrice * estimatedLCU,
    unit := "load balancer",
    details :=
      [{ component := (if isNLB then "NLB" else "ALB") ++ " Hourly",
         quantity := HOURS_PER_MONTH, unitPrice := hourlyPrice,
         monthlyCost := baseMonthlyCost, unit := "hours" },
       { component := "LCU (est. 10 avg)", quantity := estimatedLCU * HOURS_PER_MONTH,
         unitPrice := lcuHourlyPrice, monthlyCost := lcuCost, unit := "LCU-hours" }],
    confidence := .medium }

/-- Calculator for `AWS::ElasticLoadBalancing::LoadBalancer` (lines
506-525). -/
def classicLoadBalancerCalc (logicalId : String) (elbHourlyPrice : ℚ) : ResourceCost :=
  let monthlyCost := elbHourlyPrice * HOURS_PER_MONTH
  { resourceId := logicalId, resourceType := "AWS::ElasticLoadBalancing::LoadBalancer",
    monthlyCost := monthlyCost, hourlyCost := elbHourlyPrice,
    unit := "load balancer",
    details := [{ component := "Classic ELB", quantity := HOURS_PER_MONTH,
                  unitPrice := elbHourlyPrice, monthlyCost := monthlyCost,
                  unit := "hours" }],
    confidence := .high }

/-- Calculator for `AWS::ECS::Service` (lines 528-582): zero for the EC2
launch type (cost lives in the instances); an assumed 0.5 vCPU / 1 GB task
otherwise. -/
def ecsServiceCalc (logicalId launchType : String)
    (desiredCount vcpuHourly memoryHourly : ℚ) : ResourceCost :=
  if launchType ≠ "FARGATE" then
    { resourceId := logicalId, resourceType := "AWS::ECS::Service",
      monthlyCost := 0, hourlyCost := 0, unit := "service",
      details := [{ component := "ECS Service (EC2 - cost in instances)",
                    quantity := desiredCount, unitPrice := 0, monthlyCost := 0,
                    unit := "tasks" }],
      confidence := .medium }
  else
    let vcpuCost := vcpuHourly * 0.5 * HOURS_PER_MONTH
    let memoryCost := memoryHourly * 1 * HOURS_PER_MONTH
    let perTaskCost := vcpuCost + memoryCost
    { resourceId := logicalId, resourceType := "AWS::ECS::Service",
      monthlyCost := perTaskCost * desiredCount,
      hourlyCost := perTaskCost / HOURS_PER_MONTH * desiredCount,
      unit := "service",
      details :=
        [{ component := "Fargate vCPU (0.5 vCPU est.)", quantity := desiredCount,
           unitPrice := vcpuCost, monthlyCost := vcpuCost * desiredCount,
           unit := "task/month" },
         { component := "Fargate Memory (1GB est.)", quantity := desiredCount,
           unitPrice := memoryCost, monthlyCost := memoryCost * desiredCount,
           unit := "task/month" }],
      confidence := .low }

/-- Calculator for `AWS::EKS::Cluster` (lines 585-604). -/
def eksClusterCalc (logicalId : String) (hourlyPrice : ℚ) : ResourceCost :=
  let monthlyCost := hourlyPrice * HOURS_PER_MONTH
  { resourceId := logicalId, resourceType := "AWS::EKS::Cluster",
    monthlyCost := monthlyCost, hourlyCost := hourlyPrice, unit := "cluster",
    details := [{ component := "EKS Cluster", quantity := HOURS_PER_MONTH,
                  unitPrice := hourlyPrice, monthlyCost := monthlyCost, unit := "hours" }],
    confidence := .high }

/-- Calculator for `AWS::SecretsManager::Secret` (lines 607-626). -/
def secretsManagerSecretCalc (logicalId : String) (secretPrice : ℚ) : ResourceCost :=
  { resourceId := logicalId, resourceType := "AWS::SecretsManager::Secret",
    monthlyCost := secretPrice, hourlyCost := secretPrice / HOURS_PER_MONTH,
    unit := "secret",
    details := [{ component := "Secrets Manager Secret", quantity := 1,
                  unitPrice := secretPrice, monthlyCost := secretPrice,
                  unit := "secret/month" }],
    confidence := .high }

/-- Calculator for `AWS::KMS::Key` (lines 629-648). -/
def kmsKeyCalc (logicalId : String) (keyPrice : ℚ) : ResourceCost :=
  { resourceId := logicalId, resourceType := "AWS::KMS::Key",
    monthlyCost := keyPrice, hourlyCost := keyPrice / HOURS_PER_MONTH, unit := "key",
    details := [{ component := "KMS Customer Managed Key", quantity := 1,
                  unitPrice := keyPrice, monthlyCost := keyPrice, unit := "key/month" }],
    confidence := .high }

/-- Calculator for `AWS::Route53::HostedZone` (lines 651-670). -/
def route53HostedZoneCalc (logicalId : String) (zonePrice : ℚ) : ResourceCost :=
  { resourceId := logicalId, resourceType := "AWS::Route53::HostedZone",
    monthlyCost := zonePrice, hourlyCost := zonePrice / HOURS_PER_MONTH,
    unit := "hosted zone",
    details := [{ component := "Route53 Hosted Zone", quantity := 1,
                  unitPrice := zonePrice, monthlyCost := zonePrice, unit := "zone/month" }],
    confidence := .high }

/-- Calculator for `AWS::CloudWatch::Alarm` (lines 673-692). -/
def cloudWatchAlarmCalc (logicalId : String) (alarmPrice : ℚ) : ResourceCost :=
  { resourceId := logicalId, resourceType := "AWS::CloudWatch::Alarm",
    monthlyCost := alarmPrice, hourlyCost := alarmPrice / HOURS_PER_MONTH,
    unit := "alarm",
    details := [{ component := "CloudWatch Alarm", quantity := 1,
                  unitPrice := alarmPrice, monthlyCost := alarmPrice,
                  unit := "alarm/month" }],
    confidence := .high }

/-- Calculator for `AWS::CloudWatch::Dashboard` (lines 695-714). -/
def cloudWatchDashboardCalc (logicalId : String) (dashboardPrice : ℚ) : ResourceCost :=
  { resourceId := logicalId, resourceType := "AWS::CloudWatch::Dashboard",
    monthlyCost := dashboardPrice, hourlyCost := dashboardPrice / HOURS_PER_MONTH,
    unit := "dashboard",
    details := [{ component := "CloudWatch Dashboard", quantity := 1,
                  unitPrice := dashboardPrice, monthlyCost := dashboardPrice,
                  unit := "dashboard/month" }],
    confidence := .high }

/-- Calculator for `AWS::EC2::EIP` (lines 717-735): free when attached, and
the source assumes attachment. -/
def ec2EIPCalc (logicalId : String) : ResourceCost :=
  { resourceId := logicalId, resourceType := "AWS::EC2::EIP",
    monthlyCost := 0, hourlyCost := 0, unit := "elastic IP",
    details := [{ component := "Elastic IP (free when attached)", quantity := 1,
                  unitPrice := 0, monthlyCost := 0, unit := "IP/month" }],
    confidence := .medium }

/-- Calculator for `AWS::EC2::VPCEndpoint` (lines 738-781): gateway
endpoints are free; interface endpoints are billed per availability zone
(`subnetIdsLength` is the length of the `SubnetIds` read, default `[]`). -/
def vpcEndpointCalc (logicalId endpointType : String) (hourlyPrice : ℚ)
    (subnetIdsLength : ℕ) : ResourceCost :=
  if endpointType = "Gateway" then
    { resourceId := logicalId, resourceType := "AWS::EC2::VPCEndpoint",
      monthlyCost := 0, hourlyCost := 0, unit := "endpoint",
      details := [{ component := "VPC Gateway Endpoint (free)", quantity := 1,
                    unitPrice := 0, monthlyCost := 0, unit := "endpoint" }],
      confidence := .high }
  else
    let azCount : ℚ := max (subnetIdsLength : ℚ) 1
    let monthlyCost := hourlyPrice * HOURS_PER_MONTH * azCount
    { resourceId := logicalId, resourceType := "AWS::EC2::VPCEndpoint",
      monthlyCost := monthlyCost, hourlyCost := hourlyPrice * azCount,
      unit := "endpoint",
      details := [{ component := "VPC Interface Endpoint (" ++ ratStr azCount ++ " AZ)",
                    quantity := azCount * HOURS_PER_MONTH, unitPrice := hourlyPrice,
                    monthlyCost := monthlyCost, unit := "endpoint-hours" }],
      confidence := .medium }

/-- Calculator for `AWS::EC2::Snapshot` (lines 784-805). -/
def ec2SnapshotCalc (logicalId : String) (snapshotPrice : ℚ) : ResourceCost :=
  let estimatedSizeGB : ℚ := 100
  let monthlyCost := snapshotPrice * estimatedSizeGB
  { resourceId := logicalId, resourceType := "AWS::EC2::Snapshot",
    monthlyCost := monthlyCost, hourlyCost := monthlyCost / HOURS_PER_MONTH,
    unit := "snapshot",
    details := [{ component := "EBS Snapshot Storage (est. 100GB)",
                  quantity := estimatedSizeGB, unitPrice := snapshotPrice,
                  monthlyCost := monthlyCost, unit := "GB/month" }],
    confidence := .low }

/-- Calculator for `AWS::Neptune::DBCluster` (lines 808-829). -/
def neptuneDBClusterCalc (logicalId : String) (storagePrice : ℚ) : ResourceCost :=
  let estimatedStorageGB : ℚ := 100
  let storageCost := storagePrice * estimatedStorageGB
  { resourceId := logicalId, resourceType := "AWS::Neptune::DBCluster",
    monthlyCost := storageCost, hourlyCost := storageCost / HOURS_PER_MONTH,
    unit := "cluster",
    details := [{ component := "Neptune Storage (est. 100GB)",
                  quantity := estimatedStorageGB, unitPrice := storagePrice,
                  monthlyCost := storageCost, unit := "GB/month" }],
    confidence := .low }

/-- Calculator for `AWS::Neptune::DBInstance` (lines 832-852). -/
def neptuneDBInstanceCalc (logicalId instanceClass : String)
    (hourlyPrice : ℚ) : ResourceCost :=
  let monthlyCost := hourlyPrice * HOURS_PER_MONTH
  { resourceId := logicalId, resourceType := "AWS::Neptune::DBInstance",
    monthlyCost := monthlyCost, hourlyCost := hourlyPrice, unit := "instance",
    details := [{ component := "Neptune " ++ instanceClass, quantity := HOURS_PER_MONTH,
                  unitPrice := hourlyPrice, monthlyCost := monthlyCost, unit := "hours" }],
    confidence := .high }

/-- Calculator for `AWS::DocDB::DBCluster` (lines 855-875). -/
def docDBClusterCalc (logicalId : String) (storagePrice : ℚ) : ResourceCost :=
  let estimatedStorageGB : ℚ := 100
  let storageCost := storagePrice * estimatedStorageGB
  { resourceId := logicalId, resourceType := "AWS::DocDB::DBCluster",
    monthlyCost := storageCost, hourlyCost := storageCost / HOURS_PER_MONTH,
    unit := "cluster",
    details := [{ component := "DocumentDB Storage (est. 100GB)",
                  quantity := estimatedStorageGB, unitPrice := storagePrice,
                  monthlyCost := storageCost, unit := "GB/month" }],
    confidence := .low }

/-- Calculator for `AWS::DocDB::DBInstance` (lines 878-898). -/
def docDBInstanceCalc (logicalId instanceClass : String)
    (hourlyPrice : ℚ) : ResourceCost :=
  let monthlyCost := hourlyPrice * HOURS_PER_MONTH
  { resourceId := logicalId, resourceType := "AWS::DocDB::DBInstance",
    monthlyCost := monthlyCost, hourlyCost := hourlyPrice, unit := "instance",
    details := [{ component := "DocumentDB " ++ instanceClass,
                  quantity := HOURS_PER_MONTH, unitPrice := hourlyPrice,
                  monthlyCost := monthlyCost, unit := "hours" }],
    confidence := .high }

/-- Calculator for `AWS::Redshift::Cluster` (lines 901-922). -/
def redshiftClusterCalc (logicalId nodeType : String)
    (numberOfNodes hourlyPrice : ℚ) : ResourceCost :=
  let monthlyCost := hourlyPrice * HOURS_PER_MONTH * numberOfNodes
  { resourceId := logicalId, resourceType := "AWS::Redshift::Cluster",
    monthlyCost := monthlyCost, hourlyCost := hourlyPrice * numberOfNodes,
    unit := "cluster",
    details := [{ component := "Redshift " ++ nodeType ++ " (" ++ ratStr numberOfNodes ++ " nodes)",
                  quantity := numberOfNodes * HOURS_PER_MONTH, unitPrice := hourlyPrice,
                  monthlyCost := monthlyCost, unit := "node-hours" }],
    confidence := .high }

/-- Calculator for `AWS::EC2::VPNConnection` (lines 925-944). -/
def vpnConnectionCalc (logicalId : String) (hourlyPrice : ℚ) : ResourceCost :=
  let monthlyCost := hourlyPrice * HOURS_PER_MONTH
  { resourceId := logicalId, resourceType := "AWS::EC2::VPNConnection",
    monthlyCost := monthlyCost, hourlyCost := hourlyPrice, unit := "connection",
    details := [{ component := "Site-to-Site VPN Connection",
                  quantity := HOURS_PER_MONTH, unitPrice := hourlyPrice,
                  monthlyCost := monthlyCost, unit := "hours" }],
    confidence := .high }

/-- Calculator for `AWS::EC2::TransitGateway` (lines 947-966). -/
def transitGatewayCalc (logicalId : String) (hourlyPrice : ℚ) : ResourceCost :=
  let monthlyCost := hourlyPrice * HOURS_PER_MONTH
  { resourceId := logicalId, resourceType := "AWS::EC2::TransitGateway",
    monthlyCost := monthlyCost, hourlyCost := hourlyPrice, unit := "transit gateway",
    details := [{ component := "Transit Gateway", quantity := HOURS_PER_MONTH,
                  unitPrice := hourlyPrice, monthlyCost := monthlyCost, unit := "hours" }],
    confidence := .high }

/-- Calculator for `AWS::EC2::TransitGatewayAttachment` (lines 969-1002):
the monthly cost adds an estimated 100 GB of data processing, the hourly
cost is the bare hourly rate. -/
def transitGatewayAttachmentCalc (logicalId : String)
    (hourlyPrice dataPrice : ℚ) : ResourceCost :=
  let monthlyCost := hourlyPrice * HOURS_PER_MONTH
  let estimatedDataGB : ℚ := 100
  let dataCost := estimatedDataGB * dataPrice
  { resourceId := logicalId, resourceType := "AWS::EC2::TransitGatewayAttachment",
    monthlyCost := monthlyCost + dataCost, hourlyCost := hourlyPrice,
    unit := "attachment",
    details :=
      [{ component := "Transit Gateway Attachment", quantity := HOURS_PER_MONTH,
         unitPrice := hourlyPrice, monthlyCost := monthlyCost, unit := "hours" },
       { component := "Data Processing (est. 100GB)", quantity := estimatedDataGB,
         unitPrice := dataPrice, monthlyCost := dataCost, unit := "GB" }],
    confidence := .medium }

/-- Calculator for `AWS::DirectConnect::Connection` (lines 1005-1025). -/
def directConnectCalc (logicalId bandwidth : String) (portPrice : ℚ) : ResourceCost :=
  let monthlyCost := portPrice * HOURS_PER_MONTH
  { resourceId := logicalId, resourceType := "AWS::DirectConnect::Connection",
    monthlyCost := monthlyCost, hourlyCost := portPrice, unit := "connection",
    details := [{ component := "Direct Connect " ++ bandwidth,
                  quantity := HOURS_PER_MONTH, unitPrice := portPrice,
                  monthlyCost := monthlyCost, unit := "port-hours" }],
    confidence := .high }

/-- Calculator for `AWS::GlobalAccelerator::Accelerator` (lines 1028-1047). -/
def globalAcceleratorCalc (logicalId : String) (hourlyPrice : ℚ) : ResourceCost :=
  let monthlyCost := hourlyPrice * HOURS_PER_MONTH
  { resourceId := logicalId, resourceType := "AWS::GlobalAccelerator::Accelerator",
    monthlyCost := monthlyCost, hourlyCost := hourlyPrice, unit := "accelerator",
    details := [{ component := "Global Accelerator", quantity := HOURS_PER_MONTH,
                  unitPrice := hourlyPrice, monthlyCost := monthlyCost, unit := "hours" }],
    confidence := .medium }

/-- Calculator for `AWS::AmazonMQ::Broker` (lines 1050-1070). -/
def mqBrokerCalc (logicalId instanceType : String) (hourlyPrice : ℚ) : ResourceCost :=
  let monthlyCost := hourlyPrice * HOURS_PER_MONTH
  { resourceId := logicalId, resourceType := "AWS::AmazonMQ::Broker",
    monthlyCost := monthlyCost, hourlyCost := hourlyPrice, unit := "broker",
    details := [{ component := "Amazon MQ " ++ instanceType, quantity := HOURS_PER_MONTH,
                  unitPrice := hourlyPrice, monthlyCost := monthlyCost, unit := "hours" }],
    confidence := .high }

/-- Calculator for `AWS::MSK::Cluster` (lines 1073-1094). -/
def mskClusterCalc (logicalId instanceType : String)
    (numberOfBrokerNodes hourlyPrice : ℚ) : ResourceCost :=
  let monthlyCost := hourlyPrice * HOURS_PER_MONTH * numberOfBrokerNodes
  { resourceId := logicalId, resourceType := "AWS::MSK::Cluster",
    monthlyCost := monthlyCost, hourlyCost := hourlyPrice * numberOfBrokerNodes,
    unit := "cluster",
    details := [{ component := "MSK " ++ instanceType ++ " (" ++ ratStr numberOfBrokerNodes ++ " brokers)",
                  quantity := numberOfBrokerNodes * HOURS_PER_MONTH,
                  unitPrice := hourlyPrice, monthlyCost := monthlyCost,
                  unit := "broker-hours" }],
    confidence := .high }

/-- Calculator for `AWS::Kinesis::Stream` (lines 1097-1117). -/
def kinesisStreamCalc (logicalId : String) (shardCount shardHourly : ℚ) : ResourceCost :=
  let monthlyCost := shardHourly * HOURS_PER_MONTH * shardCount
  { resourceId := logicalId, resourceType := "AWS::Kinesis::Stream",
    monthlyCost := monthlyCost, hourlyCost := shardHourly * shardCount,
    unit := "stream",
    details := [{ component := "Kinesis Stream (" ++ ratStr shardCount ++ " shards)",
                  quantity := shardCount * HOURS_PER_MONTH, unitPrice := shardHourly,
                  monthlyCost := monthlyCost, unit := "shard-hours" }],
    confidence := .high }

/-- Calculator for `AWS::KinesisFirehose::DeliveryStream` (lines 1120-1141). -/
def kinesisFirehoseCalc (logicalId : String) (dataPrice : ℚ) : ResourceCost :=
  let estimatedDataGB : ℚ := 100
  let monthlyCost := estimatedDataGB * dataPrice
  { resourceId := logicalId, resourceType := "AWS::KinesisFirehose::DeliveryStream",
    monthlyCost := monthlyCost, hourlyCost := monthlyCost / HOURS_PER_MONTH,
    unit := "delivery stream",
    details := [{ component := "Kinesis Firehose Data Ingested (est. 100GB)",
                  quantity := estimatedDataGB, unitPrice := dataPrice,
                  monthlyCost := monthlyCost, unit := "GB" }],
    confidence := .low }

/-- Calculator for `AWS::EFS::FileSystem` (lines 1144-1182): assumed 100 GB
of standard storage, plus the provisioned-throughput surcharge when the
throughput mode is `provisioned` with a positive provisioned value. -/
def efsFileSystemCalc (logicalId throughputMode : String)
    (provisionedThroughput standardPrice throughputPrice : ℚ) : ResourceCost :=
  let estimatedStorageGB : ℚ := 100
  let baseStorageCost := estimatedStorageGB * standardPrice
  let throughputPart : ℚ × List CostDetail :=
    if throughputMode = "provisioned" ∧ provisionedThroughput > 0 then
      (provisionedThroughput * throughputPrice,
       [{ component := "Provisioned Throughput (" ++ ratStr provisionedThroughput ++ " MiBps)",
          quantity := provisionedThroughput, unitPrice := throughputPrice,
          monthlyCost := provisionedThroughput * throughputPrice, unit := "MiBps/month" }])
    else (0, [])
  let storageCost := baseStorageCost + throughputPart.1
  { resourceId := logicalId, resourceType := "AWS::EFS::FileSystem",
    monthlyCost := storageCost, hourlyCost := storageCost / HOURS_PER_MONTH,
    unit := "file system",
    details := [{ component := "EFS Standard Storage (est. 100GB)",
                  quantity := estimatedStorageGB, unitPrice := standardPrice,
                  monthlyCost := baseStorageCost, unit := "GB/month" }] ++ throughputPart.2,
    confidence := .low }

/-- Calculator for `AWS::FSx::FileSystem` (lines 1185-1221): the
`FileSystemType` switch only selects the per-GB price, which is the
`pricePerGB` argument here. -/
def fsxFileSystemCalc (logicalId fileSystemType : String)
    (storageCapacity pricePerGB : ℚ) : ResourceCost :=
  let monthlyCost := storageCapacity * pricePerGB
  { resourceId := logicalId, resourceType := "AWS::FSx::FileSystem",
    monthlyCost := monthlyCost, hourlyCost := monthlyCost / HOURS_PER_MONTH,
    unit := "file system",
    details := [{ component := "FSx " ++ fileSystemType ++ " Storage (" ++ ratStr storageCapacity ++ "GB)",
                  quantity := storageCapacity, unitPrice := pricePerGB,
                  monthlyCost := monthlyCost, unit := "GB/month" }],
    confidence := .high }

/-- Calculator for `AWS::Backup::BackupVault` (lines 1224-1245). -/
def backupVaultCalc (logicalId : String) (storagePrice : ℚ) : ResourceCost :=
  let estimatedStorageGB : ℚ := 100
  let monthlyCost := estimatedStorageGB * storagePrice
  { resourceId := logicalId, resourceType := "AWS::Backup::BackupVault",
    monthlyCost := monthlyCost, hourlyCost := monthlyCost / HOURS_PER_MONTH,
    unit := "vault",
    details := [{ component := "AWS Backup Storage (est. 100GB)",
                  quantity := estimatedStorageGB, unitPrice := storagePrice,
                  monthlyCost := monthlyCost, unit := "GB/month" }],
    confidence := .low }

/-- Calculator for `AWS::CloudFront::Distribution` (lines 1248-1283). -/
def cloudFrontDistributionCalc (logicalId : String)
    (dataPrice requestPrice : ℚ) : ResourceCost :=
  let estimatedDataGB : ℚ := 100
  let estimatedRequests : ℚ := 1000000
  let dataCost := estimatedDataGB * dataPrice
  let requestCost := estimatedRequests / 10000 * requestPrice
  let monthlyCost := dataCost + requestCost
  { resourceId := logicalId, resourceType := "AWS::CloudFront::Distribution",
    monthlyCost := monthlyCost, hourlyCost := monthlyCost / HOURS_PER_MONTH,
    unit := "distribution",
    details :=
      [{ component := "CloudFront Data Transfer (est. 100GB)",
         quantity := estimatedDataGB, unitPrice := dataPrice, monthlyCost := dataCost,
         unit := "GB" },
       { component := "HTTPS Requests (est. 1M)", quantity := estimatedRequests / 10000,
         unitPrice := requestPrice, monthlyCost := requestCost, unit := "10k requests" }],
    confidence := .low }

/-- Calculator for `AWS::ACMPCA::CertificateAuthority` (lines 1286-1304):
fixed `$400`/month. -/
def acmpcaCalc (logicalId : String) : ResourceCost :=
  let monthlyPrice : ℚ := 400
  { resourceId := logicalId, resourceType := "AWS::ACMPCA::CertificateAuthority",
    monthlyCost := monthlyPrice, hourlyCost := monthlyPrice / HOURS_PER_MONTH,
    unit := "certificate authority",
    details := [{ component := "ACM Private Certificate Authority", quantity := 1,
                  unitPrice := monthlyPrice, monthlyCost := monthlyPrice,
                  unit := "CA/month" }],
    confidence := .high }

/-- Calculator for `AWS::Config::ConfigRule` (lines 1307-1325). -/
def configRuleCalc (logicalId : String) (rulePrice : ℚ) : ResourceCost :=
  { resourceId := logicalId, resourceType := "AWS::Config::ConfigRule",
    monthlyCost := rulePrice, hourlyCost := rulePrice / HOURS_PER_MONTH,
    unit := "rule",
    details := [{ component := "AWS Config Rule", quantity := 1,
                  unitPrice := rulePrice, monthlyCost := rulePrice,
                  unit := "rule/month" }],
    confidence := .medium }

/-- Calculator for `AWS::CloudTrail::Trail` (lines 1328-1351). -/
def cloudTrailCalc (logicalId : String) (isMultiRegion : Bool)
    (dataEventPrice : ℚ) : ResourceCost :=
  let estimatedDataEvents : ℚ := 100000
  let monthlyCost := estimatedDataEvents / 100000 * dataEventPrice
  { resourceId := logicalId, resourceType := "AWS::CloudTrail::Trail",
    monthlyCost := monthlyCost, hourlyCost := monthlyCost / HOURS_PER_MONTH,
    unit := "trail",
    details := [{ component := "CloudTrail" ++ (if isMultiRegion then " (Multi-Region)" else "") ++
                    " Data Events (est. 100k)",
                  quantity := estimatedDataEvents, unitPrice := dataEventPrice / 100000,
                  monthlyCost := monthlyCost, unit := "events" }],
    confidence := .low }

/-- Calculator for `AWS::CodeBuild::Project` (lines 1354-1401): the
environment/compute-type branches only select `pricePerMinute`. -/
def codeBuildCalc (logicalId computeType : String) (pricePerMinute : ℚ) : ResourceCost :=
  let estimatedMinutes : ℚ := 100
  let monthlyCost := estimatedMinutes * pricePerMinute
  { resourceId := logicalId, resourceType := "AWS::CodeBuild::Project",
    monthlyCost := monthlyCost, hourlyCost := monthlyCost / HOURS_PER_MONTH,
    unit := "project",
    details := [{ component := "CodeBuild " ++ computeType ++ " (est. 100 min)",
                  quantity := estimatedMinutes, unitPrice := pricePerMinute,
                  monthlyCost := monthlyCost, unit := "minutes" }],
    confidence := .low }

/-- Calculator for `AWS::Glue::Job` (lines 1404-1425). -/
def glueJobCalc (logicalId : String) (dpuPrice : ℚ) : ResourceCost :=
  let estimatedDpuHours : ℚ := 10
  let monthlyCost := estimatedDpuHours * dpuPrice
  { resourceId := logicalId, resourceType := "AWS::Glue::Job",
    monthlyCost := monthlyCost, hourlyCost := monthlyCost / HOURS_PER_MONTH,
    unit := "job",
    details := [{ component := "Glue Job (est. 10 DPU-hours)",
                  quantity := estimatedDpuHours, unitPrice := dpuPrice,
                  monthlyCost := monthlyCost, unit := "DPU-hours" }],
    confidence := .low }

/-- Calculator for `AWS::Glue::Crawler` (lines 1428-1449). -/
def glueCrawlerCalc (logicalId : String) (dpuPrice : ℚ) : ResourceCost :=
  let estimatedDpuHours : ℚ := 5
  let monthlyCost := estimatedDpuHours * dpuPrice
  { resourceId := logicalId, resourceType := "AWS::Glue::Crawler",
    monthlyCost := monthlyCost, hourlyCost := monthlyCost / HOURS_PER_MONTH,
    unit := "crawler",
    details := [{ component := "Glue Crawler (est. 5 DPU-hours)",
                  quantity := estimatedDpuHours, unitPrice := dpuPrice,
                  monthlyCost := monthlyCost, unit := "DPU-hours" }],
    confidence := .low }

/-- Calculator for `AWS::WAFv2::WebACL` (lines 1452-1487): base ACL fee plus
one fee per declared rule (`ruleCount` is the length of the raw `Rules`
property, default `[]`). -/
def wafv2WebACLCalc (logicalId : String) (ruleCount : ℕ)
    (webAclPrice rulePrice : ℚ) : ResourceCost :=
  let monthlyCost := webAclPrice + (ruleCount : ℚ) * rulePrice
  let ruleDetails : List CostDetail :=
    if ruleCount > 0 then
      [{ component := "Rules (" ++ toString ruleCount ++ ")", quantity := (ruleCount : ℚ),
         unitPrice := rulePrice, monthlyCost := (ruleCount : ℚ) * rulePrice,
         unit := "rules/month" }]
    else []
  { resourceId := logicalId, resourceType := "AWS::WAFv2::WebACL",
    monthlyCost := monthlyCost, hourlyCost := monthlyCost / HOURS_PER_MONTH,
    unit := "web ACL",
    details := [{ component := "Web ACL", quantity := 1, unitPrice := webAclPrice,
                  monthlyCost := webAclPrice, unit := "ACL/month" }] ++ ruleDetails,
    confidence := .medium }

/-- Calculator for `AWS::WAF::WebACL` (lines 1490-1508). -/
def wafWebACLCalc (logicalId : String) (webAclPrice : ℚ) : ResourceCost :=
  { resourceId := logicalId, resourceType := "AWS::WAF::WebACL",
    monthlyCost := webAclPrice, hourlyCost := webAclPrice / HOURS_PER_MONTH,
    unit := "web ACL",
    details := [{ component := "WAF Web ACL", quantity := 1, unitPrice := webAclPrice,
                  monthlyCost := webAclPrice, unit := "ACL/month" }],
    confidence := .medium }

/-- Calculator for `AWS::OpenSearchService::Domain` (lines 1511-1532). -/
def openSearchDomainCalc (logicalId instanceType : String)
    (instanceCount hourlyPrice : ℚ) : ResourceCost :=
  let monthlyCost := hourlyPrice * HOURS_PER_MONTH * instanceCount
  { resourceId := logicalId, resourceType := "AWS::OpenSearchService::Domain",
    monthlyCost := monthlyCost, hourlyCost := hourlyPrice * instanceCount,
    unit := "domain",
    details := [{ component := "OpenSearch " ++ instanceType ++ " (" ++ ratStr instanceCount ++ " instances)",
                  quantity := instanceCount * HOURS_PER_MONTH, unitPrice := hourlyPrice,
                  monthlyCost := monthlyCost, unit := "instance-hours" }],
    confidence := .high }

/-- Calculator for `AWS::Elasticsearch::Domain` (lines 1535-1556). -/
def elasticsearchDomainCalc (logicalId instanceType : String)
    (instanceCount hourlyPrice : ℚ) : ResourceCost :=
  let monthlyCost := hourlyPrice * HOURS_PER_MONTH * instanceCount
  { resourceId := logicalId, resourceType := "AWS::Elasticsearch::Domain",
    monthlyCost := monthlyCost, hourlyCost := hourlyPrice * instanceCount,
    unit := "domain",
    details := [{ component := "Elasticsearch " ++ instanceType ++ " (" ++ ratStr instanceCount ++ " instances)",
                  quantity := instanceCount * HOURS_PER_MONTH, unitPrice := hourlyPrice,
                  monthlyCost := monthlyCost, unit := "instance-hours" }],
    confidence := .high }

/-- Calculator for `AWS::Lightsail::Instance` (lines 1559-1585): the
`BundleId` substring checks only select `monthlyPrice`. -/
def lightsailInstanceCalc (logicalId bundleId : String)
    (monthlyPrice : ℚ) : ResourceCost :=
  { resourceId := logicalId, resourceType := "AWS::Lightsail::Instance",
    monthlyCost := monthlyPrice, hourlyCost := monthlyPrice / HOURS_PER_MONTH,
    unit := "instance",
    details := [{ component := "Lightsail " ++ bundleId, quantity := 1,
                  unitPrice := monthlyPrice, monthlyCost := monthlyPrice,
                  unit := "instance/month" }],
    confidence := .high }

/-- Calculator for `AWS::DMS::ReplicationInstance` (lines 1588-1608). -/
def dmsReplicationInstanceCalc (logicalId instanceClass : String)
    (hourlyPrice : ℚ) : ResourceCost :=
  let monthlyCost := hourlyPrice * HOURS_PER_MONTH
  { resourceId := logicalId, resourceType := "AWS::DMS::ReplicationInstance",
    monthlyCost := monthlyCost, hourlyCost := hourlyPrice, unit := "instance",
    details := [{ component := "DMS " ++ instanceClass, quantity := HOURS_PER_MONTH,
                  unitPrice := hourlyPrice, monthlyCost := monthlyCost, unit := "hours" }],
    confidence := .high }

/-- Calculator for `AWS::Transfer::Server` (lines 1611-1630). -/
def transferServerCalc (logicalId : String) (hourlyPrice : ℚ) : ResourceCost :=
  let monthlyCost := hourlyPrice * HOURS_PER_MONTH
  { resourceId := logicalId, resourceType := "AWS::Transfer::Server",
    monthlyCost := monthlyCost, hourlyCost := hourlyPrice, unit := "server",
    details := [{ component := "AWS Transfer Family Server", quantity := HOURS_PER_MONTH,
                  unitPrice := hourlyPrice, monthlyCost := monthlyCost, unit := "hours" }],
    confidence := .medium }

/-- Calculator for `AWS::CodePipeline::Pipeline` (lines 1633-1651). -/
def codePipelineCalc (logicalId : String) (pipelinePrice : ℚ) : ResourceCost :=
  { resourceId := logicalId, resourceType := "AWS::CodePipeline::Pipeline",
    monthlyCost := pipelinePrice, hourlyCost := pipelinePrice / HOURS_PER_MONTH,
    unit := "pipeline",
    details := [{ component := "CodePipeline Active Pipeline", quantity := 1,
                  unitPrice := pipelinePrice, monthlyCost := pipelinePrice,
                  unit := "pipeline/month" }],
    confidence := .high }

/-- Calculator for `AWS::NetworkFirewall::Firewall` (lines 1654-1690): the
hard-coded `$0.395` endpoint-hour and `$0.065`/GB rates; `endpointCount` is
the length of `SubnetMappings` (default one mapping).  The monthly cost adds
an estimated 100 GB of data processing, the hourly cost covers only the
endpoint component. -/
def networkFirewallCalc (logicalId : String) (endpointCount : ℕ) : ResourceCost :=
  let endpointHourly : ℚ := 0.395
  let baseCost := endpointHourly * HOURS_PER_MONTH * (endpointCount : ℚ)
  let estimatedDataGB : ℚ := 100
  let dataPrice : ℚ := 0.065
  let dataCost := estimatedDataGB * dataPrice
  { resourceId := logicalId, resourceType := "AWS::NetworkFirewall::Firewall",
    monthlyCost := baseCost + dataCost,
    hourlyCost := endpointHourly * (endpointCount : ℚ),
    unit := "firewall",
    details :=
      [{ component := "Network Firewall Endpoints (" ++ toString endpointCount ++ ")",
         quantity := (endpointCount : ℚ) * HOURS_PER_MONTH, unitPrice := endpointHourly,
         monthlyCost := baseCost, unit := "endpoint-hours" },
       { component := "Data Processing (est. 100GB)", quantity := estimatedDataGB,
         unitPrice := dataPrice, monthlyCost := dataCost, unit := "GB" }],
    confidence := .medium }

/-- Calculator for `AWS::Grafana::Workspace` (lines 1693-1714): `$9` per
editor, assumed two editors. -/
def grafanaWorkspaceCalc (logicalId : String) : ResourceCost :=
  let editorPrice : ℚ := 9
  let estimatedEditors : ℚ := 2
  let monthlyCost := editorPrice * estimatedEditors
  { resourceId := logicalId, resourceType := "AWS::Grafana::Workspace",
    monthlyCost := monthlyCost, hourlyCost := monthlyCost / HOURS_PER_MONTH,
    unit := "workspace",
    details := [{ component := "Managed Grafana Editors (est. 2)",
                  quantity := estimatedEditors, unitPrice := editorPrice,
                  monthlyCost := monthlyCost, unit := "editors/month" }],
    confidence := .low }

/-- Calculator for `AWS::SageMaker::NotebookInstance` (lines 1717-1737). -/
def sageMakerNotebookCalc (logicalId instanceType : String)
    (hourlyPrice : ℚ) : ResourceCost :=
  let monthlyCost := hourlyPrice * HOURS_PER_MONTH
  { resourceId := logicalId, resourceType := "AWS::SageMaker::NotebookInstance",
    monthlyCost := monthlyCost, hourlyCost := hourlyPrice, unit := "notebook instance",
    details := [{ component := "SageMaker Notebook " ++ instanceType,
                  quantity := HOURS_PER_MONTH, unitPrice := hourlyPrice,
                  monthlyCost := monthlyCost, unit := "hours" }],
    confidence := .medium }

/-- Calculator for `AWS::DirectoryService::SimpleAD` (lines 1740-1765). -/
def simpleADCalc (logicalId size : String) (hourlyPrice : ℚ) : ResourceCost :=
  let monthlyCost := hourlyPrice * HOURS_PER_MONTH
  { resourceId := logicalId, resourceType := "AWS::DirectoryService::SimpleAD",
    monthlyCost := monthlyCost, hourlyCost := hourlyPrice, unit := "directory",
    details := [{ component := "Simple AD (" ++ size ++ ")", quantity := HOURS_PER_MONTH,
                  unitPrice := hourlyPrice, monthlyCost := monthlyCost, unit := "hours" }],
    confidence := .high }

/-- Calculator for `AWS::DirectoryService::MicrosoftAD` (lines 1768-1793). -/
def microsoftADCalc (logicalId edition : String) (hourlyPrice : ℚ) : ResourceCost :=
  let monthlyCost := hourlyPrice * HOURS_PER_MONTH
  { resourceId := logicalId, resourceType := "AWS::DirectoryService::MicrosoftAD",
    monthlyCost := monthlyCost, hourlyCost := hourlyPrice, unit := "directory",
    details := [{ component := "Microsoft AD (" ++ edition ++ ")",
                  quantity := HOURS_PER_MONTH, unitPrice := hourlyPrice,
                  monthlyCost := monthlyCost, unit := "hours" }],
    confidence := .high }

/-- Calculator for `AWS::MWAA::Environment` (lines 1796-1817). -/
def mwaaCalc (logicalId environmentClass : String) (hourlyPrice : ℚ) : ResourceCost :=
  let monthlyCost := hourlyPrice * HOURS_PER_MONTH
  { resourceId := logicalId, resourceType := "AWS::MWAA::Environment",
    monthlyCost := monthlyCost, hourlyCost := hourlyPrice, unit := "environment",
    details := [{ component := "MWAA Environment (" ++ environmentClass ++ ")",
                  quantity := HOURS_PER_MONTH, unitPrice := hourlyPrice,
                  monthlyCost := monthlyCost, unit := "hours" }],
    confidence := .high }

/-- Calculator for `AWS::KinesisAnalyticsV2::Application` (lines 1820-1842):
one KPU assumed running. -/
def kinesisAnalyticsCalc (logicalId : String) (kpuHourly : ℚ) : ResourceCost :=
  let runningKpus : ℚ := 1
  let monthlyCost := kpuHourly * runningKpus * HOURS_PER_MONTH
  { resourceId := logicalId, resourceType := "AWS::KinesisAnalyticsV2::Application",
    monthlyCost := monthlyCost, hourlyCost := kpuHourly * runningKpus,
    unit := "application",
    details := [{ component := "Kinesis Analytics Application (1 KPU est.)",
                  quantity := HOURS_PER_MONTH, unitPrice := kpuHourly,
                  monthlyCost := monthlyCost, unit := "KPU-hours" }],
    confidence := .low }

/-- Calculator for `AWS::CloudFront::Function` (lines 1845-1866). -/
def cloudFrontFunctionCalc (logicalId : String) (pricePerMillion : ℚ) : ResourceCost :=
  let estimatedInvocations : ℚ := 2000000
  let monthlyCost := estimatedInvocations / 1000000 * pricePerMillion
  { resourceId := logicalId, resourceType := "AWS::CloudFront::Function",
    monthlyCost := monthlyCost, hourlyCost := monthlyCost / HOURS_PER_MONTH,
    unit := "function",
    details := [{ component := "CloudFront Function Invocations (est. 2M/mo)",
                  quantity := estimatedInvocations, unitPrice := pricePerMillion / 1000000,
                  monthlyCost := monthlyCost, unit := "invocations" }],
    confidence := .low }

/-- Calculator for `AWS::Route53Resolver::ResolverEndpoint` (lines
1869-1891): at least two ENIs assumed (`ipAddressesLength` is the length of
the `IpAddresses` read, default `[]`). -/
def route53ResolverEndpointCalc (logicalId : String) (ipAddressesLength : ℕ)
    (hourlyPrice : ℚ) : ResourceCost :=
  let eniCount : ℚ := max (ipAddressesLength : ℚ) 2
  let monthlyCost := hourlyPrice * eniCount * HOURS_PER_MONTH
  { resourceId := logicalId, resourceType := "AWS::Route53Resolver::ResolverEndpoint",
    monthlyCost := monthlyCost, hourlyCost := hourlyPrice * eniCount,
    unit := "endpoint",
    details := [{ component := "Resolver Endpoint ENIs (" ++ ratStr eniCount ++ ")",
                  quantity := eniCount * HOURS_PER_MONTH, unitPrice := hourlyPrice,
                  monthlyCost := monthlyCost, unit := "ENI-hours" }],
    confidence := .medium }

/-- Calculator for `AWS::Route53::HealthCheck` (lines 1894-1913). -/
def route53HealthCheckCalc (logicalId : String) (monthlyPrice : ℚ) : ResourceCost :=
  { resourceId := logicalId, resourceType := "AWS::Route53::HealthCheck",
    monthlyCost := monthlyPrice, hourlyCost := monthlyPrice / HOURS_PER_MONTH,
    unit := "health check",
    details := [{ component := "Route 53 Health Check (Basic)", quantity := 1,
                  unitPrice := monthlyPrice, monthlyCost := monthlyPrice,
                  unit := "check/month" }],
    confidence := .medium }

/-- Calculator for `AWS::EC2::ClientVpnEndpoint` (lines 1916-1950): endpoint
hours plus one assumed active connection. -/
def clientVpnEndpointCalc (logicalId : String)
    (hourlyPrice connectionHourly : ℚ) : ResourceCost :=
  let estimatedConnections : ℚ := 1
  let endpointCost := hourlyPrice * HOURS_PER_MONTH
  let connectionCost := connectionHourly * estimatedConnections * HOURS_PER_MONTH
  let monthlyCost := endpointCost + connectionCost
  { resourceId := logicalId, resourceType := "AWS::EC2::ClientVpnEndpoint",
    monthlyCost := monthlyCost,
    hourlyCost := hourlyPrice + connectionHourly * estimatedConnections,
    unit := "endpoint",
    details :=
      [{ component := "Client VPN Endpoint", quantity := HOURS_PER_MONTH,
         unitPrice := hourlyPrice, monthlyCost := endpointCost, unit := "hours" },
       { component := "VPN Connection (est. 1)",
         quantity := estimatedConnections * HOURS_PER_MONTH,
         unitPrice := connectionHourly, monthlyCost := connectionCost,
         unit := "connection-hours" }],
    confidence := .medium }

/-- Calculator for `AWS::EC2::TrafficMirrorSession` (lines 1953-1972). -/
def trafficMirrorSessionCalc (logicalId : String) (hourlyPrice : ℚ) : ResourceCost :=
  let monthlyCost := hourlyPrice * HOURS_PER_MONTH
  { resourceId := logicalId, resourceType := "AWS::EC2::TrafficMirrorSession",
    monthlyCost := monthlyCost, hourlyCost := hourlyPrice, unit := "session",
    details := [{ component := "Traffic Mirror Session", quantity := HOURS_PER_MONTH,
                  unitPrice := hourlyPrice, monthlyCost := monthlyCost, unit := "hours" }],
    confidence := .high }

/-- Calculator for `AWS::EC2::TransitGatewayPeeringAttachment` (lines
1975-1994). -/
def tgwPeeringAttachmentCalc (logicalId : String) (hourlyPrice : ℚ) : ResourceCost :=
  let monthlyCost := hourlyPrice * HOURS_PER_MONTH
  { resourceId := logicalId, resourceType := "AWS::EC2::TransitGatewayPeeringAttachment",
    monthlyCost := monthlyCost, hourlyCost := hourlyPrice, unit := "attachment",
    details := [{ component := "Transit Gateway Peering Attachment",
                  quantity := HOURS_PER_MONTH, unitPrice := hourlyPrice,
                  monthlyCost := monthlyCost, unit := "hours" }],
    confidence := .high }

/-- Calculator for `AWS::EC2::Host` (lines 1997-2018). -/
def ec2HostCalc (logicalId instanceType : String) (hostPrice : ℚ) : ResourceCost :=
  let monthlyCost := hostPrice * HOURS_PER_MONTH
  { resourceId := logicalId, resourceType := "AWS::EC2::Host",
    monthlyCost := monthlyCost, hourlyCost := hostPrice, unit := "host",
    details := [{ component := "Dedicated Host (" ++ instanceType ++ ")",
                  quantity := HOURS_PER_MONTH, unitPrice := hostPrice,
                  monthlyCost := monthlyCost, unit := "hours" }],
    confidence := .medium }

/-- Calculator for `AWS::EKS::Nodegroup` (lines 2021-2046). -/
def eksNodegroupCalc (logicalId instanceType : String)
    (desiredSize hourlyPrice : ℚ) : ResourceCost :=
  let monthlyCost := hourlyPrice * HOURS_PER_MONTH * desiredSize
  { resourceId := logicalId, resourceType := "AWS::EKS::Nodegroup",
    monthlyCost := monthlyCost, hourlyCost := hourlyPrice * desiredSize,
    unit := "nodegroup",
    details := [{ component := "EKS Node Group (" ++ ratStr desiredSize ++ " x " ++ instanceType ++ ")",
                  quantity := desiredSize * HOURS_PER_MONTH, unitPrice := hourlyPrice,
                  monthlyCost := monthlyCost, unit := "instance-hours" }],
    confidence := .medium }

/-- Calculator for `AWS::EKS::FargateProfile` (lines 2049-2076): one small
pod assumed (0.25 vCPU, 0.5 GB). -/
def eksFargateProfileCalc (logicalId : String)
    (vcpuHourly memoryHourly : ℚ) : ResourceCost :=
  let estimatedVcpu : ℚ := 0.25
  let estimatedMemory : ℚ := 0.5
  let hourlyCost := vcpuHourly * estimatedVcpu + memoryHourly * estimatedMemory
  let monthlyCost := hourlyCost * HOURS_PER_MONTH
  { resourceId := logicalId, resourceType := "AWS::EKS::FargateProfile",
    monthlyCost := monthlyCost, hourlyCost := hourlyCost, unit := "profile",
    details := [{ component := "Fargate Pods (est. 1 small pod)",
                  quantity := HOURS_PER_MONTH, unitPrice := hourlyCost,
                  monthlyCost := monthlyCost, unit := "pod-hours" }],
    confidence := .low }

/-- Calculator for `AWS::Glue::Database` (lines 2079-2104): reported as
free. -/
def glueDatabaseCalc (logicalId : String) : ResourceCost :=
  { resourceId := logicalId, resourceType := "AWS::Glue::Database",
    monthlyCost := 0, hourlyCost := 0, unit := "database",
    details := [{ component := "Glue Database (free tier/negligible)", quantity := 1,
                  unitPrice := 0, monthlyCost := 0, unit := "database" }],
    confidence := .high }

/-- Calculator for `AWS::Config::ConfigurationRecorder` (lines 2107-2129). -/
def configRecorderCalc (logicalId : String) (itemPrice : ℚ) : ResourceCost :=
  let estimatedItems : ℚ := 1000
  let monthlyCost := estimatedItems * itemPrice
  { resourceId := logicalId, resourceType := "AWS::Config::ConfigurationRecorder",
    monthlyCost := monthlyCost, hourlyCost := monthlyCost / HOURS_PER_MONTH,
    unit := "recorder",
    details := [{ component := "Config Items Recorded (est. 1000/mo)",
                  quantity := estimatedItems, unitPrice := itemPrice,
                  monthlyCost := monthlyCost, unit := "items" }],
    confidence := .low }

/-- Calculator for `AWS::SSM::Activation` (lines 2132-2153): standard tier
assumed, which is free. -/
def ssmActivationCalc (logicalId : String) : ResourceCost :=
  { resourceId := logicalId, resourceType := "AWS::SSM::Activation",
    monthlyCost := 0, hourlyCost := 0, unit := "activation",
    details := [{ component := "SSM Activation (Standard)", quantity := 1,
                  unitPrice := 0, monthlyCost := 0, unit := "activation" }],
    confidence := .medium }

/-! ### Usage-based estimators (`src/cost-calculator.ts` lines 2161-2616) -/

/-- `calculateLambdaCost` (lines 2161-2205): 100,000 invocations assumed at
half the timeout, with the 400,000 GB-second free tier deducted. -/
def calculateLambdaCost (logicalId : String)
    (memorySize timeout requestPrice durationPrice : ℚ) : ResourceCost :=
  let estimatedInvocations : ℚ := 100000
  let avgDurationMs := timeout * 500
  let freeDuration : ℚ := 400000
  let gbSeconds := memorySize / 1024 * (avgDurationMs / 1000) * estimatedInvocations
  let requestCost := estimatedInvocations / 1000000 * requestPrice
  let computeCost := max 0 (gbSeconds - freeDuration) * durationPrice
  { resourceId := logicalId, resourceType := "AWS::Lambda::Function",
    monthlyCost := requestCost + computeCost,
    hourlyCost := (requestCost + computeCost) / HOURS_PER_MONTH,
    unit := "function",
    details :=
      [{ component := "Lambda Requests (est. 100,000/mo)",
         quantity := estimatedInvocations, unitPrice := requestPrice / 1000000,
         monthlyCost := requestCost, unit := "requests" },
       { component := "Lambda Compute (" ++ ratStr memorySize ++ "MB, " ++
           ratStr avgDurationMs ++ "ms avg)",
         quantity := gbSeconds, unitPrice := durationPrice,
         monthlyCost := computeCost, unit := "GB-seconds" }],
    confidence := .low }

/-- `calculateDynamoDBCost` (lines 2210-2291): the on-demand branch for
`PAY_PER_REQUEST` billing (1M writes, 5M reads assumed), the provisioned
branch otherwise (read/write capacity units at the per-hour unit price). -/
def calculateDynamoDBCost (logicalId billingMode : String)
    (onDemandWrite onDemandRead readCapacity writeCapacity
     readCapacityPrice writeCapacityPrice : ℚ) : ResourceCost :=
  if billingMode = "PAY_PER_REQUEST" then
    let estimatedWrites : ℚ := 1000000
    let estimatedReads : ℚ := 5000000
    let writeCost := estimatedWrites / 1000000 * onDemandWrite
    let readCost := estimatedReads / 1000000 * onDemandRead
    { resourceId := logicalId, resourceType := "AWS::DynamoDB::Table",
      monthlyCost := writeCost + readCost,
      hourlyCost := (writeCost + readCost) / HOURS_PER_MONTH,
      unit := "table",
      details :=
        [{ component := "DynamoDB On-Demand Writes (est. 1M/mo)",
           quantity := estimatedWrites, unitPrice := onDemandWrite / 1000000,
           monthlyCost := writeCost, unit := "writes" },
         { component := "DynamoDB On-Demand Reads (est. 5M/mo)",
           quantity := estimatedReads, unitPrice := onDemandRead / 1000000,
           monthlyCost := readCost, unit := "reads" }],
      confidence := .low }
  else
    let readCost := readCapacity * readCapacityPrice * HOURS_PER_MONTH
    let writeCost := writeCapacity * writeCapacityPrice * HOURS_PER_MONTH
    { resourceId := logicalId, resourceType := "AWS::DynamoDB::Table",
      monthlyCost := readCost + writeCost,
      hourlyCost := (readCost + writeCost) / HOURS_PER_MONTH,
      unit := "table",
      details :=
        [{ component := "DynamoDB Read Capacity (" ++ ratStr readCapacity ++ " RCU)",
           quantity := readCapacity, unitPrice := readCapacityPrice * HOURS_PER_MONTH,
           monthlyCost := readCost, unit := "RCU/month" },
         { component := "DynamoDB Write Capacity (" ++ ratStr writeCapacity ++ " WCU)",
           quantity := writeCapacity, unitPrice := writeCapacityPrice * HOURS_PER_MONTH,
           monthlyCost := writeCost, unit := "WCU/month" }],
      confidence := .medium }

/-- `calculateS3Cost` (lines 2296-2322): 100 GB of standard storage
assumed. -/
def calculateS3Cost (logicalId : String) (standardStorage : ℚ) : ResourceCost :=
  let estimatedStorageGB : ℚ := 100
  let storageCost := estimatedStorageGB * standardStorage
  { resourceId := logicalId, resourceType := "AWS::S3::Bucket",
    monthlyCost := storageCost, hourlyCost := storageCost / HOURS_PER_MONTH,
    unit := "bucket",
    details := [{ component := "S3 Storage (est. 100GB)",
                  quantity := estimatedStorageGB, unitPrice := standardStorage,
                  monthlyCost := storageCost, unit := "GB/month" }],
    confidence := .low }

/-- `calculateSQSCost` (lines 2327-2356): 1M requests assumed, at the FIFO
or standard unit price depending on the queue name/flag. -/
def calculateSQSCost (logicalId : String) (isFifo : Bool)
    (fifoPrice standardPrice : ℚ) : ResourceCost :=
  let estimatedRequests : ℚ := 1000000
  let pricePerMillion := if isFifo then fifoPrice else standardPrice
  let requestCost := estimatedRequests / 1000000 * pricePerMillion
  { resourceId := logicalId, resourceType := "AWS::SQS::Queue",
    monthlyCost := requestCost, hourlyCost := requestCost / HOURS_PER_MONTH,
    unit := "queue",
    details := [{ component := "SQS " ++ (if isFifo then "FIFO" else "Standard") ++
                    " Requests (est. 1M/mo)",
                  quantity := estimatedRequests, unitPrice := pricePerMillion / 1000000,
                  monthlyCost := requestCost, unit := "requests" }],
    confidence := .low }

/-- `calculateApiGatewayCost` (lines 2361-2388): 1M requests assumed, HTTP
or REST unit price depending on the resource type. -/
def calculateApiGatewayCost (logicalId resourceType : String)
    (httpPrice restPrice : ℚ) : ResourceCost :=
  let isHttpApi := resourceType = "AWS::ApiGatewayV2::Api"
  let estimatedRequests : ℚ := 1000000
  let pricePerMillion := if isHttpApi then httpPrice else restPrice
  let requestCost := estimatedRequests / 1000000 * pricePerMillion
  { resourceId := logicalId, resourceType := resourceType,
    monthlyCost := requestCost, hourlyCost := requestCost / HOURS_PER_MONTH,
    unit := "API",
    details := [{ component := (if isHttpApi then "HTTP" else "REST") ++
                    " API Requests (est. 1M/mo)",
                  quantity := estimatedRequests, unitPrice := pricePerMillion / 1000000,
                  monthlyCost := requestCost, unit := "requests" }],
    confidence := .low }

/-- `calculateStepFunctionsCost` (lines 2393-2424): 10,000 executions with 5
transitions each assumed. -/
def calculateStepFunctionsCost (logicalId stateMachineType : String)
    (standardPrice expressPrice : ℚ) : ResourceCost :=
  let totalTransitions : ℚ := 10000 * 5
  let pricePerMillion := if stateMachineType = "EXPRESS" then expressPrice else standardPrice
  let cost := totalTransitions / 1000000 * pricePerMillion
  { resourceId := logicalId, resourceType := "AWS::StepFunctions::StateMachine",
    monthlyCost := cost, hourlyCost := cost / HOURS_PER_MONTH,
    unit := "state machine",
    details := [{ component := "Step Functions " ++ stateMachineType ++
                    " (est. 50,000 transitions/mo)",
                  quantity := totalTransitions, unitPrice := pricePerMillion / 1000000,
                  monthlyCost := cost, unit := "transitions" }],
    confidence := .low }

/-- `calculateSNSCost` (lines 2429-2455): 1M publishes assumed. -/
def calculateSNSCost (logicalId : String) (publishPrice : ℚ) : ResourceCost :=
  let estimatedPublishes : ℚ := 1000000
  let publishCost := estimatedPublishes / 1000000 * publishPrice
  { resourceId := logicalId, resourceType := "AWS::SNS::Topic",
    monthlyCost := publishCost, hourlyCost := publishCost / HOURS_PER_MONTH,
    unit := "topic",
    details := [{ component := "SNS Publishes (est. 1M/mo)",
                  quantity := estimatedPublishes, unitPrice := publishPrice / 1000000,
                  monthlyCost := publishCost, unit := "publishes" }],
    confidence := .low }

/-- `calculateCloudWatchLogsCost` (lines 2460-2499): 10 GB ingestion and
50 GB storage assumed. -/
def calculateCloudWatchLogsCost (logicalId : String)
    (logsIngestion logsStorage : ℚ) : ResourceCost :=
  let estimatedIngestionGB : ℚ := 10
  let estimatedStorageGB : ℚ := 50
  let ingestionCost := estimatedIngestionGB * logsIngestion
  let storageCost := estimatedStorageGB * logsStorage
  let totalCost := ingestionCost + storageCost
  { resourceId := logicalId, resourceType := "AWS::Logs::LogGroup",
    monthlyCost := totalCost, hourlyCost := totalCost / HOURS_PER_MONTH,
    unit := "log group",
    details :=
      [{ component := "Log Data Ingestion (est. 10GB/mo)",
         quantity := estimatedIngestionGB, unitPrice := logsIngestion,
         monthlyCost := ingestionCost, unit := "GB" },
       { component := "Log Storage (est. 50GB)", quantity := estimatedStorageGB,
         unitPrice := logsStorage, monthlyCost := storageCost, unit := "GB" }],
    confidence := .low }

/-- `calculateSSMParameterCost` (lines 2504-2554): 10,000 API calls assumed
at the hard-coded `$0.05`/10k rate; the advanced tier adds a `$0.05` storage
fee and its detail row is pushed first. -/
def calculateSSMParameterCost (logicalId tier : String) : ResourceCost :=
  let isAdvanced := tier = "Advanced"
  let estimatedApiCalls : ℚ := 10000
  let apiCallCost := estimatedApiCalls / 10000 * 0.05
  let parameterCost : ℚ := if isAdvanced then 0.05 else 0
  let totalCost := apiCallCost + parameterCost
  let advancedDetails : List CostDetail :=
    if parameterCost > 0 then
      [{ component := "Advanced Parameter Storage", quantity := 1,
         unitPrice := parameterCost, monthlyCost := parameterCost,
         unit := "parameter/month" }]
    else []
  { resourceId := logicalId, resourceType := "AWS::SSM::Parameter",
    monthlyCost := totalCost, hourlyCost := totalCost / HOURS_PER_MONTH,
    unit := "parameter",
    details := advancedDetails ++
      [{ component := "API Calls (est. 10k/mo)", quantity := estimatedApiCalls,
         unitPrice := 0.05 / 10000, monthlyCost := apiCallCost, unit := "calls" }],
    confidence := .low }

/-- `calculateECRCost` (lines 2559-2585): 10 GB of storage assumed. -/
def calculateECRCost (logicalId : String) (storagePrice : ℚ) : ResourceCost :=
  let estimatedStorageGB : ℚ := 10
  let storageCost := estimatedStorageGB * storagePrice
  { resourceId := logicalId, resourceType := "AWS::ECR::Repository",
    monthlyCost := storageCost, hourlyCost := storageCost / HOURS_PER_MONTH,
    unit := "repository",
    details := [{ component := "ECR Storage (est. 10GB)",
                  quantity := estimatedStorageGB, unitPrice := storagePrice,
                  monthlyCost := storageCost, unit := "GB/month" }],
    confidence := .low }

/-- `calculateRoute53RecordSetCost` (lines 2590-2616): 1M DNS queries
assumed. -/
def calculateRoute53RecordSetCost (logicalId : String) (queriesPrice : ℚ) : ResourceCost :=
  let estimatedQueries : ℚ := 1000000
  let monthlyCost := estimatedQueries / 1000000 * queriesPrice
  { resourceId := logicalId, resourceType := "AWS::Route53::RecordSet",
    monthlyCost := monthlyCost, hourlyCost := monthlyCost / HOURS_PER_MONTH,
    unit := "record set",
    details := [{ component := "DNS Queries (est. 1M/mo)",
                  quantity := estimatedQueries, unitPrice := queriesPrice / 1000000,
                  monthlyCost := monthlyCost, unit := "queries" }],
    confidence := .low }

/-! ### Derived notions used by the statements -/

/-- Sum of the `monthlyCost` column of a cost record's details. -/
def detailsSum (c : ResourceCost) : ℚ := (c.details.map (fun d => d.monthlyCost)).sum

/-- A cost record whose monthly cost is the sum of its detail lines. -/
def DetailsMatch (c : ResourceCost) : Prop := detailsSum c = c.monthlyCost

/-- A cost record whose hourly cost is its monthly cost divided by
`HOURS_PER_MONTH`. -/
def HourlyMatches (c : ResourceCost) : Prop :=
  c.hourlyCost = c.monthlyCost / HOURS_PER_MONTH

/-- The `ResourceCost` records a run of the `calculateStackCost` loop over
the given entries pushes (template and dispatch tables fixed). -/
def entriesResources (calcs : Registry) (usage : UsageFn) (tpl : CfnTemplate)
    (entries : List (String × CfnResource)) : List ResourceCost :=
  (entries.map (fun e => (processEntry calcs usage tpl e).1)).flatten

/-- The `UnsupportedResource` records the same run pushes. -/
def entriesUnsupported (calcs : Registry) (usage : UsageFn) (tpl : CfnTemplate)
    (entries : List (String × CfnResource)) : List UnsupportedResource :=
  (entries.map (fun e => (processEntry calcs usage tpl e).2)).flatten

/-! ### Infrastructure lemmas -/

theorem foldl_add_map (f : ResourceCost → ℚ) :
    ∀ (l : List ResourceCost) (a : ℚ),
      l.foldl (fun s r => s + f r) a = a + (l.map f).sum
  | [], a => by simp
  | r :: rest, a => by
    simp only [List.foldl_cons, List.map_cons, List.sum_cons]
    rw [foldl_add_map f rest (a + f r)]
    ring

theorem stackLists_aux (calcs : Registry) (usage : UsageFn) (tpl : CfnTemplate) :
    ∀ (entries : List (String × CfnResource)) (acc : List ResourceCost × List UnsupportedResource),
      entries.foldl
        (fun acc entry =>
          let c := processEntry calcs usage tpl entry
          (acc.1 ++ c.1, acc.2 ++ c.2)) acc =
      (acc.1 ++ entriesResources calcs usage tpl entries,
       acc.2 ++ entriesUnsupported calcs usage tpl entries)
  | [], acc => by simp [entriesResources, entriesUnsupported]
  | e :: rest, acc => by
    simp only [List.foldl_cons]
    rw [stackLists_aux calcs usage tpl rest]
    simp [entriesResources, entriesUnsupported, List.append_assoc]

theorem stackLists_eq (calcs : Registry) (usage : UsageFn) (tpl : CfnTemplate) :
    stackLists calcs usage tpl =
      (entriesResources calcs usage tpl (extractResources tpl),
       entriesUnsupported calcs usage tpl (extractResources tpl)) := by
  unfold stackLists
  rw [stackLists_aux]
  simp

theorem entriesResources_append (calcs : Registry) (usage : UsageFn) (tpl : CfnTemplate)
    (l1 l2 : List (String × CfnResource)) :
    entriesResources calcs usage tpl (l1 ++ l2) =
      entriesResources calcs usage tpl l1 ++ entriesResources calcs usage tpl l2 := by
  simp [entriesResources]

theorem entriesUnsupported_append (calcs : Registry) (usage : UsageFn) (tpl : CfnTemplate)
    (l1 l2 : List (String × CfnResource)) :
    entriesUnsupported calcs usage tpl (l1 ++ l2) =
      entriesUnsupported calcs usage tpl l1 ++ entriesUnsupported calcs usage tpl l2 := by
  simp [entriesUnsupported]

theorem processEntry_free (calcs : Registry) (usage : UsageFn) (tpl : CfnTemplate)
    (entry : String × CfnResource) (h : isFreeResource entry.2.resType = true) :
    processEntry calcs usage tpl entry = ([], []) := by
  simp [processEntry, h]

theorem calculateStackCost_resources (calcs : Registry) (usage : UsageFn)
    (stackName : String) (tpl : CfnTemplate) (source : TemplateSource) :
    (calculateStackCost calcs usage stackName tpl source).resources =
      entriesResources calcs usage tpl tpl.resources := by
  simp [calculateStackCost, stackLists_eq, extractResources]

theorem calculateStackCost_unsupported (calcs : Registry) (usage : UsageFn)
    (stackName : String) (tpl : CfnTemplate) (source : TemplateSource) :
    (calculateStackCost calcs usage stackName tpl source).unsupportedResources =
      entriesUnsupported calcs usage tpl tpl.resources := by
  simp [calculateStackCost, stackLists_eq, extractResources]

theorem calculateStackCost_totalMonthly (calcs : Registry) (usage : UsageFn)
    (stackName : String) (tpl : CfnTemplate) (source : TemplateSource) :
    (calculateStackCost calcs usage stackName tpl source).totalMonthlyCost =
      (((calculateStackCost calcs usage stackName tpl source).resources).map
        (fun r => r.monthlyCost)).sum := by
  simp [calculateStackCost, foldl_add_map]

theorem calculateStackCost_totalHourly (calcs : Registry) (usage : UsageFn)
    (stackName : String) (tpl : CfnTemplate) (source : TemplateSource) :
    (calculateStackCost calcs usage stackName tpl source).totalHourlyCost =
      (((calculateStackCost calcs usage stackName tpl source).resources).map
        (fun r => r.hourlyCost)).sum := by
  simp [calculateStackCost, foldl_add_map]

theorem mem_insertByAbs (a c : ResourceChange) :
    ∀ (l : List ResourceChange), c ∈ insertByAbs a l ↔ c = a ∨ c ∈ l
  | [] => by simp [insertByAbs]
  | d :: rest => by
    simp only [insertByAbs]
    split
    · simp
    · rw [List.mem_cons, mem_insertByAbs a c rest, List.mem_cons]
      tauto

theorem mem_sortChanges (c : ResourceChange) :
    ∀ (l : List ResourceChange), c ∈ sortChanges l ↔ c ∈ l
  | [] => by simp [sortChanges]
  | d :: rest => by
    rw [sortChanges, mem_insertByAbs, mem_sortChanges c rest, List.mem_cons]

theorem jsMapHas_eq_isSome (m : List (String × ResourceCost)) (k : String) :
    jsMapHas m k = (jsMapGet m k).isSome := by
  induction m with
  | nil => rfl
  | cons p rest ih =>
    by_cases h : p.1 = k
    · rw [jsMapGet, List.find?_cons_of_pos _ (by simpa using h)]
      simp [jsMapHas, h]
    · rw [jsMapGet, List.find?_cons_of_neg _ (by simpa using h)]
      simp only [jsMapHas, List.any_cons]
      rw [decide_eq_false h]
      simp only [Bool.false_or]
      exact ih

theorem mem_of_jsMapGet_eq_some {m : List (String × ResourceCost)} {k : String}
    {v : ResourceCost} (h : jsMapGet m k = some v) : (k, v) ∈ m := by
  simp only [jsMapGet, Option.map_eq_some'] at h
  obtain ⟨p, hfind, hv⟩ := h
  have hmem := List.mem_of_find?_eq_some hfind
  have hpred := List.find?_some hfind
  simp only [decide_eq_true_eq] at hpred
  have : p = (k, v) := by
    obtain ⟨p1, p2⟩ := p
    simp only at hpred hv
    rw [hpred, hv]
  rw [← this]
  exact hmem

/-- Keys of a JavaScript-map model are pairwise distinct. -/
def NodupKeys (m : List (String × ResourceCost)) : Prop := (m.map Prod.fst).Nodup

theorem keys_jsMapSet_of_has (m : List (String × ResourceCost)) (k : String)
    (v : ResourceCost) (h : m.any (fun p => p.1 = k) = true) :
    (jsMapSet m k v).map Prod.fst = m.map Prod.fst := by
  unfold jsMapSet
  rw [if_pos h, List.map_map]
  apply List.map_congr_left
  intro p _
  simp only [Function.comp_apply]
  split <;> simp_all

theorem nodupKeys_jsMapSet {m : List (String × ResourceCost)} (k : String)
    (v : ResourceCost) (h : NodupKeys m) : NodupKeys (jsMapSet m k v) := by
  unfold NodupKeys
  by_cases hk : m.any (fun p => p.1 = k) = true
  · rw [keys_jsMapSet_of_has m k v hk]
    exact h
  · unfold jsMapSet
    rw [if_neg hk]
    simp only [List.map_append, List.map_cons, List.map_nil]
    rw [List.nodup_append]
    refine ⟨h, List.nodup_singleton k, ?_⟩
    intro a ha
    simp only [List.mem_singleton]
    intro hak
    subst hak
    simp only [List.mem_map] at ha
    obtain ⟨p, hp, hpa⟩ := ha
    have : m.any (fun p => p.1 = a) = true := by
      rw [List.any_eq_true]
      exact ⟨p, hp, by simp [hpa]⟩
    exact hk this

theorem nodupKeys_jsMapOfList_aux :
    ∀ (l : List (String × ResourceCost)) (m : List (String × ResourceCost)),
      NodupKeys m → NodupKeys (l.foldl (fun m p => jsMapSet m p.1 p.2) m)
  | [], m, h => h
  | p :: rest, m, h => by
    simp only [List.foldl_cons]
    exact nodupKeys_jsMapOfList_aux rest _ (nodupKeys_jsMapSet p.1 p.2 h)

theorem nodupKeys_jsMapOfList (l : List (String × ResourceCost)) :
    NodupKeys (jsMapOfList l) :=
  nodupKeys_jsMapOfList_aux l [] (by simp [NodupKeys])

theorem jsMapGet_of_mem_nodup :
    ∀ {m : List (String × ResourceCost)}, NodupKeys m →
      ∀ {p : String × ResourceCost}, p ∈ m → jsMapGet m p.1 = some p.2
  | [], _, p, hp => by simp at hp
  | q :: rest, h, p, hp => by
    rcases List.mem_cons.mp hp with rfl | hp'
    · simp [jsMapGet, List.find?]
    · have hq : q.1 ≠ p.1 := by
        intro hqp
        unfold NodupKeys at h
        simp only [List.map_cons, List.nodup_cons] at h
        apply h.1
        rw [hqp]
        exact List.mem_map.mpr ⟨p, hp', rfl⟩
      have hrest : NodupKeys rest := by
        unfold NodupKeys at h ⊢
        simp only [List.map_cons, List.nodup_cons] at h
        exact h.2
      simp only [jsMapGet, List.find?, decide_eq_true_eq]
      rw [decide_eq_false hq]
      exact jsMapGet_of_mem_nodup hrest hp'

theorem resourceMap_nodupKeys (rs : List ResourceCost) : NodupKeys (resourceMap rs) :=
  nodupKeys_jsMapOfList _

theorem keys_jsMapSet_of_not_has (m : List (String × ResourceCost)) (k : String)
    (v : ResourceCost) (h : ¬ m.any (fun p => p.1 = k) = true) :
    (jsMapSet m k v).map Prod.fst = m.map Prod.fst ++ [k] := by
  unfold jsMapSet
  rw [if_neg h]
  simp

theorem jsMapHas_eq_keys (m : List (String × ResourceCost)) (k : String) :
    jsMapHas m k = (m.map Prod.fst).any (fun x => x = k) := by
  unfold jsMapHas
  induction m with
  | nil => rfl
  | cons p rest ih => simp [List.any_cons, ih]

theorem jsMapHas_jsMapSet (m : List (String × ResourceCost)) (k k' : String)
    (v : ResourceCost) :
    jsMapHas (jsMapSet m k v) k' = (jsMapHas m k' || decide (k = k')) := by
  by_cases hk : m.any (fun p => p.1 = k) = true
  · rw [jsMapHas_eq_keys, keys_jsMapSet_of_has m k v hk, ← jsMapHas_eq_keys]
    by_cases hkk : k = k'
    · subst hkk
      have : jsMapHas m k = true := by
        unfold jsMapHas
        exact hk
      simp [this]
    · simp [hkk]
  · rw [jsMapHas_eq_keys, keys_jsMapSet_of_not_has m k v hk, List.any_append,
      ← jsMapHas_eq_keys]
    simp [List.any_cons]

theorem jsMapHas_jsMapOfList_aux :
    ∀ (l : List (String × ResourceCost)) (m : List (String × ResourceCost)) (k : String),
      jsMapHas (l.foldl (fun m p => jsMapSet m p.1 p.2) m) k =
        (jsMapHas m k || l.any (fun p => p.1 = k))
  | [], m, k => by simp
  | p :: rest, m, k => by
    simp only [List.foldl_cons, List.any_cons]
    rw [jsMapHas_jsMapOfList_aux rest]
    rw [jsMapHas_jsMapSet]
    rw [Bool.or_assoc]

theorem jsMapHas_jsMapOfList (l : List (String × ResourceCost)) (k : String) :
    jsMapHas (jsMapOfList l) k = l.any (fun p => p.1 = k) := by
  unfold jsMapOfList
  rw [jsMapHas_jsMapOfList_aux]
  simp [jsMapHas]

/-- Presence of an identifier in an estimate's resource list coincides with
presence in the diff's lookup map. -/
theorem resourceMap_present (rs : List ResourceCost) (rid : String) :
    (jsMapGet (resourceMap rs) rid).isSome = rs.any (fun r => r.resourceId = rid) := by
  rw [← jsMapHas_eq_isSome, resourceMap, jsMapHas_jsMapOfList]
  induction rs with
  | nil => rfl
  | cons r rest ih => simp [List.any_cons, ih]

theorem resolve_arr (tpl : CfnTemplate) (ctx : Option (List (String × JsValue)))
    (xs : List JsValue) :
    resolve tpl ctx (.arr xs) = .arr (xs.map (resolve tpl ctx)) := by
  rw [resolve]
  rw [List.attach_map_val xs (resolve tpl ctx)]

theorem resolve_of_ref (tpl : CfnTemplate) (ctx : Option (List (String × JsValue)))
    (name : String) :
    resolve tpl ctx (.obj [("Ref", .str name)]) = resolveRef tpl ctx name := by
  rw [resolve]
  simp [lookupField, refGuard]

theorem resolveRef_no_params {tpl : CfnTemplate} {ctx} {name : String}
    (h : tpl.parameters = none) : resolveRef tpl ctx name = refPlaceholder name := by
  unfold resolveRef
  rw [h]

theorem resolveRef_undeclared {tpl : CfnTemplate} {ctx} {name : String} {ps}
    (h1 : tpl.parameters = some ps) (h2 : lookupField ps name = none) :
    resolveRef tpl ctx name = refPlaceholder name := by
  simp only [resolveRef, h1, h2]

theorem resolveRef_falsy {tpl : CfnTemplate} {ctx} {name : String} {ps param}
    (h1 : tpl.parameters = some ps) (h2 : lookupField ps name = some param)
    (h3 : truthy param = false) :
    resolveRef tpl ctx name = refPlaceholder name := by
  simp only [resolveRef, h1, h2, h3]
  simp

theorem resolveRef_override {tpl : CfnTemplate} {ctx} {name : String} {ps param v}
    (h1 : tpl.parameters = some ps) (h2 : lookupField ps name = some param)
    (h3 : truthy param = true) (h4 : contextOverride ctx name = some v) :
    resolveRef tpl ctx name = v := by
  simp only [resolveRef, h1, h2, h3, if_true, h4]

theorem resolveRef_no_override {tpl : CfnTemplate} {ctx} {name : String} {ps param}
    (h1 : tpl.parameters = some ps) (h2 : lookupField ps name = some param)
    (h3 : truthy param = true) (h4 : contextOverride ctx name = none) :
    resolveRef tpl ctx name = paramDefault param name := by
  simp only [resolveRef, h1, h2, h3, if_true, h4]

theorem paramDefault_of_default {param : JsValue} {name : String} {d : JsValue}
    (h : getField param "Default" = d) (hne : d ≠ .undef) :
    paramDefault param name = d := by
  unfold paramDefault
  rw [h]
  cases d <;> simp_all

theorem paramDefault_of_no_default {param : JsValue} {name : String}
    (h : getField param "Default" = .undef) :
    paramDefault param name = refPlaceholder name := by
  unfold paramDefault
  rw [h]

theorem resolve_select (tpl : CfnTemplate) (ctx : Option (List (String × JsValue)))
    (i : ℚ) (xs : List JsValue) :
    resolve tpl ctx (.obj [("Fn::Select", .arr [.num i, .arr xs])]) =
      jsIndex (xs.map (resolve tpl ctx)) i := by
  rw [resolve]
  simp [lookupField, refGuard, getAttGuard, subGuard, ifGuard, selectGuard, resolve_arr]

theorem getPropertyValue_select (tpl : CfnTemplate) (propName : String) (i : ℚ)
    (xs : List JsValue) (dflt : JsValue) (r : CfnResource)
    (hprops : r.properties = some (.obj [(propName, .obj [("Fn::Select", .arr [.num i, .arr xs])])]))
    (hsplit : splitDot propName = [propName]) :
    getPropertyValue tpl r propName dflt = jsIndex (xs.map (resolve tpl none)) i := by
  unfold getPropertyValue
  rw [hprops, hsplit]
  simp [walkPath, lookupField, resolve_select]

/-- Membership characterization for the rows `compareEstimates` produces. -/
theorem mem_resourceChanges_iff (before after : StackCostEstimate) (c : ResourceChange) :
    c ∈ (compareEstimates before after).resourceChanges ↔
      ((∃ p ∈ resourceMap after.resources,
          c = classifyAfter (resourceMap before.resources) p.1 p.2) ∨
       (∃ p ∈ resourceMap before.resources,
          jsMapHas (resourceMap after.resources) p.1 = false ∧
          c = { resourceId := p.1, resourceType := p.2.resourceType,
                changeType := .removed, beforeCost := p.2.monthlyCost, afterCost := 0,
                costDifference := -p.2.monthlyCost })) := by
  simp only [compareEstimates, mem_sortChanges, List.mem_append, List.mem_map,
    removedChanges, List.mem_filter]
  constructor
  · rintro (⟨p, hp, hc⟩ | ⟨p, ⟨hp, hhas⟩, hc⟩)
    · exact Or.inl ⟨p, hp, hc.symm⟩
    · refine Or.inr ⟨p, hp, ?_, hc.symm⟩
      simpa using hhas
  · rintro (⟨p, hp, hc⟩ | ⟨p, hp, hhas, hc⟩)
    · exact Or.inl ⟨p, hp, hc.symm⟩
    · refine Or.inr ⟨p, ⟨hp, ?_⟩, hc.symm⟩
      simpa using hhas

/-! ### Per-calculator consistency lemmas -/

theorem details_ec2Instance (id t : String) (p : ℚ) :
    DetailsMatch (ec2InstanceCalc id t p) := by
  unfold DetailsMatch detailsSum ec2InstanceCalc
  try split_ifs
  all_goals simp
  all_goals ring

theorem hourly_ec2Instance (id t : String) (p : ℚ) :
    HourlyMatches (ec2InstanceCalc id t p) := by
  unfold HourlyMatches ec2InstanceCalc HOURS_PER_MONTH
  try split_ifs
  all_goals simp
  all_goals ring

theorem details_autoScalingGroup (id : String) (c p : ℚ) (b : Bool) :
    DetailsMatch (autoScalingGroupCalc id c p b) := by
  unfold DetailsMatch detailsSum autoScalingGroupCalc
  try split_ifs
  all_goals simp
  all_goals ring

theorem hourly_autoScalingGroup (id : String) (c p : ℚ) (b : Bool) :
    HourlyMatches (autoScalingGroupCalc id c p b) := by
  unfold HourlyMatches autoScalingGroupCalc HOURS_PER_MONTH
  try split_ifs
  all_goals simp
  all_goals ring

theorem details_ec2Volume (id vt : String) (size iops tp ppg ipp ipg tpg : ℚ) :
    DetailsMatch (ec2VolumeCalc id vt size iops tp ppg ipp ipg tpg) := by
  unfold DetailsMatch detailsSum ec2VolumeCalc
  try split_ifs
  all_goals simp
  all_goals ring

theorem hourly_ec2Volume (id vt : String) (size iops tp ppg ipp ipg tpg : ℚ) :
    HourlyMatches (ec2VolumeCalc id vt size iops tp ppg ipp ipg tpg) := by
  unfold HourlyMatches ec2VolumeCalc HOURS_PER_MONTH
  try split_ifs
  all_goals simp
  all_goals ring

theorem details_rdsDBInstance (id ic st : String) (als hp sp : ℚ) (m : Bool) :
    DetailsMatch (rdsDBInstanceCalc id ic st als hp sp m) := by
  unfold DetailsMatch detailsSum rdsDBInstanceCalc
  try split_ifs
  all_goals simp
  all_goals ring

theorem hourly_rdsDBInstance (id ic st : String) (als hp sp : ℚ) (m : Bool) :
    HourlyMatches (rdsDBInstanceCalc id ic st als hp sp m) := by
  unfold HourlyMatches rdsDBInstanceCalc HOURS_PER_MONTH
  try split_ifs
  all_goals simp
  all_goals ring

theorem details_rdsDBCluster (id em : String) (mn mx : ℚ) :
    DetailsMatch (rdsDBClusterCalc id em mn mx) := by
  unfold DetailsMatch detailsSum rdsDBClusterCalc
  try split_ifs
  all_goals simp
  all_goals ring

theorem hourly_rdsDBCluster (id em : String) (mn mx : ℚ) :
    HourlyMatches (rdsDBClusterCalc id em mn mx) := by
  unfold HourlyMatches rdsDBClusterCalc HOURS_PER_MONTH
  try split_ifs
  all_goals simp
  all_goals ring

theorem details_elastiCacheCluster (id nt : String) (n p : ℚ) :
    DetailsMatch (elastiCacheClusterCalc id nt n p) := by
  unfold DetailsMatch detailsSum elastiCacheClusterCalc
  try split_ifs
  all_goals simp
  all_goals ring

theorem hourly_elastiCacheCluster (id nt : String) (n p : ℚ) :
    HourlyMatches (elastiCacheClusterCalc id nt n p) := by
  unfold HourlyMatches elastiCacheClusterCalc HOURS_PER_MONTH
  try split_ifs
  all_goals simp
  all_goals ring

theorem details_elastiCacheReplicationGroup (id nt : String) (g r p : ℚ) :
    DetailsMatch (elastiCacheReplicationGroupCalc id nt g r p) := by
  unfold DetailsMatch detailsSum elastiCacheReplicationGroupCalc
  try split_ifs
  all_goals simp
  all_goals ring

theorem hourly_elastiCacheReplicationGroup (id nt : String) (g r p : ℚ) :
    HourlyMatches (elastiCacheReplicationGroupCalc id nt g r p) := by
  unfold HourlyMatches elastiCacheReplicationGroupCalc HOURS_PER_MONTH
  try split_ifs
  all_goals simp
  all_goals ring

theorem details_natGateway (id : String) (h d : ℚ) :
    DetailsMatch (natGatewayCalc id h d) := by
  unfold DetailsMatch detailsSum natGatewayCalc
  try split_ifs
  all_goals simp
  all_goals ring

theorem details_loadBalancerV2 (id : String) (b : Bool) (p l : ℚ) :
    DetailsMatch (loadBalancerV2Calc id b p l) := by
  unfold DetailsMatch detailsSum loadBalancerV2Calc
  try split_ifs
  all_goals simp
  all_goals ring

theorem hourly_loadBalancerV2 (id : String) (b : Bool) (p l : ℚ) :
    HourlyMatches (loadBalancerV2Calc id b p l) := by
  unfold HourlyMatches loadBalancerV2Calc HOURS_PER_MONTH
  try split_ifs
  all_goals simp
  all_goals ring

theorem details_classicLoadBalancer (id : String) (p : ℚ) :
    DetailsMatch (classicLoadBalancerCalc id p) := by
  unfold DetailsMatch detailsSum classicLoadBalancerCalc
  try split_ifs
  all_goals simp
  all_goals ring

theorem hourly_classicLoadBalancer (id : String) (p : ℚ) :
    HourlyMatches (classicLoadBalancerCalc id p) := by
  unfold HourlyMatches classicLoadBalancerCalc HOURS_PER_MONTH
  try split_ifs
  all_goals simp
  all_goals ring

theorem details_ecsService (id lt : String) (dc v m : ℚ) :
    DetailsMatch (ecsServiceCalc id lt dc v m) := by
  unfold DetailsMatch detailsSum ecsServiceCalc
  try split_ifs
  all_goals simp
  all_goals ring

theorem hourly_ecsService (id lt : String) (dc v m : ℚ) :
    HourlyMatches (ecsServiceCalc id lt dc v m) := by
  unfold HourlyMatches ecsServiceCalc HOURS_PER_MONTH
  try split_ifs
  all_goals simp
  all_goals ring

theorem details_eksCluster (id : String) (p : ℚ) :
    DetailsMatch (eksClusterCalc id p) := by
  unfold DetailsMatch detailsSum eksClusterCalc
  try split_ifs
  all_goals simp
  all_goals ring

theorem hourly_eksCluster (id : String) (p : ℚ) :
    HourlyMatches (eksClusterCalc id p) := by
  unfold HourlyMatches eksClusterCalc HOURS_PER_MONTH
  try split_ifs
  all_goals simp
  all_goals ring

theorem details_secretsManagerSecret (id : String) (p : ℚ) :
    DetailsMatch (secretsManagerSecretCalc id p) := by
  unfold DetailsMatch detailsSum secretsManagerSecretCalc
  try split_ifs
  all_goals simp
  all_goals ring

theorem hourly_secretsManagerSecret (id : String) (p : ℚ) :
    HourlyMatches (secretsManagerSecretCalc id p) := by
  unfold HourlyMatches secretsManagerSecretCalc HOURS_PER_MONTH
  try split_ifs
  all_goals simp
  all_goals ring

theorem details_kmsKey (id : String) (p : ℚ) :
    DetailsMatch (kmsKeyCalc id p) := by
  unfold DetailsMatch detailsSum kmsKeyCalc
  try split_ifs
  all_goals simp
  all_goals ring

theorem hourly_kmsKey (id : String) (p : ℚ) :
    HourlyMatches (kmsKeyCalc id p) := by
  unfold HourlyMatches kmsKeyCalc HOURS_PER_MONTH
  try split_ifs
  all_goals simp
  all_goals ring

theorem details_route53HostedZone (id : String) (p : ℚ) :
    DetailsMatch (route53HostedZoneCalc id p) := by
  unfold DetailsMatch detailsSum route53HostedZoneCalc
  try split_ifs
  all_goals simp
  all_goals ring

theorem hourly_route53HostedZone (id : String) (p : ℚ) :
    HourlyMatches (route53HostedZoneCalc id p) := by
  unfold HourlyMatches route53HostedZoneCalc HOURS_PER_MONTH
  try split_ifs
  all_goals simp
  all_goals ring

theorem details_cloudWatchAlarm (id : String) (p : ℚ) :
    DetailsMatch (cloudWatchAlarmCalc id p) := by
  unfold DetailsMatch detailsSum cloudWatchAlarmCalc
  try split_ifs
  all_goals simp
  all_goals ring

theorem hourly_cloudWatchAlarm (id : String) (p : ℚ) :
    HourlyMatches (cloudWatchAlarmCalc id p) := by
  unfold HourlyMatches cloudWatchAlarmCalc HOURS_PER_MONTH
  try split_ifs
  all_goals simp
  all_goals ring

theorem details_cloudWatchDashboard (id : String) (p : ℚ) :
    DetailsMatch (cloudWatchDashboardCalc id p) := by
  unfold DetailsMatch detailsSum cloudWatchDashboardCalc
  try split_ifs
  all_goals simp
  all_goals ring

theorem hourly_cloudWatchDashboard (id : String) (p : ℚ) :
    HourlyMatches (cloudWatchDashboardCalc id p) := by
  unfold HourlyMatches cloudWatchDashboardCalc HOURS_PER_MONTH
  try split_ifs
  all_goals simp
  all_goals ring

theorem details_ec2EIP (id : String) :
    DetailsMatch (ec2EIPCalc id) := by
  unfold DetailsMatch detailsSum ec2EIPCalc
  try split_ifs
  all_goals simp
  all_goals ring

theorem hourly_ec2EIP (id : String) :
    HourlyMatches (ec2EIPCalc id) := by
  unfold HourlyMatches ec2EIPCalc HOURS_PER_MONTH
  try split_ifs
  all_goals simp
  all_goals ring

theorem details_vpcEndpoint (id et : String) (p : ℚ) (n : ℕ) :
    DetailsMatch (vpcEndpointCalc id et p n) := by
  unfold DetailsMatch detailsSum vpcEndpointCalc
  try split_ifs
  all_goals simp
  all_goals ring

theorem hourly_vpcEndpoint (id et : String) (p : ℚ) (n : ℕ) :
    HourlyMatches (vpcEndpointCalc id et p n) := by
  unfold HourlyMatches vpcEndpointCalc HOURS_PER_MONTH
  try split_ifs
  all_goals simp
  all_goals ring

theorem details_ec2Snapshot (id : String) (p : ℚ) :
    DetailsMatch (ec2SnapshotCalc id p) := by
  unfold DetailsMatch detailsSum ec2SnapshotCalc
  try split_ifs
  all_goals simp
  all_goals ring

theorem hourly_ec2Snapshot (id : String) (p : ℚ) :
    HourlyMatches (ec2SnapshotCalc id p) := by
  unfold HourlyMatches ec2SnapshotCalc HOURS_PER_MONTH
  try split_ifs
  all_goals simp
  all_goals ring

theorem details_neptuneDBCluster (id : String) (p : ℚ) :
    DetailsMatch (neptuneDBClusterCalc id p) := by
  unfold DetailsMatch detailsSum neptuneDBClusterCalc
  try split_ifs
  all_goals simp
  all_goals ring

theorem hourly_neptuneDBCluster (id : String) (p : ℚ) :
    HourlyMatches (neptuneDBClusterCalc id p) := by
  unfold HourlyMatches neptuneDBClusterCalc HOURS_PER_MONTH
  try split_ifs
  all_goals simp
  all_goals ring

theorem details_neptuneDBInstance (id ic : String) (p : ℚ) :
    DetailsMatch (neptuneDBInstanceCalc id ic p) := by
  unfold DetailsMatch detailsSum neptuneDBInstanceCalc
  try split_ifs
  all_goals simp
  all_goals ring

theorem hourly_neptuneDBInstance (id ic : String) (p : ℚ) :
    HourlyMatches (neptuneDBInstanceCalc id ic p) := by
  unfold HourlyMatches neptuneDBInstanceCalc HOURS_PER_MONTH
  try split_ifs
  all_goals simp
  all_goals ring

theorem details_docDBCluster (id : String) (p : ℚ) :
    DetailsMatch (docDBClusterCalc id p) := by
  unfold DetailsMatch detailsSum docDBClusterCalc
  try split_ifs
  all_goals simp
  all_goals ring

theorem hourly_docDBCluster (id : String) (p : ℚ) :
    HourlyMatches (docDBClusterCalc id p) := by
  unfold HourlyMatches docDBClusterCalc HOURS_PER_MONTH
  try split_ifs
  all_goals simp
  all_goals ring

theorem details_docDBInstance (id ic : String) (p : ℚ) :
    DetailsMatch (docDBInstanceCalc id ic p) := by
  unfold DetailsMatch detailsSum docDBInstanceCalc
  try split_ifs
  all_goals simp
  all_goals ring

theorem hourly_docDBInstance (id ic : String) (p : ℚ) :
    HourlyMatches (docDBInstanceCalc id ic p) := by
  unfold HourlyMatches docDBInstanceCalc HOURS_PER_MONTH
  try split_ifs
  all_goals simp
  all_goals ring

theorem details_redshiftCluster (id nt : String) (n p : ℚ) :
    DetailsMatch (redshiftClusterCalc id nt n p) := by
  unfold DetailsMatch detailsSum redshiftClusterCalc
  try split_ifs
  all_goals simp
  all_goals ring

theorem hourly_redshiftCluster (id nt : String) (n p : ℚ) :
    HourlyMatches (redshiftClusterCalc id nt n p) := by
  unfold HourlyMatches redshiftClusterCalc HOURS_PER_MONTH
  try split_ifs
  all_goals simp
  all_goals ring

theorem details_vpnConnection (id : String) (p : ℚ) :
    DetailsMatch (vpnConnectionCalc id p) := by
  unfold DetailsMatch detailsSum vpnConnectionCalc
  try split_ifs
  all_goals simp
  all_goals ring

theorem hourly_vpnConnection (id : String) (p : ℚ) :
    HourlyMatches (vpnConnectionCalc id p) := by
  unfold HourlyMatches vpnConnectionCalc HOURS_PER_MONTH
  try split_ifs
  all_goals simp
  all_goals ring

theorem details_transitGateway (id : String) (p : ℚ) :
    DetailsMatch (transitGatewayCalc id p) := by
  unfold DetailsMatch detailsSum transitGatewayCalc
  try split_ifs
  all_goals simp
  all_goals ring

theorem hourly_transitGateway (id : String) (p : ℚ) :
    HourlyMatches (transitGatewayCalc id p) := by
  unfold HourlyMatches transitGatewayCalc HOURS_PER_MONTH
  try split_ifs
  all_goals simp
  all_goals ring

theorem details_transitGatewayAttachment (id : String) (h d : ℚ) :
    DetailsMatch (transitGatewayAttachmentCalc id h d) := by
  unfold DetailsMatch detailsSum transitGatewayAttachmentCalc
  try split_ifs
  all_goals simp
  all_goals ring

theorem details_directConnect (id bw : String) (p : ℚ) :
    DetailsMatch (directConnectCalc id bw p) := by
  unfold DetailsMatch detailsSum directConnectCalc
  try split_ifs
  all_goals simp
  all_goals ring

theorem hourly_directConnect (id bw : String) (p : ℚ) :
    HourlyMatches (directConnectCalc id bw p) := by
  unfold HourlyMatches directConnectCalc HOURS_PER_MONTH
  try split_ifs
  all_goals simp
  all_goals ring

theorem details_globalAccelerator (id : String) (p : ℚ) :
    DetailsMatch (globalAcceleratorCalc id p) := by
  unfold DetailsMatch detailsSum globalAcceleratorCalc
  try split_ifs
  all_goals simp
  all_goals ring

theorem hourly_globalAccelerator (id : String) (p : ℚ) :
    HourlyMatches (globalAcceleratorCalc id p) := by
  unfold HourlyMatches globalAcceleratorCalc HOURS_PER_MONTH
  try split_ifs
  all_goals simp
  all_goals ring

theorem details_mqBroker (id it : String) (p : ℚ) :
    DetailsMatch (mqBrokerCalc id it p) := by
  unfold DetailsMatch detailsSum mqBrokerCalc
  try split_ifs
  all_goals simp
  all_goals ring

theorem hourly_mqBroker (id it : String) (p : ℚ) :
    HourlyMatches (mqBrokerCalc id it p) := by
  unfold HourlyMatches mqBrokerCalc HOURS_PER_MONTH
  try split_ifs
  all_goals simp
  all_goals ring

theorem details_mskCluster (id it : String) (n p : ℚ) :
    DetailsMatch (mskClusterCalc id it n p) := by
  unfold DetailsMatch detailsSum mskClusterCalc
  try split_ifs
  all_goals simp
  all_goals ring

theorem hourly_mskCluster (id it : String) (n p : ℚ) :
    HourlyMatches (mskClusterCalc id it n p) := by
  unfold HourlyMatches mskClusterCalc HOURS_PER_MONTH
  try split_ifs
  all_goals simp
  all_goals ring

theorem details_kinesisStream (id : String) (c p : ℚ) :
    DetailsMatch (kinesisStreamCalc id c p) := by
  unfold DetailsMatch detailsSum kinesisStreamCalc
  try split_ifs
  all_goals simp
  all_goals ring

theorem hourly_kinesisStream (id : String) (c p : ℚ) :
    HourlyMatches (kinesisStreamCalc id c p) := by
  unfold HourlyMatches kinesisStreamCalc HOURS_PER_MONTH
  try split_ifs
  all_goals simp
  all_goals ring

theorem details_kinesisFirehose (id : String) (p : ℚ) :
    DetailsMatch (kinesisFirehoseCalc id p) := by
  unfold DetailsMatch detailsSum kinesisFirehoseCalc
  try split_ifs
  all_goals simp
  all_goals ring

theorem hourly_kinesisFirehose (id : String) (p : ℚ) :
    HourlyMatches (kinesisFirehoseCalc id p) := by
  unfold HourlyMatches kinesisFirehoseCalc HOURS_PER_MONTH
  try split_ifs
  all_goals simp
  all_goals ring

theorem details_efsFileSystem (id tm : String) (pt sp tp : ℚ) :
    DetailsMatch (efsFileSystemCalc id tm pt sp tp) := by
  unfold DetailsMatch detailsSum efsFileSystemCalc
  try split_ifs
  all_goals simp
  all_goals ring

theorem hourly_efsFileSystem (id tm : String) (pt sp tp : ℚ) :
    HourlyMatches (efsFileSystemCalc id tm pt sp tp) := by
  unfold HourlyMatches efsFileSystemCalc HOURS_PER_MONTH
  try split_ifs
  all_goals simp
  all_goals ring

theorem details_fsxFileSystem (id ft : String) (sc p : ℚ) :
    DetailsMatch (fsxFileSystemCalc id ft sc p) := by
  unfold DetailsMatch detailsSum fsxFileSystemCalc
  try split_ifs
  all_goals simp
  all_goals ring

theorem hourly_fsxFileSystem (id ft : String) (sc p : ℚ) :
    HourlyMatches (fsxFileSystemCalc id ft sc p) := by
  unfold HourlyMatches fsxFileSystemCalc HOURS_PER_MONTH
  try split_ifs
  all_goals simp
  all_goals ring

theorem details_backupVault (id : String) (p : ℚ) :
    DetailsMatch (backupVaultCalc id p) := by
  unfold DetailsMatch detailsSum backupVaultCalc
  try split_ifs
  all_goals simp
  all_goals ring

theorem hourly_backupVault (id : String) (p : ℚ) :
    HourlyMatches (backupVaultCalc id p) := by
  unfold HourlyMatches backupVaultCalc HOURS_PER_MONTH
  try split_ifs
  all_goals simp
  all_goals ring

theorem details_cloudFrontDistribution (id : String) (d r : ℚ) :
    DetailsMatch (cloudFrontDistributionCalc id d r) := by
  unfold DetailsMatch detailsSum cloudFrontDistributionCalc
  try split_ifs
  all_goals simp
  all_goals ring

theorem hourly_cloudFrontDistribution (id : String) (d r : ℚ) :
    HourlyMatches (cloudFrontDistributionCalc id d r) := by
  unfold HourlyMatches cloudFrontDistributionCalc HOURS_PER_MONTH
  try split_ifs
  all_goals simp
  all_goals ring

theorem details_acmpca (id : String) :
    DetailsMatch (acmpcaCalc id) := by
  unfold DetailsMatch detailsSum acmpcaCalc
  try split_ifs
  all_goals simp
  all_goals ring

theorem hourly_acmpca (id : String) :
    HourlyMatches (acmpcaCalc id) := by
  unfold HourlyMatches acmpcaCalc HOURS_PER_MONTH
  try split_ifs
  all_goals simp
  all_goals ring

theorem details_configRule (id : String) (p : ℚ) :
    DetailsMatch (configRuleCalc id p) := by
  unfold DetailsMatch detailsSum configRuleCalc
  try split_ifs
  all_goals simp
  all_goals ring

theorem hourly_configRule (id : String) (p : ℚ) :
    HourlyMatches (configRuleCalc id p) := by
  unfold HourlyMatches configRuleCalc HOURS_PER_MONTH
  try split_ifs
  all_goals simp
  all_goals ring

theorem details_cloudTrail (id : String) (b : Bool) (p : ℚ) :
    DetailsMatch (cloudTrailCalc id b p) := by
  unfold DetailsMatch detailsSum cloudTrailCalc
  try split_ifs
  all_goals simp
  all_goals ring

theorem hourly_cloudTrail (id : String) (b : Bool) (p : ℚ) :
    HourlyMatches (cloudTrailCalc id b p) := by
  unfold HourlyMatches cloudTrailCalc HOURS_PER_MONTH
  try split_ifs
  all_goals simp
  all_goals ring

theorem details_codeBuild (id ct : String) (p : ℚ) :
    DetailsMatch (codeBuildCalc id ct p) := by
  unfold DetailsMatch detailsSum codeBuildCalc
  try split_ifs
  all_goals simp
  all_goals ring

theorem hourly_codeBuild (id ct : String) (p : ℚ) :
    HourlyMatches (codeBuildCalc id ct p) := by
  unfold HourlyMatches codeBuildCalc HOURS_PER_MONTH
  try split_ifs
  all_goals simp
  all_goals ring

theorem details_glueJob (id : String) (p : ℚ) :
    DetailsMatch (glueJobCalc id p) := by
  unfold DetailsMatch detailsSum glueJobCalc
  try split_ifs
  all_goals simp
  all_goals ring

theorem hourly_glueJob (id : String) (p : ℚ) :
    HourlyMatches (glueJobCalc id p) := by
  unfold HourlyMatches glueJobCalc HOURS_PER_MONTH
  try split_ifs
  all_goals simp
  all_goals ring

theorem details_glueCrawler (id : String) (p : ℚ) :
    DetailsMatch (glueCrawlerCalc id p) := by
  unfold DetailsMatch detailsSum glueCrawlerCalc
  try split_ifs
  all_goals simp
  all_goals ring

theorem hourly_glueCrawler (id : String) (p : ℚ) :
    HourlyMatches (glueCrawlerCalc id p) := by
  unfold HourlyMatches glueCrawlerCalc HOURS_PER_MONTH
  try split_ifs
  all_goals simp
  all_goals ring

theorem details_wafv2WebACL (id : String) (n : ℕ) (w r : ℚ) :
    DetailsMatch (wafv2WebACLCalc id n w r) := by
  unfold DetailsMatch detailsSum wafv2WebACLCalc
  split_ifs with hn
  · simp only [List.map_append, List.map_cons, List.map_nil, List.sum_append,
      List.sum_cons, List.sum_nil]
    ring
  · have : n = 0 := by omega
    subst this
    simp

theorem hourly_wafv2WebACL (id : String) (n : ℕ) (w r : ℚ) :
    HourlyMatches (wafv2WebACLCalc id n w r) := by
  unfold HourlyMatches wafv2WebACLCalc HOURS_PER_MONTH
  try split_ifs
  all_goals simp
  all_goals ring

theorem details_wafWebACL (id : String) (w : ℚ) :
    DetailsMatch (wafWebACLCalc id w) := by
  unfold DetailsMatch detailsSum wafWebACLCalc
  try split_ifs
  all_goals simp
  all_goals ring

theorem hourly_wafWebACL (id : String) (w : ℚ) :
    HourlyMatches (wafWebACLCalc id w) := by
  unfold HourlyMatches wafWebACLCalc HOURS_PER_MONTH
  try split_ifs
  all_goals simp
  all_goals ring

theorem details_openSearchDomain (id it : String) (c p : ℚ) :
    DetailsMatch (openSearchDomainCalc id it c p) := by
  unfold DetailsMatch detailsSum openSearchDomainCalc
  try split_ifs
  all_goals simp
  all_goals ring

theorem hourly_openSearchDomain (id it : String) (c p : ℚ) :
    HourlyMatches (openSearchDomainCalc id it c p) := by
  unfold HourlyMatches openSearchDomainCalc HOURS_PER_MONTH
  try split_ifs
  all_goals simp
  all_goals ring

theorem details_elasticsearchDomain (id it : String) (c p : ℚ) :
    DetailsMatch (elasticsearchDomainCalc id it c p) := by
  unfold DetailsMatch detailsSum elasticsearchDomainCalc
  try split_ifs
  all_goals simp
  all_goals ring

theorem hourly_elasticsearchDomain (id it : String) (c p : ℚ) :
    HourlyMatches (elasticsearchDomainCalc id it c p) := by
  unfold HourlyMatches elasticsearchDomainCalc HOURS_PER_MONTH
  try split_ifs
  all_goals simp
  all_goals ring

theorem details_lightsailInstance (id b : String) (p : ℚ) :
    DetailsMatch (lightsailInstanceCalc id b p) := by
  unfold DetailsMatch detailsSum lightsailInstanceCalc
  try split_ifs
  all_goals simp
  all_goals ring

theorem hourly_lightsailInstance (id b : String) (p : ℚ) :
    HourlyMatches (lightsailInstanceCalc id b p) := by
  unfold HourlyMatches lightsailInstanceCalc HOURS_PER_MONTH
  try split_ifs
  all_goals simp
  all_goals ring

theorem details_dmsReplicationInstance (id ic : String) (p : ℚ) :
    DetailsMatch (dmsReplicationInstanceCalc id ic p) := by
  unfold DetailsMatch detailsSum dmsReplicationInstanceCalc
  try split_ifs
  all_goals simp
  all_goals ring

theorem hourly_dmsReplicationInstance (id ic : String) (p : ℚ) :
    HourlyMatches (dmsReplicationInstanceCalc id ic p) := by
  unfold HourlyMatches dmsReplicationInstanceCalc HOURS_PER_MONTH
  try split_ifs
  all_goals simp
  all_goals ring

theorem details_transferServer (id : String) (p : ℚ) :
    DetailsMatch (transferServerCalc id p) := by
  unfold DetailsMatch detailsSum transferServerCalc
  try split_ifs
  all_goals simp
  all_goals ring

theorem hourly_transferServer (id : String) (p : ℚ) :
    HourlyMatches (transferServerCalc id p) := by
  unfold HourlyMatches transferServerCalc HOURS_PER_MONTH
  try split_ifs
  all_goals simp
  all_goals ring

theorem details_codePipeline (id : String) (p : ℚ) :
    DetailsMatch (codePipelineCalc id p) := by
  unfold DetailsMatch detailsSum codePipelineCalc
  try split_ifs
  all_goals simp
  all_goals ring

theorem hourly_codePipeline (id : String) (p : ℚ) :
    HourlyMatches (codePipelineCalc id p) := by
  unfold HourlyMatches codePipelineCalc HOURS_PER_MONTH
  try split_ifs
  all_goals simp
  all_goals ring

theorem details_networkFirewall (id : String) (n : ℕ) :
    DetailsMatch (networkFirewallCalc id n) := by
  have h : ∀ (a b : CostDetail),
      (([a, b] : List CostDetail).map (fun d => d.monthlyCost)).sum =
        a.monthlyCost + b.monthlyCost := by
    intro a b
    simp
  unfold DetailsMatch detailsSum networkFirewallCalc
  exact h _ _

theorem details_grafanaWorkspace (id : String) :
    DetailsMatch (grafanaWorkspaceCalc id) := by
  unfold DetailsMatch detailsSum grafanaWorkspaceCalc
  try split_ifs
  all_goals simp
  all_goals ring

theorem hourly_grafanaWorkspace (id : String) :
    HourlyMatches (grafanaWorkspaceCalc id) := by
  unfold HourlyMatches grafanaWorkspaceCalc HOURS_PER_MONTH
  try split_ifs
  all_goals simp
  all_goals ring

theorem details_sageMakerNotebook (id it : String) (p : ℚ) :
    DetailsMatch (sageMakerNotebookCalc id it p) := by
  unfold DetailsMatch detailsSum sageMakerNotebookCalc
  try split_ifs
  all_goals simp
  all_goals ring

theorem hourly_sageMakerNotebook (id it : String) (p : ℚ) :
    HourlyMatches (sageMakerNotebookCalc id it p) := by
  unfold HourlyMatches sageMakerNotebookCalc HOURS_PER_MONTH
  try split_ifs
  all_goals simp
  all_goals ring

theorem details_simpleAD (id s : String) (p : ℚ) :
    DetailsMatch (simpleADCalc id s p) := by
  unfold DetailsMatch detailsSum simpleADCalc
  try split_ifs
  all_goals simp
  all_goals ring

theorem hourly_simpleAD (id s : String) (p : ℚ) :
    HourlyMatches (simpleADCalc id s p) := by
  unfold HourlyMatches simpleADCalc HOURS_PER_MONTH
  try split_ifs
  all_goals simp
  all_goals ring

theorem details_microsoftAD (id e : String) (p : ℚ) :
    DetailsMatch (microsoftADCalc id e p) := by
  unfold DetailsMatch detailsSum microsoftADCalc
  try split_ifs
  all_goals simp
  all_goals ring

theorem hourly_microsoftAD (id e : String) (p : ℚ) :
    HourlyMatches (microsoftADCalc id e p) := by
  unfold HourlyMatches microsoftADCalc HOURS_PER_MONTH
  try split_ifs
  all_goals simp
  all_goals ring

theorem details_mwaa (id ec : String) (p : ℚ) :
    DetailsMatch (mwaaCalc id ec p) := by
  unfold DetailsMatch detailsSum mwaaCalc
  try split_ifs
  all_goals simp
  all_goals ring

theorem hourly_mwaa (id ec : String) (p : ℚ) :
    HourlyMatches (mwaaCalc id ec p) := by
  unfold HourlyMatches mwaaCalc HOURS_PER_MONTH
  try split_ifs
  all_goals simp
  all_goals ring

theorem details_kinesisAnalytics (id : String) (p : ℚ) :
    DetailsMatch (kinesisAnalyticsCalc id p) := by
  unfold DetailsMatch detailsSum kinesisAnalyticsCalc
  try split_ifs
  all_goals simp
  all_goals ring

theorem hourly_kinesisAnalytics (id : String) (p : ℚ) :
    HourlyMatches (kinesisAnalyticsCalc id p) := by
  unfold HourlyMatches kinesisAnalyticsCalc HOURS_PER_MONTH
  try split_ifs
  all_goals simp
  all_goals ring

theorem details_cloudFrontFunction (id : String) (p : ℚ) :
    DetailsMatch (cloudFrontFunctionCalc id p) := by
  unfold DetailsMatch detailsSum cloudFrontFunctionCalc
  try split_ifs
  all_goals simp
  all_goals ring

theorem hourly_cloudFrontFunction (id : String) (p : ℚ) :
    HourlyMatches (cloudFrontFunctionCalc id p) := by
  unfold HourlyMatches cloudFrontFunctionCalc HOURS_PER_MONTH
  try split_ifs
  all_goals simp
  all_goals ring

theorem details_route53ResolverEndpoint (id : String) (n : ℕ) (p : ℚ) :
    DetailsMatch (route53ResolverEndpointCalc id n p) := by
  unfold DetailsMatch detailsSum route53ResolverEndpointCalc
  try split_ifs
  all_goals simp
  all_goals ring

theorem hourly_route53ResolverEndpoint (id : String) (n : ℕ) (p : ℚ) :
    HourlyMatches (route53ResolverEndpointCalc id n p) := by
  unfold HourlyMatches route53ResolverEndpointCalc HOURS_PER_MONTH
  try split_ifs
  all_goals simp
  all_goals ring

theorem details_route53HealthCheck (id : String) (p : ℚ) :
    DetailsMatch (route53HealthCheckCalc id p) := by
  unfold DetailsMatch detailsSum route53HealthCheckCalc
  try split_ifs
  all_goals simp
  all_goals ring

theorem hourly_route53HealthCheck (id : String) (p : ℚ) :
    HourlyMatches (route53HealthCheckCalc id p) := by
  unfold HourlyMatches route53HealthCheckCalc HOURS_PER_MONTH
  try split_ifs
  all_goals simp
  all_goals ring

theorem details_clientVpnEndpoint (id : String) (p c : ℚ) :
    DetailsMatch (clientVpnEndpointCalc id p c) := by
  unfold DetailsMatch detailsSum clientVpnEndpointCalc
  try split_ifs
  all_goals simp
  all_goals ring

theorem hourly_clientVpnEndpoint (id : String) (p c : ℚ) :
    HourlyMatches (clientVpnEndpointCalc id p c) := by
  unfold HourlyMatches clientVpnEndpointCalc HOURS_PER_MONTH
  try split_ifs
  all_goals simp
  all_goals ring

theorem details_trafficMirrorSession (id : String) (p : ℚ) :
    DetailsMatch (trafficMirrorSessionCalc id p) := by
  unfold DetailsMatch detailsSum trafficMirrorSessionCalc
  try split_ifs
  all_goals simp
  all_goals ring

theorem hourly_trafficMirrorSession (id : String) (p : ℚ) :
    HourlyMatches (trafficMirrorSessionCalc id p) := by
  unfold HourlyMatches trafficMirrorSessionCalc HOURS_PER_MONTH
  try split_ifs
  all_goals simp
  all_goals ring

theorem details_tgwPeeringAttachment (id : String) (p : ℚ) :
    DetailsMatch (tgwPeeringAttachmentCalc id p) := by
  unfold DetailsMatch detailsSum tgwPeeringAttachmentCalc
  try split_ifs
  all_goals simp
  all_goals ring

theorem hourly_tgwPeeringAttachment (id : String) (p : ℚ) :
    HourlyMatches (tgwPeeringAttachmentCalc id p) := by
  unfold HourlyMatches tgwPeeringAttachmentCalc HOURS_PER_MONTH
  try split_ifs
  all_goals simp
  all_goals ring

theorem details_ec2Host (id it : String) (p : ℚ) :
    DetailsMatch (ec2HostCalc id it p) := by
  unfold DetailsMatch detailsSum ec2HostCalc
  try split_ifs
  all_goals simp
  all_goals ring

theorem hourly_ec2Host (id it : String) (p : ℚ) :
    HourlyMatches (ec2HostCalc id it p) := by
  unfold HourlyMatches ec2HostCalc HOURS_PER_MONTH
  try split_ifs
  all_goals simp
  all_goals ring

theorem details_eksNodegroup (id it : String) (d p : ℚ) :
    DetailsMatch (eksNodegroupCalc id it d p) := by
  unfold DetailsMatch detailsSum eksNodegroupCalc
  try split_ifs
  all_goals simp
  all_goals ring

theorem hourly_eksNodegroup (id it : String) (d p : ℚ) :
    HourlyMatches (eksNodegroupCalc id it d p) := by
  unfold HourlyMatches eksNodegroupCalc HOURS_PER_MONTH
  try split_ifs
  all_goals simp
  all_goals ring

theorem details_eksFargateProfile (id : String) (v m : ℚ) :
    DetailsMatch (eksFargateProfileCalc id v m) := by
  unfold DetailsMatch detailsSum eksFargateProfileCalc
  try split_ifs
  all_goals simp
  all_goals ring

theorem hourly_eksFargateProfile (id : String) (v m : ℚ) :
    HourlyMatches (eksFargateProfileCalc id v m) := by
  unfold HourlyMatches eksFargateProfileCalc HOURS_PER_MONTH
  try split_ifs
  all_goals simp
  all_goals ring

theorem details_glueDatabase (id : String) :
    DetailsMatch (glueDatabaseCalc id) := by
  unfold DetailsMatch detailsSum glueDatabaseCalc
  try split_ifs
  all_goals simp
  all_goals ring

theorem hourly_glueDatabase (id : String) :
    HourlyMatches (glueDatabaseCalc id) := by
  unfold HourlyMatches glueDatabaseCalc HOURS_PER_MONTH
  try split_ifs
  all_goals simp
  all_goals ring

theorem details_configRecorder (id : String) (p : ℚ) :
    DetailsMatch (configRecorderCalc id p) := by
  unfold DetailsMatch detailsSum configRecorderCalc
  try split_ifs
  all_goals simp
  all_goals ring

theorem hourly_configRecorder (id : String) (p : ℚ) :
    HourlyMatches (configRecorderCalc id p) := by
  unfold HourlyMatches configRecorderCalc HOURS_PER_MONTH
  try split_ifs
  all_goals simp
  all_goals ring

theorem details_ssmActivation (id : String) :
    DetailsMatch (ssmActivationCalc id) := by
  unfold DetailsMatch detailsSum ssmActivationCalc
  try split_ifs
  all_goals simp
  all_goals ring

theorem hourly_ssmActivation (id : String) :
    HourlyMatches (ssmActivationCalc id) := by
  unfold HourlyMatches ssmActivationCalc HOURS_PER_MONTH
  try split_ifs
  all_goals simp
  all_goals ring

theorem details_lambdaUsage (id : String) (m t rp dp : ℚ) :
    DetailsMatch (calculateLambdaCost id m t rp dp) := by
  unfold DetailsMatch detailsSum calculateLambdaCost
  try split_ifs
  all_goals simp
  all_goals ring

theorem hourly_lambdaUsage (id : String) (m t rp dp : ℚ) :
    HourlyMatches (calculateLambdaCost id m t rp dp) := by
  unfold HourlyMatches calculateLambdaCost HOURS_PER_MONTH
  try split_ifs
  all_goals simp
  all_goals ring

theorem details_dynamoDBUsage (id bm : String) (ow odr rc wc rp wp : ℚ) :
    DetailsMatch (calculateDynamoDBCost id bm ow odr rc wc rp wp) := by
  unfold DetailsMatch detailsSum calculateDynamoDBCost
  try split_ifs
  all_goals simp
  all_goals ring

theorem hourly_dynamoDBUsage (id bm : String) (ow odr rc wc rp wp : ℚ) :
    HourlyMatches (calculateDynamoDBCost id bm ow odr rc wc rp wp) := by
  unfold HourlyMatches calculateDynamoDBCost HOURS_PER_MONTH
  try split_ifs
  all_goals simp
  all_goals ring

theorem details_s3Usage (id : String) (p : ℚ) :
    DetailsMatch (calculateS3Cost id p) := by
  unfold DetailsMatch detailsSum calculateS3Cost
  try split_ifs
  all_goals simp
  all_goals ring

theorem hourly_s3Usage (id : String) (p : ℚ) :
    HourlyMatches (calculateS3Cost id p) := by
  unfold HourlyMatches calculateS3Cost HOURS_PER_MONTH
  try split_ifs
  all_goals simp
  all_goals ring

theorem details_sqsUsage (id : String) (b : Bool) (f s : ℚ) :
    DetailsMatch (calculateSQSCost id b f s) := by
  unfold DetailsMatch detailsSum calculateSQSCost
  try split_ifs
  all_goals simp
  all_goals ring

theorem hourly_sqsUsage (id : String) (b : Bool) (f s : ℚ) :
    HourlyMatches (calculateSQSCost id b f s) := by
  unfold HourlyMatches calculateSQSCost HOURS_PER_MONTH
  try split_ifs
  all_goals simp
  all_goals ring

theorem details_apiGatewayUsage (id rt : String) (h r : ℚ) :
    DetailsMatch (calculateApiGatewayCost id rt h r) := by
  unfold DetailsMatch detailsSum calculateApiGatewayCost
  try split_ifs
  all_goals simp
  all_goals ring

theorem hourly_apiGatewayUsage (id rt : String) (h r : ℚ) :
    HourlyMatches (calculateApiGatewayCost id rt h r) := by
  unfold HourlyMatches calculateApiGatewayCost HOURS_PER_MONTH
  try split_ifs
  all_goals simp
  all_goals ring

theorem details_stepFunctionsUsage (id t : String) (s e : ℚ) :
    DetailsMatch (calculateStepFunctionsCost id t s e) := by
  unfold DetailsMatch detailsSum calculateStepFunctionsCost
  try split_ifs
  all_goals simp
  all_goals ring

theorem hourly_stepFunctionsUsage (id t : String) (s e : ℚ) :
    HourlyMatches (calculateStepFunctionsCost id t s e) := by
  unfold HourlyMatches calculateStepFunctionsCost HOURS_PER_MONTH
  try split_ifs
  all_goals simp
  all_goals ring

theorem details_snsUsage (id : String) (p : ℚ) :
    DetailsMatch (calculateSNSCost id p) := by
  unfold DetailsMatch detailsSum calculateSNSCost
  try split_ifs
  all_goals simp
  all_goals ring

theorem hourly_snsUsage (id : String) (p : ℚ) :
    HourlyMatches (calculateSNSCost id p) := by
  unfold HourlyMatches calculateSNSCost HOURS_PER_MONTH
  try split_ifs
  all_goals simp
  all_goals ring

theorem details_cloudWatchLogsUsage (id : String) (i s : ℚ) :
    DetailsMatch (calculateCloudWatchLogsCost id i s) := by
  unfold DetailsMatch detailsSum calculateCloudWatchLogsCost
  try split_ifs
  all_goals simp
  all_goals ring

theorem hourly_cloudWatchLogsUsage (id : String) (i s : ℚ) :
    HourlyMatches (calculateCloudWatchLogsCost id i s) := by
  unfold HourlyMatches calculateCloudWatchLogsCost HOURS_PER_MONTH
  try split_ifs
  all_goals simp
  all_goals ring

theorem details_ssmParameterUsage (id t : String) :
    DetailsMatch (calculateSSMParameterCost id t) := by
  unfold DetailsMatch detailsSum calculateSSMParameterCost
  by_cases h : t = "Advanced" <;> simp [h] <;> norm_num

theorem hourly_ssmParameterUsage (id t : String) :
    HourlyMatches (calculateSSMParameterCost id t) := by
  unfold HourlyMatches calculateSSMParameterCost HOURS_PER_MONTH
  try split_ifs
  all_goals simp
  all_goals ring

theorem details_ecrUsage (id : String) (p : ℚ) :
    DetailsMatch (calculateECRCost id p) := by
  unfold DetailsMatch detailsSum calculateECRCost
  try split_ifs
  all_goals simp
  all_goals ring

theorem hourly_ecrUsage (id : String) (p : ℚ) :
    HourlyMatches (calculateECRCost id p) := by
  unfold HourlyMatches calculateECRCost HOURS_PER_MONTH
  try split_ifs
  all_goals simp
  all_goals ring

theorem details_route53RecordSetUsage (id : String) (p : ℚ) :
    DetailsMatch (calculateRoute53RecordSetCost id p) := by
  unfold DetailsMatch detailsSum calculateRoute53RecordSetCost
  try split_ifs
  all_goals simp
  all_goals ring

theorem hourly_route53RecordSetUsage (id : String) (p : ℚ) :
    HourlyMatches (calculateRoute53RecordSetCost id p) := by
  unfold HourlyMatches calculateRoute53RecordSetCost HOURS_PER_MONTH
  try split_ifs
  all_goals simp
  all_goals ring


/-! ### Hourly-cost exceptions (claims C1) -/

theorem hourlyExc_natGateway (id : String) (h d : ℚ) :
    (natGatewayCalc id h d).monthlyCost =
      (natGatewayCalc id h d).hourlyCost * HOURS_PER_MONTH + d * 100 := by
  unfold natGatewayCalc
  rfl

theorem hourlyExc_transitGatewayAttachment (id : String) (h d : ℚ) :
    (transitGatewayAttachmentCalc id h d).monthlyCost =
      (transitGatewayAttachmentCalc id h d).hourlyCost * HOURS_PER_MONTH + 100 * d := by
  unfold transitGatewayAttachmentCalc
  rfl

theorem hourlyExc_networkFirewall (id : String) (n : ℕ) :
    (networkFirewallCalc id n).monthlyCost =
      (networkFirewallCalc id n).hourlyCost * HOURS_PER_MONTH + 100 * 0.065 := by
  have key : ∀ (e c q x : ℚ), e * c * q + x = e * q * c + x := by
    intro e c q x
    ring
  unfold networkFirewallCalc
  exact key _ _ _ _



theorem calculateStackCost_skips_free (calcs : Registry) (usage : UsageFn)
    (stackName : String) (source : TemplateSource) (tpl : CfnTemplate)
    (pre post : List (String × CfnResource)) (id : String) (r : CfnResource)
    (hfree : isFreeResource r.resType = true)
    (hres : tpl.resources = pre ++ (id, r) :: post) :
    (calculateStackCost calcs usage stackName tpl source).resources =
      entriesResources calcs usage tpl (pre ++ post) ∧
    (calculateStackCost calcs usage stackName tpl source).unsupportedResources =
      entriesUnsupported calcs usage tpl (pre ++ post) := by
  rw [calculateStackCost_resources, calculateStackCost_unsupported, hres]
  constructor
  · simp [entriesResources, processEntry, hfree]
  · simp [entriesUnsupported, processEntry, hfree]

/-- Claim C1 (amended).  For every cost record produced by a calculator of
the registry or a usage-based estimator, `hourlyCost` equals
`monthlyCost / HOURS_PER_MONTH` — except for the NAT gateway, the transit
gateway attachment and the network firewall, whose `monthlyCost`
additionally contains the estimated data-processing cost while `hourlyCost`
covers only the hourly-rate component: there
`monthlyCost = hourlyCost * 730 + dataCost`.  The quantification over the
price and property arguments covers every template and pricing table. -/
theorem spec_C1 :
  (∀ (id t : String) (p : ℚ), HourlyMatches (ec2InstanceCalc id t p)) ∧
  (∀ (id : String) (c p : ℚ) (b : Bool), HourlyMatches (autoScalingGroupCalc id c p b)) ∧
  (∀ (id vt : String) (size iops tp ppg ipp ipg tpg : ℚ), HourlyMatches (ec2VolumeCalc id vt size iops tp ppg ipp ipg tpg)) ∧
  (∀ (id ic st : String) (als hp sp : ℚ) (m : Bool), HourlyMatches (rdsDBInstanceCalc id ic st als hp sp m)) ∧
  (∀ (id em : String) (mn mx : ℚ), HourlyMatches (rdsDBClusterCalc id em mn mx)) ∧
  (∀ (id nt : String) (n p : ℚ), HourlyMatches (elastiCacheClusterCalc id nt n p)) ∧
  (∀ (id nt : String) (g r p : ℚ), HourlyMatches (elastiCacheReplicationGroupCalc id nt g r p)) ∧
  (∀ (id : String) (b : Bool) (p l : ℚ), HourlyMatches (loadBalancerV2Calc id b p l)) ∧
  (∀ (id : String) (p : ℚ), HourlyMatches (classicLoadBalancerCalc id p)) ∧
  (∀ (id lt : String) (dc v m : ℚ), HourlyMatches (ecsServiceCalc id lt dc v m)) ∧
  (∀ (id : String) (p : ℚ), HourlyMatches (eksClusterCalc id p)) ∧
  (∀ (id : String) (p : ℚ), HourlyMatches (secretsManagerSecretCalc id p)) ∧
  (∀ (id : String) (p : ℚ), HourlyMatches (kmsKeyCalc id p)) ∧
  (∀ (id : String) (p : ℚ), HourlyMatches (route53HostedZoneCalc id p)) ∧
  (∀ (id : String) (p : ℚ), HourlyMatches (cloudWatchAlarmCalc id p)) ∧
  (∀ (id : String) (p : ℚ), HourlyMatches (cloudWatchDashboardCalc id p)) ∧
  (∀ (id : String), HourlyMatches (ec2EIPCalc id)) ∧
  (∀ (id et : String) (p : ℚ) (n : ℕ), HourlyMatches (vpcEndpointCalc id et p n)) ∧
  (∀ (id : String) (p : ℚ), HourlyMatches (ec2SnapshotCalc id p)) ∧
  (∀ (id : String) (p : ℚ), HourlyMatches (neptuneDBClusterCalc id p)) ∧
  (∀ (id ic : String) (p : ℚ), HourlyMatches (neptuneDBInstanceCalc id ic p)) ∧
  (∀ (id : String) (p : ℚ), HourlyMatches (docDBClusterCalc id p)) ∧
  (∀ (id ic : String) (p : ℚ), HourlyMatches (docDBInstanceCalc id ic p)) ∧
  (∀ (id nt : String) (n p : ℚ), HourlyMatches (redshiftClusterCalc id nt n p)) ∧
  (∀ (id : String) (p : ℚ), HourlyMatches (vpnConnectionCalc id p)) ∧
  (∀ (id : String) (p : ℚ), HourlyMatches (transitGatewayCalc id p)) ∧
  (∀ (id bw : String) (p : ℚ), HourlyMatches (directConnectCalc id bw p)) ∧
  (∀ (id : String) (p : ℚ), HourlyMatches (globalAcceleratorCalc id p)) ∧
  (∀ (id it : String) (p : ℚ), HourlyMatches (mqBrokerCalc id it p)) ∧
  (∀ (id it : String) (n p : ℚ), HourlyMatches (mskClusterCalc id it n p)) ∧
  (∀ (id : String) (c p : ℚ), HourlyMatches (kinesisStreamCalc id c p)) ∧
  (∀ (id : String) (p : ℚ), HourlyMatches (kinesisFirehoseCalc id p)) ∧
  (∀ (id tm : String) (pt sp tp : ℚ), HourlyMatches (efsFileSystemCalc id tm pt sp tp)) ∧
  (∀ (id ft : String) (sc p : ℚ), HourlyMatches (fsxFileSystemCalc id ft sc p)) ∧
  (∀ (id : String) (p : ℚ), HourlyMatches (backupVaultCalc id p)) ∧
  (∀ (id : String) (d r : ℚ), HourlyMatches (cloudFrontDistributionCalc id d r)) ∧
  (∀ (id : String), HourlyMatches (acmpcaCalc id)) ∧
  (∀ (id : String) (p : ℚ), HourlyMatches (configRuleCalc id p)) ∧
  (∀ (id : String) (b : Bool) (p : ℚ), HourlyMatches (cloudTrailCalc id b p)) ∧
  (∀ (id ct : String) (p : ℚ), HourlyMatches (codeBuildCalc id ct p)) ∧
  (∀ (id : String) (p : ℚ), HourlyMatches (glueJobCalc id p)) ∧
  (∀ (id : String) (p : ℚ), HourlyMatches (glueCrawlerCalc id p)) ∧
  (∀ (id : String) (n : ℕ) (w r : ℚ), HourlyMatches (wafv2WebACLCalc id n w r)) ∧
  (∀ (id : String) (w : ℚ), HourlyMatches (wafWebACLCalc id w)) ∧
  (∀ (id it : String) (c p : ℚ), HourlyMatches (openSearchDomainCalc id it c p)) ∧
  (∀ (id it : String) (c p : ℚ), HourlyMatches (elasticsearchDomainCalc id it c p)) ∧
  (∀ (id b : String) (p : ℚ), HourlyMatches (lightsailInstanceCalc id b p)) ∧
  (∀ (id ic : String) (p : ℚ), HourlyMatches (dmsReplicationInstanceCalc id ic p)) ∧
  (∀ (id : String) (p : ℚ), HourlyMatches (transferServerCalc id p)) ∧
  (∀ (id : String) (p : ℚ), HourlyMatches (codePipelineCalc id p)) ∧
  (∀ (id : String), HourlyMatches (grafanaWorkspaceCalc id)) ∧
  (∀ (id it : String) (p : ℚ), HourlyMatches (sageMakerNotebookCalc id it p)) ∧
  (∀ (id s : String) (p : ℚ), HourlyMatches (simpleADCalc id s p)) ∧
  (∀ (id e : String) (p : ℚ), HourlyMatches (microsoftADCalc id e p)) ∧
  (∀ (id ec : String) (p : ℚ), HourlyMatches (mwaaCalc id ec p)) ∧
  (∀ (id : String) (p : ℚ), HourlyMatches (kinesisAnalyticsCalc id p)) ∧
  (∀ (id : String) (p : ℚ), HourlyMatches (cloudFrontFunctionCalc id p)) ∧
  (∀ (id : String) (n : ℕ) (p : ℚ), HourlyMatches (route53ResolverEndpointCalc id n p)) ∧
  (∀ (id : String) (p : ℚ), HourlyMatches (route53HealthCheckCalc id p)) ∧
  (∀ (id : String) (p c : ℚ), HourlyMatches (clientVpnEndpointCalc id p c)) ∧
  (∀ (id : String) (p : ℚ), HourlyMatches (trafficMirrorSessionCalc id p)) ∧
  (∀ (id : String) (p : ℚ), HourlyMatches (tgwPeeringAttachmentCalc id p)) ∧
  (∀ (id it : String) (p : ℚ), HourlyMatches (ec2HostCalc id it p)) ∧
  (∀ (id it : String) (d p : ℚ), HourlyMatches (eksNodegroupCalc id it d p)) ∧
  (∀ (id : String) (v m : ℚ), HourlyMatches (eksFargateProfileCalc id v m)) ∧
  (∀ (id : String), HourlyMatches (glueDatabaseCalc id)) ∧
  (∀ (id : String) (p : ℚ), HourlyMatches (configRecorderCalc id p)) ∧
  (∀ (id : String), HourlyMatches (ssmActivationCalc id)) ∧
  (∀ (id : String) (m t rp dp : ℚ), HourlyMatches (calculateLambdaCost id m t rp dp)) ∧
  (∀ (id bm : String) (ow odr rc wc rp wp : ℚ), HourlyMatches (calculateDynamoDBCost id bm ow odr rc wc rp wp)) ∧
  (∀ (id : String) (p : ℚ), HourlyMatches (calculateS3Cost id p)) ∧
  (∀ (id : String) (b : Bool) (f s : ℚ), HourlyMatches (calculateSQSCost id b f s)) ∧
  (∀ (id rt : String) (h r : ℚ), HourlyMatches (calculateApiGatewayCost id rt h r)) ∧
  (∀ (id t : String) (s e : ℚ), HourlyMatches (calculateStepFunctionsCost id t s e)) ∧
  (∀ (id : String) (p : ℚ), HourlyMatches (calculateSNSCost id p)) ∧
  (∀ (id : String) (i s : ℚ), HourlyMatches (calculateCloudWatchLogsCost id i s)) ∧
  (∀ (id t : String), HourlyMatches (calculateSSMParameterCost id t)) ∧
  (∀ (id : String) (p : ℚ), HourlyMatches (calculateECRCost id p)) ∧
  (∀ (id : String) (p : ℚ), HourlyMatches (calculateRoute53RecordSetCost id p)) ∧
  (∀ (id : String) (h d : ℚ),
    (natGatewayCalc id h d).monthlyCost =
      (natGatewayCalc id h d).hourlyCost * HOURS_PER_MONTH + d * 100) ∧
  (∀ (id : String) (h d : ℚ),
    (transitGatewayAttachmentCalc id h d).monthlyCost =
      (transitGatewayAttachmentCalc id h d).hourlyCost * HOURS_PER_MONTH + 100 * d) ∧
  (∀ (id : String) (n : ℕ),
    (networkFirewallCalc id n).monthlyCost =
      (networkFirewallCalc id n).hourlyCost * HOURS_PER_MONTH + 100 * 0.065) :=
  ⟨hourly_ec2Instance, hourly_autoScalingGroup, hourly_ec2Volume, hourly_rdsDBInstance, hourly_rdsDBCluster, hourly_elastiCacheCluster, hourly_elastiCacheReplicationGroup, hourly_loadBalancerV2, hourly_classicLoadBalancer, hourly_ecsService, hourly_eksCluster, hourly_secretsManagerSecret, hourly_kmsKey, hourly_route53HostedZone, hourly_cloudWatchAlarm, hourly_cloudWatchDashboard, hourly_ec2EIP, hourly_vpcEndpoint, hourly_ec2Snapshot, hourly_neptuneDBCluster, hourly_neptuneDBInstance, hourly_docDBCluster, hourly_docDBInstance, hourly_redshiftCluster, hourly_vpnConnection, hourly_transitGateway, hourly_directConnect, hourly_globalAccelerator, hourly_mqBroker, hourly_mskCluster, hourly_kinesisStream, hourly_kinesisFirehose, hourly_efsFileSystem, hourly_fsxFileSystem, hourly_backupVault, hourly_cloudFrontDistribution, hourly_acmpca, hourly_configRule, hourly_cloudTrail, hourly_codeBuild, hourly_glueJob, hourly_glueCrawler, hourly_wafv2WebACL, hourly_wafWebACL, hourly_openSearchDomain, hourly_elasticsearchDomain, hourly_lightsailInstance, hourly_dmsReplicationInstance, hourly_transferServer, hourly_codePipeline, hourly_grafanaWorkspace, hourly_sageMakerNotebook, hourly_simpleAD, hourly_microsoftAD, hourly_mwaa, hourly_kinesisAnalytics, hourly_cloudFrontFunction, hourly_route53ResolverEndpoint, hourly_route53HealthCheck, hourly_clientVpnEndpoint, hourly_trafficMirrorSession, hourly_tgwPeeringAttachment, hourly_ec2Host, hourly_eksNodegroup, hourly_eksFargateProfile, hourly_glueDatabase, hourly_configRecorder, hourly_ssmActivation, hourly_lambdaUsage, hourly_dynamoDBUsage, hourly_s3Usage, hourly_sqsUsage, hourly_apiGatewayUsage, hourly_stepFunctionsUsage, hourly_snsUsage, hourly_cloudWatchLogsUsage, hourly_ssmParameterUsage, hourly_ecrUsage, hourly_route53RecordSetUsage, hourlyExc_natGateway, hourlyExc_transitGatewayAttachment, hourlyExc_networkFirewall⟩

/-- Claim C2.  For every template (and any registry and usage estimator,
the source's included), the estimate's totals are exactly the sums of the
`monthlyCost` and `hourlyCost` columns over its `resources` list (so the
1e-6 tolerance holds trivially); a resource of a free type contributes
neither a cost record nor an unsupported record (so nothing to the totals);
and every cost record any calculator or usage-based estimator produces has
`monthlyCost` equal to the sum of its details' monthly costs. -/
theorem spec_C2 :
  (∀ (calcs : Registry) (usage : UsageFn) (stackName : String) (tpl : CfnTemplate)
     (source : TemplateSource),
    (calculateStackCost calcs usage stackName tpl source).totalMonthlyCost =
      (((calculateStackCost calcs usage stackName tpl source).resources).map
        (fun r => r.monthlyCost)).sum ∧
    (calculateStackCost calcs usage stackName tpl source).totalHourlyCost =
      (((calculateStackCost calcs usage stackName tpl source).resources).map
        (fun r => r.hourlyCost)).sum) ∧
  (∀ (calcs : Registry) (usage : UsageFn) (stackName : String) (source : TemplateSource)
     (tpl : CfnTemplate) (pre post : List (String × CfnResource)) (id : String)
     (r : CfnResource),
    isFreeResource r.resType = true →
    tpl.resources = pre ++ (id, r) :: post →
    (calculateStackCost calcs usage stackName tpl source).resources =
      entriesResources calcs usage tpl (pre ++ post) ∧
    (calculateStackCost calcs usage stackName tpl source).unsupportedResources =
      entriesUnsupported calcs usage tpl (pre ++ post)) ∧
  (∀ (id t : String) (p : ℚ), DetailsMatch (ec2InstanceCalc id t p)) ∧
  (∀ (id : String) (c p : ℚ) (b : Bool), DetailsMatch (autoScalingGroupCalc id c p b)) ∧
  (∀ (id vt : String) (size iops tp ppg ipp ipg tpg : ℚ), DetailsMatch (ec2VolumeCalc id vt size iops tp ppg ipp ipg tpg)) ∧
  (∀ (id ic st : String) (als hp sp : ℚ) (m : Bool), DetailsMatch (rdsDBInstanceCalc id ic st als hp sp m)) ∧
  (∀ (id em : String) (mn mx : ℚ), DetailsMatch (rdsDBClusterCalc id em mn mx)) ∧
  (∀ (id nt : String) (n p : ℚ), DetailsMatch (elastiCacheClusterCalc id nt n p)) ∧
  (∀ (id nt : String) (g r p : ℚ), DetailsMatch (elastiCacheReplicationGroupCalc id nt g r p)) ∧
  (∀ (id : String) (h d : ℚ), DetailsMatch (natGatewayCalc id h d)) ∧
  (∀ (id : String) (b : Bool) (p l : ℚ), DetailsMatch (loadBalancerV2Calc id b p l)) ∧
  (∀ (id : String) (p : ℚ), DetailsMatch (classicLoadBalancerCalc id p)) ∧
  (∀ (id lt : String) (dc v m : ℚ), DetailsMatch (ecsServiceCalc id lt dc v m)) ∧
  (∀ (id : String) (p : ℚ), DetailsMatch (eksClusterCalc id p)) ∧
  (∀ (id : String) (p : ℚ), DetailsMatch (secretsManagerSecretCalc id p)) ∧
  (∀ (id : String) (p : ℚ), DetailsMatch (kmsKeyCalc id p)) ∧
  (∀ (id : String) (p : ℚ), DetailsMatch (route53HostedZoneCalc id p)) ∧
  (∀ (id : String) (p : ℚ), DetailsMatch (cloudWatchAlarmCalc id p)) ∧
  (∀ (id : String) (p : ℚ), DetailsMatch (cloudWatchDashboardCalc id p)) ∧
  (∀ (id : String), DetailsMatch (ec2EIPCalc id)) ∧
  (∀ (id et : String) (p : ℚ) (n : ℕ), DetailsMatch (vpcEndpointCalc id et p n)) ∧
  (∀ (id : String) (p : ℚ), DetailsMatch (ec2SnapshotCalc id p)) ∧
  (∀ (id : String) (p : ℚ), DetailsMatch (neptuneDBClusterCalc id p)) ∧
  (∀ (id ic : String) (p : ℚ), DetailsMatch (neptuneDBInstanceCalc id ic p)) ∧
  (∀ (id : String) (p : ℚ), DetailsMatch (docDBClusterCalc id p)) ∧
  (∀ (id ic : String) (p : ℚ), DetailsMatch (docDBInstanceCalc id ic p)) ∧
  (∀ (id nt : String) (n p : ℚ), DetailsMatch (redshiftClusterCalc id nt n p)) ∧
  (∀ (id : String) (p : ℚ), DetailsMatch (vpnConnectionCalc id p)) ∧
  (∀ (id : String) (p : ℚ), DetailsMatch (transitGatewayCalc id p)) ∧
  (∀ (id : String) (h d : ℚ), DetailsMatch (transitGatewayAttachmentCalc id h d)) ∧
  (∀ (id bw : String) (p : ℚ), DetailsMatch (directConnectCalc id bw p)) ∧
  (∀ (id : String) (p : ℚ), DetailsMatch (globalAcceleratorCalc id p)) ∧
  (∀ (id it : String) (p : ℚ), DetailsMatch (mqBrokerCalc id it p)) ∧
  (∀ (id it : String) (n p : ℚ), DetailsMatch (mskClusterCalc id it n p)) ∧
  (∀ (id : String) (c p : ℚ), DetailsMatch (kinesisStreamCalc id c p)) ∧
  (∀ (id : String) (p : ℚ), DetailsMatch (kinesisFirehoseCalc id p)) ∧
  (∀ (id tm : String) (pt sp tp : ℚ), DetailsMatch (efsFileSystemCalc id tm pt sp tp)) ∧
  (∀ (id ft : String) (sc p : ℚ), DetailsMatch (fsxFileSystemCalc id ft sc p)) ∧
  (∀ (id : String) (p : ℚ), DetailsMatch (backupVaultCalc id p)) ∧
  (∀ (id : String) (d r : ℚ), DetailsMatch (cloudFrontDistributionCalc id d r)) ∧
  (∀ (id : String), DetailsMatch (acmpcaCalc id)) ∧
  (∀ (id : String) (p : ℚ), DetailsMatch (configRuleCalc id p)) ∧
  (∀ (id : String) (b : Bool) (p : ℚ), DetailsMatch (cloudTrailCalc id b p)) ∧
  (∀ (id ct : String) (p : ℚ), DetailsMatch (codeBuildCalc id ct p)) ∧
  (∀ (id : String) (p : ℚ), DetailsMatch (glueJobCalc id p)) ∧
  (∀ (id : String) (p : ℚ), DetailsMatch (glueCrawlerCalc id p)) ∧
  (∀ (id : String) (n : ℕ) (w r : ℚ), DetailsMatch (wafv2WebACLCalc id n w r)) ∧
  (∀ (id : String) (w : ℚ), DetailsMatch (wafWebACLCalc id w)) ∧
  (∀ (id it : String) (c p : ℚ), DetailsMatch (openSearchDomainCalc id it c p)) ∧
  (∀ (id it : String) (c p : ℚ), DetailsMatch (elasticsearchDomainCalc id it c p)) ∧
  (∀ (id b : String) (p : ℚ), DetailsMatch (lightsailInstanceCalc id b p)) ∧
  (∀ (id ic : String) (p : ℚ), DetailsMatch (dmsReplicationInstanceCalc id ic p)) ∧
  (∀ (id : String) (p : ℚ), DetailsMatch (transferServerCalc id p)) ∧
  (∀ (id : String) (p : ℚ), DetailsMatch (codePipelineCalc id p)) ∧
  (∀ (id : String) (n : ℕ), DetailsMatch (networkFirewallCalc id n)) ∧
  (∀ (id : String), DetailsMatch (grafanaWorkspaceCalc id)) ∧
  (∀ (id it : String) (p : ℚ), DetailsMatch (sageMakerNotebookCalc id it p)) ∧
  (∀ (id s : String) (p : ℚ), DetailsMatch (simpleADCalc id s p)) ∧
  (∀ (id e : String) (p : ℚ), DetailsMatch (microsoftADCalc id e p)) ∧
  (∀ (id ec : String) (p : ℚ), DetailsMatch (mwaaCalc id ec p)) ∧
  (∀ (id : String) (p : ℚ), DetailsMatch (kinesisAnalyticsCalc id p)) ∧
  (∀ (id : String) (p : ℚ), DetailsMatch (cloudFrontFunctionCalc id p)) ∧
  (∀ (id : String) (n : ℕ) (p : ℚ), DetailsMatch (route53ResolverEndpointCalc id n p)) ∧
  (∀ (id : String) (p : ℚ), DetailsMatch (route53HealthCheckCalc id p)) ∧
  (∀ (id : String) (p c : ℚ), DetailsMatch (clientVpnEndpointCalc id p c)) ∧
  (∀ (id : String) (p : ℚ), DetailsMatch (trafficMirrorSessionCalc id p)) ∧
  (∀ (id : String) (p : ℚ), DetailsMatch (tgwPeeringAttachmentCalc id p)) ∧
  (∀ (id it : String) (p : ℚ), DetailsMatch (ec2HostCalc id it p)) ∧
  (∀ (id it : String) (d p : ℚ), DetailsMatch (eksNodegroupCalc id it d p)) ∧
  (∀ (id : String) (v m : ℚ), DetailsMatch (eksFargateProfileCalc id v m)) ∧
  (∀ (id : String), DetailsMatch (glueDatabaseCalc id)) ∧
  (∀ (id : String) (p : ℚ), DetailsMatch (configRecorderCalc id p)) ∧
  (∀ (id : String), DetailsMatch (ssmActivationCalc id)) ∧
  (∀ (id : String) (m t rp dp : ℚ), DetailsMatch (calculateLambdaCost id m t rp dp)) ∧
  (∀ (id bm : String) (ow odr rc wc rp wp : ℚ), DetailsMatch (calculateDynamoDBCost id bm ow odr rc wc rp wp)) ∧
  (∀ (id : String) (p : ℚ), DetailsMatch (calculateS3Cost id p)) ∧
  (∀ (id : String) (b : Bool) (f s : ℚ), DetailsMatch (calculateSQSCost id b f s)) ∧
  (∀ (id rt : String) (h r : ℚ), DetailsMatch (calculateApiGatewayCost id rt h r)) ∧
  (∀ (id t : String) (s e : ℚ), DetailsMatch (calculateStepFunctionsCost id t s e)) ∧
  (∀ (id : String) (p : ℚ), DetailsMatch (calculateSNSCost id p)) ∧
  (∀ (id : String) (i s : ℚ), DetailsMatch (calculateCloudWatchLogsCost id i s)) ∧
  (∀ (id t : String), DetailsMatch (calculateSSMParameterCost id t)) ∧
  (∀ (id : String) (p : ℚ), DetailsMatch (calculateECRCost id p)) ∧
  (∀ (id : String) (p : ℚ), DetailsMatch (calculateRoute53RecordSetCost id p)) :=
  ⟨fun calcs usage stackName tpl source =>
    ⟨calculateStackCost_totalMonthly calcs usage stackName tpl source,
     calculateStackCost_totalHourly calcs usage stackName tpl source⟩,
   calculateStackCost_skips_free,
   details_ec2Instance,
   details_autoScalingGroup,
   details_ec2Volume,
   details_rdsDBInstance,
   details_rdsDBCluster,
   details_elastiCacheCluster,
   details_elastiCacheReplicationGroup,
   details_natGateway,
   details_loadBalancerV2,
   details_classicLoadBalancer,
   details_ecsService,
   details_eksCluster,
   details_secretsManagerSecret,
   details_kmsKey,
   details_route53HostedZone,
   details_cloudWatchAlarm,
   details_cloudWatchDashboard,
   details_ec2EIP,
   details_vpcEndpoint,
   details_ec2Snapshot,
   details_neptuneDBCluster,
   details_neptuneDBInstance,
   details_docDBCluster,
   details_docDBInstance,
   details_redshiftCluster,
   details_vpnConnection,
   details_transitGateway,
   details_transitGatewayAttachment,
   details_directConnect,
   details_globalAccelerator,
   details_mqBroker,
   details_mskCluster,
   details_kinesisStream,
   details_kinesisFirehose,
   details_efsFileSystem,
   details_fsxFileSystem,
   details_backupVault,
   details_cloudFrontDistribution,
   details_acmpca,
   details_configRule,
   details_cloudTrail,
   details_codeBuild,
   details_glueJob,
   details_glueCrawler,
   details_wafv2WebACL,
   details_wafWebACL,
   details_openSearchDomain,
   details_elasticsearchDomain,
   details_lightsailInstance,
   details_dmsReplicationInstance,
   details_transferServer,
   details_codePipeline,
   details_networkFirewall,
   details_grafanaWorkspace,
   details_sageMakerNotebook,
   details_simpleAD,
   details_microsoftAD,
   details_mwaa,
   details_kinesisAnalytics,
   details_cloudFrontFunction,
   details_route53ResolverEndpoint,
   details_route53HealthCheck,
   details_clientVpnEndpoint,
   details_trafficMirrorSession,
   details_tgwPeeringAttachment,
   details_ec2Host,
   details_eksNodegroup,
   details_eksFargateProfile,
   details_glueDatabase,
   details_configRecorder,
   details_ssmActivation,
   details_lambdaUsage,
   details_dynamoDBUsage,
   details_s3Usage,
   details_sqsUsage,
   details_apiGatewayUsage,
   details_stepFunctionsUsage,
   details_snsUsage,
   details_cloudWatchLogsUsage,
   details_ssmParameterUsage,
   details_ecrUsage,
   details_route53RecordSetUsage⟩


/-- Claim C1, counterexample.  The NAT gateway record at the base prices
(hourly rate 0.045 $/h, data processing 0.045 $/GB) has
`hourlyCost = 0.045` but `monthlyCost / 730 = 37.35 / 730 ≠ 0.045`: the
claimed division law fails exactly on the added data-processing component. -/
theorem spec_C1_counterexample :
    ¬ ((natGatewayCalc "MyNATGateway" 0.045 0.045).hourlyCost =
        (natGatewayCalc "MyNATGateway" 0.045 0.045).monthlyCost / HOURS_PER_MONTH) := by
  unfold natGatewayCalc HOURS_PER_MONTH
  norm_num

/-- Claim C3.  `compareEstimates` rows are exactly the classifications of the
identifiers present in either estimate: an identifier absent from `before`'s
map yields an `added` row with `beforeCost = 0` and
`costDifference = afterCost`; present in both with monthly costs more than a
cent apart yields a `modified` row with the signed difference; present in
both within a cent yields an `unchanged` row with `costDifference = 0` even
when the raw costs differ; and the rows of `compareEstimates` are exactly the
`classifyAfter` rows of `after`'s map plus the `removed` rows
(`afterCost = 0`, `costDifference = -beforeCost`) of `before`'s identifiers
missing from `after`'s map. -/
theorem spec_C3 :
  (∀ (before after : StackCostEstimate) (c : ResourceChange),
    c ∈ (compareEstimates before after).resourceChanges ↔
      ((∃ p ∈ resourceMap after.resources,
          c = classifyAfter (resourceMap before.resources) p.1 p.2) ∨
       (∃ p ∈ resourceMap before.resources,
          jsMapHas (resourceMap after.resources) p.1 = false ∧
          c = { resourceId := p.1, resourceType := p.2.resourceType,
                changeType := .removed, beforeCost := p.2.monthlyCost, afterCost := 0,
                costDifference := -p.2.monthlyCost }))) ∧
  (∀ (beforeResources : List (String × ResourceCost)) (rid : String)
     (r : ResourceCost),
    jsMapGet beforeResources rid = none →
    classifyAfter beforeResources rid r =
      { resourceId := rid, resourceType := r.resourceType, changeType := .added,
        beforeCost := 0, afterCost := r.monthlyCost,
        costDifference := r.monthlyCost }) ∧
  (∀ (beforeResources : List (String × ResourceCost)) (rid : String)
     (r br : ResourceCost),
    jsMapGet beforeResources rid = some br →
    |br.monthlyCost - r.monthlyCost| > 0.01 →
    classifyAfter beforeResources rid r =
      { resourceId := rid, resourceType := r.resourceType, changeType := .modified,
        beforeCost := br.monthlyCost, afterCost := r.monthlyCost,
        costDifference := r.monthlyCost - br.monthlyCost }) ∧
  (∀ (beforeResources : List (String × ResourceCost)) (rid : String)
     (r br : ResourceCost),
    jsMapGet beforeResources rid = some br →
    ¬ |br.monthlyCost - r.monthlyCost| > 0.01 →
    classifyAfter beforeResources rid r =
      { resourceId := rid, resourceType := r.resourceType, changeType := .unchanged,
        beforeCost := br.monthlyCost, afterCost := r.monthlyCost,
        costDifference := 0 }) := by
  refine ⟨mem_resourceChanges_iff, ?_, ?_, ?_⟩
  · intro b rid r h
    unfold classifyAfter
    rw [h]
  · intro b rid r br h hgt
    unfold classifyAfter
    rw [h]
    simp only [if_pos hgt]
  · intro b rid r br h hle
    unfold classifyAfter
    rw [h]
    simp only [if_neg hle]

/-- Claim C4.  The comparison's `costDifference` is exactly
`after.totalMonthlyCost - before.totalMonthlyCost`; its `percentageChange`
is `0` when both totals are `0`, `100` when `before`'s total is `0` and
`after`'s is positive, and `costDifference / before.totalMonthlyCost * 100`
whenever `before`'s total is positive. -/
theorem spec_C4 :
  (∀ (before after : StackCostEstimate),
    (compareEstimates before after).costDifference =
      after.totalMonthlyCost - before.totalMonthlyCost) ∧
  (∀ (before after : StackCostEstimate),
    before.totalMonthlyCost = 0 → after.totalMonthlyCost = 0 →
    (compareEstimates before after).percentageChange = 0) ∧
  (∀ (before after : StackCostEstimate),
    before.totalMonthlyCost = 0 → 0 < after.totalMonthlyCost →
    (compareEstimates before after).percentageChange = 100) ∧
  (∀ (before after : StackCostEstimate),
    0 < before.totalMonthlyCost →
    (compareEstimates before after).percentageChange =
      (after.totalMonthlyCost - before.totalMonthlyCost) /
        before.totalMonthlyCost * 100) := by
  refine ⟨?_, ?_, ?_, ?_⟩
  · intro b a
    rfl
  · intro b a hb ha
    simp only [compareEstimates, hb, ha]
    norm_num
  · intro b a hb ha
    simp only [compareEstimates, hb]
    norm_num [ha]
  · intro b a hb
    simp only [compareEstimates, if_pos hb]


/-- Claim C5 (amended).  Resolving `\x7bRef: name\x7d` never throws (the
resolver is a total function), and yields: when the name is a *declared,
truthy* parameter, the context's supplied override if one is present, else
the parameter's declared default, else the placeholder; but when the
template has no `Parameters` section, the name is undeclared, or the
declared parameter value is falsy, the placeholder string
`\x7b\x7bRef:<name>\x7d\x7d` is returned and any supplied context override
is ignored. -/
theorem spec_C5 :
  (∀ (tpl : CfnTemplate) (ctx : Option (List (String × JsValue))) (name : String),
    resolve tpl ctx (.obj [("Ref", .str name)]) = resolveRef tpl ctx name) ∧
  (∀ (tpl : CfnTemplate) (ctx : Option (List (String × JsValue))) (name : String)
     (ps : List (String × JsValue)) (param v : JsValue),
    tpl.parameters = some ps → lookupField ps name = some param →
    truthy param = true → contextOverride ctx name = some v →
    resolveRef tpl ctx name = v) ∧
  (∀ (tpl : CfnTemplate) (ctx : Option (List (String × JsValue))) (name : String)
     (ps : List (String × JsValue)) (param : JsValue),
    tpl.parameters = some ps → lookupField ps name = some param →
    truthy param = true → contextOverride ctx name = none →
    resolveRef tpl ctx name = paramDefault param name) ∧
  (∀ (param : JsValue) (name : String) (d : JsValue),
    getField param "Default" = d → d ≠ .undef → paramDefault param name = d) ∧
  (∀ (param : JsValue) (name : String),
    getField param "Default" = .undef → paramDefault param name = refPlaceholder name) ∧
  (∀ (tpl : CfnTemplate) (ctx : Option (List (String × JsValue))) (name : String),
    tpl.parameters = none → resolveRef tpl ctx name = refPlaceholder name) ∧
  (∀ (tpl : CfnTemplate) (ctx : Option (List (String × JsValue))) (name : String)
     (ps : List (String × JsValue)),
    tpl.parameters = some ps → lookupField ps name = none →
    resolveRef tpl ctx name = refPlaceholder name) ∧
  (∀ (tpl : CfnTemplate) (ctx : Option (List (String × JsValue))) (name : String)
     (ps : List (String × JsValue)) (param : JsValue),
    tpl.parameters = some ps → lookupField ps name = some param →
    truthy param = false → resolveRef tpl ctx name = refPlaceholder name) := by
  refine ⟨resolve_of_ref, ?_, ?_, ?_, ?_, ?_, ?_, ?_⟩
  · intro tpl ctx name ps param v h1 h2 h3 h4
    exact resolveRef_override h1 h2 h3 h4
  · intro tpl ctx name ps param h1 h2 h3 h4
    exact resolveRef_no_override h1 h2 h3 h4
  · intro param name d h hne
    exact paramDefault_of_default h hne
  · intro param name h
    exact paramDefault_of_no_default h
  · intro tpl ctx name h
    exact resolveRef_no_params h
  · intro tpl ctx name ps h1 h2
    exact resolveRef_undeclared h1 h2
  · intro tpl ctx name ps param h1 h2 h3
    exact resolveRef_falsy h1 h2 h3

/-- Claim C5, counterexample.  On a template with no `Parameters` section,
resolving `\x7bRef: "P"\x7d` under a context that explicitly supplies
`P = 42` yields the placeholder string, not the supplied override: an
override applies only to a declared, truthy parameter. -/
theorem spec_C5_counterexample :
    resolve { parameters := none, resources := [] } (some [("P", .num 42)])
        (.obj [("Ref", .str "P")]) = refPlaceholder "P" ∧
    refPlaceholder "P" ≠ .num 42 := by
  constructor
  · rw [resolve_of_ref]
    rfl
  · simp [refPlaceholder]


theorem jsIndex_in_range (ys : List JsValue) (n : ℚ)
    (h : n.den = 1 ∧ 0 ≤ n.num ∧ n.num.toNat < ys.length) :
    jsIndex ys n = ys.getD n.num.toNat .undef := by
  unfold jsIndex
  rw [dif_pos h, List.getD_eq_getElem?_getD, List.getElem?_eq_getElem h.2.2]
  rfl

theorem jsIndex_out_of_range (ys : List JsValue) (n : ℚ)
    (h : ¬ (n.den = 1 ∧ 0 ≤ n.num ∧ n.num.toNat < ys.length)) :
    jsIndex ys n = .undef := by
  unfold jsIndex
  rw [dif_neg h]

/-- Claim C6 (amended).  A property whose value is an `Fn::Select` with a
numeric index over a literal list resolves through `jsIndex` applied to the
elementwise-resolved list; the selected element comes back when the index is
an in-range integer, but an out-of-range (or negative, or fractional) index
yields JavaScript `undefined` — `list[index]` of the source — which the
property read returns as the resolved value; the caller-supplied default is
NOT substituted (the default applies only when the property path itself
cannot be walked, before resolution).  No exception is thrown in either
case (the resolver is total). -/
theorem spec_C6 :
  (∀ (tpl : CfnTemplate) (propName : String) (i : ℚ) (xs : List JsValue)
     (dflt : JsValue) (r : CfnResource),
    r.properties = some (.obj [(propName, .obj [("Fn::Select", .arr [.num i, .arr xs])])]) →
    splitDot propName = [propName] →
    getPropertyValue tpl r propName dflt = jsIndex (xs.map (resolve tpl none)) i) ∧
  (∀ (ys : List JsValue) (n : ℚ),
    n.den = 1 ∧ 0 ≤ n.num ∧ n.num.toNat < ys.length →
    jsIndex ys n = ys.getD n.num.toNat .undef) ∧
  (∀ (ys : List JsValue) (n : ℚ),
    ¬ (n.den = 1 ∧ 0 ≤ n.num ∧ n.num.toNat < ys.length) →
    jsIndex ys n = .undef) := by
  refine ⟨?_, jsIndex_in_range, jsIndex_out_of_range⟩
  intro tpl propName i xs dflt r hprops hsplit
  exact getPropertyValue_select tpl propName i xs dflt r hprops hsplit

/-- Claim C6, counterexample.  Selecting index 2 from a two-element list in
a property read with the caller default `"d"` returns `undefined`, not the
default: an out-of-range `Fn::Select` does not fall back to the
caller-supplied default value. -/
theorem spec_C6_counterexample :
    getPropertyValue { parameters := none, resources := [] }
        { resType := "AWS::EC2::Subnet",
          properties := some (.obj [("AvailabilityZone",
            .obj [("Fn::Select", .arr [.num 2, .arr [.str "a", .str "b"]])])]) }
        "AvailabilityZone" (.str "d") = JsValue.undef ∧
    JsValue.undef ≠ JsValue.str "d" := by
  constructor
  · rw [getPropertyValue_select _ _ _ _ _ _ rfl (by decide),
      jsIndex_out_of_range]
    simp only [List.map_cons, List.map_nil, List.length_cons, List.length_nil]
    norm_num [Rat.num_ofNat]
  · simp


theorem sizeOf_lt_of_lookupTree {fs : List (String × PriceTree)} {k : String}
    {t : PriceTree} (h : lookupTree fs k = some t) :
    sizeOf t < sizeOf (PriceTree.table fs) := by
  induction fs with
  | nil => simp [lookupTree] at h
  | cons p rest ih =>
    obtain ⟨k', v⟩ := p
    simp only [lookupTree] at h
    split at h
    · cases h
      simp
      omega
    · have := ih h
      simp at this ⊢
      omega

theorem lookupTree_applyMultiplierFields (fs : List (String × PriceTree)) (m : ℚ)
    (k : String) :
    lookupTree (applyMultiplierFields fs m) k =
      (lookupTree fs k).map (fun t => applyMultiplier t m) := by
  induction fs with
  | nil => rfl
  | cons p rest ih =>
    obtain ⟨k', v⟩ := p
    rw [applyMultiplierFields]
    simp only [lookupTree]
    split
    · rfl
    · exact ih

/-- Leaf-by-leaf action of the multiplier: every numeric leaf of the scaled
table is the base leaf times the factor, at every path. -/
theorem leafAt_applyMultiplier : ∀ (t : PriceTree) (m : ℚ) (path : List String),
    leafAt (applyMultiplier t m) path = (leafAt t path).map (fun q => q * m)
  | .price q, m, [] => rfl
  | .price q, m, _ :: _ => rfl
  | .table fs, m, [] => rfl
  | .table fs, m, k :: ks => by
    rw [applyMultiplier]
    simp only [leafAt]
    rw [lookupTree_applyMultiplierFields]
    match h : lookupTree fs k with
    | none => rfl
    | some u =>
      simp only [Option.map_some']
      exact leafAt_applyMultiplier u m ks
termination_by t _ _ => sizeOf t
decreasing_by exact sizeOf_lt_of_lookupTree h

/-- Claim C7.  The pricing lookup returns the base table itself for the
canonical region `us-east-1`; for every other region it returns
`applyMultiplier` of the base table by that region's factor (the structural
map over leaves — the model of the source's clone-then-scale, which by value
semantics never mutates the base table), where the factor falls back to the
flat `1.1` for regions missing from `REGIONAL_MULTIPLIERS`; and at every
key path the scaled table's numeric leaf is exactly the base leaf times the
factor. -/
theorem spec_C7 :
  (getRegionalPricing "us-east-1" = US_EAST_1_PRICING) ∧
  (∀ (region : String), region ≠ "us-east-1" →
    getRegionalPricing region =
      applyMultiplier US_EAST_1_PRICING
        (jsOrNum (lookupQ REGIONAL_MULTIPLIERS region) 1.1)) ∧
  (∀ (region : String), lookupQ REGIONAL_MULTIPLIERS region = none →
    getRegionalPricing region = applyMultiplier US_EAST_1_PRICING 1.1) ∧
  (∀ (region : String) (path : List String), region ≠ "us-east-1" →
    leafAt (getRegionalPricing region) path =
      (leafAt US_EAST_1_PRICING path).map
        (fun q => q * jsOrNum (lookupQ REGIONAL_MULTIPLIERS region) 1.1)) := by
  refine ⟨rfl, ?_, ?_, ?_⟩
  · intro region h
    simp only [getRegionalPricing]
    rw [if_neg h]
  · intro region h
    have hne : region ≠ "us-east-1" := by
      intro he
      subst he
      simp [REGIONAL_MULTIPLIERS, lookupQ] at h
    simp only [getRegionalPricing]
    rw [if_neg hne, h]
    rfl
  · intro region path h
    simp only [getRegionalPricing]
    rw [if_neg h]
    exact leafAt_applyMultiplier _ _ _


/-- Claim C8.  When the registered calculator for a resource throws,
`calculateStackCost` recovers locally: the resource is recorded once, in
template position, as an `UnsupportedResource` with reason exactly
`"Calculation error: <message>"`; the `resources` list and both totals are
exactly those of the remaining entries (the failed resource contributes
zero and the calculator is consulted exactly once per entry, which the
single `processEntry` occurrence per position states); no exception leaves
`calculateStackCost`, which is a total function. -/
theorem spec_C8 :
  ∀ (calcs : Registry) (usage : UsageFn) (stackName : String)
    (source : TemplateSource) (tpl : CfnTemplate)
    (pre post : List (String × CfnResource)) (id : String) (r : CfnResource)
    (cf : CalcFn) (msg : String),
    tpl.resources = pre ++ (id, r) :: post →
    isFreeResource r.resType = false →
    calcs r.resType = some cf →
    cf id r tpl = .error msg →
    (calculateStackCost calcs usage stackName tpl source).resources =
      entriesResources calcs usage tpl (pre ++ post) ∧
    (calculateStackCost calcs usage stackName tpl source).unsupportedResources =
      entriesUnsupported calcs usage tpl pre ++
        ({ resourceId := id, resourceType := r.resType,
           reason := "Calculation error: " ++ msg } :: entriesUnsupported calcs usage tpl post) ∧
    (calculateStackCost calcs usage stackName tpl source).totalMonthlyCost =
      ((entriesResources calcs usage tpl (pre ++ post)).map (fun c => c.monthlyCost)).sum ∧
    (calculateStackCost calcs usage stackName tpl source).totalHourlyCost =
      ((entriesResources calcs usage tpl (pre ++ post)).map (fun c => c.hourlyCost)).sum := by
  intro calcs usage stackName source tpl pre post id r cf msg hres hfree hcalc herr
  have hone : processEntry calcs usage tpl (id, r) =
      ([], [{ resourceId := id, resourceType := r.resType,
              reason := "Calculation error: " ++ msg }]) := by
    simp [processEntry, hfree, hcalc, herr]
  have h1 : (calculateStackCost calcs usage stackName tpl source).resources =
      entriesResources calcs usage tpl (pre ++ post) := by
    rw [calculateStackCost_resources, hres]
    rw [show pre ++ (id, r) :: post = pre ++ ([(id, r)] ++ post) from rfl,
      entriesResources_append, entriesResources_append, entriesResources_append]
    simp [entriesResources, hone]
  refine ⟨h1, ?_, ?_, ?_⟩
  · rw [calculateStackCost_unsupported, hres]
    rw [show pre ++ (id, r) :: post = pre ++ ([(id, r)] ++ post) from rfl,
      entriesUnsupported_append, entriesUnsupported_append]
    simp [entriesUnsupported, hone]
  · rw [calculateStackCost_totalMonthly, h1]
  · rw [calculateStackCost_totalHourly, h1]

/-- Claim C10.  `AWS::SNS::Topic`, `AWS::Logs::LogGroup` and
`AWS::SSM::Parameter` are members of `FREE_RESOURCES`, so the free-resource
check of `calculateStackCost` skips such an entry before any dispatch: the
estimate's `resources`, `unsupportedResources` and both totals are exactly
those of the remaining entries.  Yet all three types are case labels of the
`switch` in `calculateUsageBasedResource` — branches the stack loop can
never reach for them. -/
theorem spec_C10 :
  ("AWS::SNS::Topic" ∈ FREE_RESOURCES ∧ "AWS::Logs::LogGroup" ∈ FREE_RESOURCES ∧
   "AWS::SSM::Parameter" ∈ FREE_RESOURCES) ∧
  (isFreeResource "AWS::SNS::Topic" = true ∧ isFreeResource "AWS::Logs::LogGroup" = true ∧
   isFreeResource "AWS::SSM::Parameter" = true) ∧
  ("AWS::SNS::Topic" ∈ usageBasedSwitchTypes ∧ "AWS::Logs::LogGroup" ∈ usageBasedSwitchTypes ∧
   "AWS::SSM::Parameter" ∈ usageBasedSwitchTypes) ∧
  (∀ (calcs : Registry) (usage : UsageFn) (stackName : String)
     (source : TemplateSource) (tpl : CfnTemplate)
     (pre post : List (String × CfnResource)) (id : String) (r : CfnResource),
    (r.resType = "AWS::SNS::Topic" ∨ r.resType = "AWS::Logs::LogGroup" ∨
     r.resType = "AWS::SSM::Parameter") →
    tpl.resources = pre ++ (id, r) :: post →
    (calculateStackCost calcs usage stackName tpl source).resources =
      entriesResources calcs usage tpl (pre ++ post) ∧
    (calculateStackCost calcs usage stackName tpl source).unsupportedResources =
      entriesUnsupported calcs usage tpl (pre ++ post) ∧
    (calculateStackCost calcs usage stackName tpl source).totalMonthlyCost =
      ((entriesResources calcs usage tpl (pre ++ post)).map (fun c => c.monthlyCost)).sum ∧
    (calculateStackCost calcs usage stackName tpl source).totalHourlyCost =
      ((entriesResources calcs usage tpl (pre ++ post)).map (fun c => c.hourlyCost)).sum) := by
  refine ⟨by decide, by decide, by decide, ?_⟩
  intro calcs usage stackName source tpl pre post id r htype hres
  have hfree : isFreeResource r.resType = true := by
    rcases htype with h | h | h <;> rw [h] <;> decide
  obtain ⟨h1, h2⟩ :=
    calculateStackCost_skips_free calcs usage stackName source tpl pre post id r hfree hres
  refine ⟨h1, h2, ?_, ?_⟩
  · rw [calculateStackCost_totalMonthly, h1]
  · rw [calculateStackCost_totalHourly, h1]


theorem jsMapGet_eq_none_of_has_false {m : List (String × ResourceCost)} {k : String}
    (h : jsMapHas m k = false) : jsMapGet m k = none := by
  cases hg : jsMapGet m k with
  | none => rfl
  | some v =>
    rw [jsMapHas_eq_isSome, hg] at h
    simp at h

theorem jsMapHas_eq_false_of_get_none {m : List (String × ResourceCost)} {k : String}
    (h : jsMapGet m k = none) : jsMapHas m k = false := by
  rw [jsMapHas_eq_isSome, h]
  rfl

/-- Claim C9.  Comparing the two estimates in either order gives
`costDifference` values that are negatives of each other; a row classified
`added` in one direction has a mirror row classified `removed` in the other
(and vice versa) with the before/after costs swapped and the cost
difference negated; and a row classified `modified` in one direction has a
mirror `modified` row in the other with swapped costs and negated
difference. -/
theorem spec_C9 :
  (∀ (A B : StackCostEstimate),
    (compareEstimates A B).costDifference = -(compareEstimates B A).costDifference) ∧
  (∀ (A B : StackCostEstimate) (c : ResourceChange),
    c ∈ (compareEstimates A B).resourceChanges → c.changeType = .added →
    ∃ c' ∈ (compareEstimates B A).resourceChanges,
      c'.resourceId = c.resourceId ∧ c'.resourceType = c.resourceType ∧
      c'.changeType = .removed ∧ c'.beforeCost = c.afterCost ∧ c'.afterCost = 0 ∧
      c'.costDifference = -c.costDifference) ∧
  (∀ (A B : StackCostEstimate) (c : ResourceChange),
    c ∈ (compareEstimates A B).resourceChanges → c.changeType = .removed →
    ∃ c' ∈ (compareEstimates B A).resourceChanges,
      c'.resourceId = c.resourceId ∧ c'.resourceType = c.resourceType ∧
      c'.changeType = .added ∧ c'.beforeCost = 0 ∧ c'.afterCost = c.beforeCost ∧
      c'.costDifference = -c.costDifference) ∧
  (∀ (A B : StackCostEstimate) (c : ResourceChange),
    c ∈ (compareEstimates A B).resourceChanges → c.changeType = .modified →
    ∃ c' ∈ (compareEstimates B A).resourceChanges,
      c'.resourceId = c.resourceId ∧ c'.changeType = .modified ∧
      c'.beforeCost = c.afterCost ∧ c'.afterCost = c.beforeCost ∧
      c'.costDifference = -c.costDifference) := by
  refine ⟨?_, ?_, ?_, ?_⟩
  · intro A B
    simp only [compareEstimates]
    ring
  · intro A B c hc hadd
    rw [mem_resourceChanges_iff] at hc
    rcases hc with ⟨p, hp, hceq⟩ | ⟨p, hp, hhas, hceq⟩
    · rcases hget : jsMapGet (resourceMap A.resources) p.1 with _ | br
      · simp only [classifyAfter, hget] at hceq
        refine ⟨⟨p.1, p.2.resourceType, .removed, p.2.monthlyCost, 0,
            -p.2.monthlyCost⟩, ?_, ?_⟩
        · rw [mem_resourceChanges_iff]
          exact Or.inr ⟨p, hp, jsMapHas_eq_false_of_get_none hget, rfl⟩
        · subst hceq
          simp
      · exfalso
        simp only [classifyAfter, hget] at hceq
        split_ifs at hceq <;> subst hceq <;> simp at hadd
    · exfalso
      subst hceq
      simp at hadd
  · intro A B c hc hrem
    rw [mem_resourceChanges_iff] at hc
    rcases hc with ⟨p, hp, hceq⟩ | ⟨p, hp, hhas, hceq⟩
    · exfalso
      rcases hget : jsMapGet (resourceMap A.resources) p.1 with _ | br
      · simp only [classifyAfter, hget] at hceq
        subst hceq
        simp at hrem
      · simp only [classifyAfter, hget] at hceq
        split_ifs at hceq <;> subst hceq <;> simp at hrem
    · have hgetB : jsMapGet (resourceMap B.resources) p.1 = none :=
        jsMapGet_eq_none_of_has_false hhas
      refine ⟨classifyAfter (resourceMap B.resources) p.1 p.2, ?_, ?_⟩
      · rw [mem_resourceChanges_iff]
        exact Or.inl ⟨p, hp, rfl⟩
      · simp only [classifyAfter, hgetB]
        subst hceq
        simp
  · intro A B c hc hmod
    rw [mem_resourceChanges_iff] at hc
    rcases hc with ⟨p, hp, hceq⟩ | ⟨p, hp, hhas, hceq⟩
    · rcases hget : jsMapGet (resourceMap A.resources) p.1 with _ | br
      · exfalso
        simp only [classifyAfter, hget] at hceq
        subst hceq
        simp at hmod
      · simp only [classifyAfter, hget] at hceq
        split_ifs at hceq with hgt
        · have hmemA : (p.1, br) ∈ resourceMap A.resources :=
            mem_of_jsMapGet_eq_some hget
          have hgetB : jsMapGet (resourceMap B.resources) p.1 = some p.2 := by
            have := jsMapGet_of_mem_nodup (resourceMap_nodupKeys B.resources) hp
            exact this
          have hgt' : |p.2.monthlyCost - br.monthlyCost| > 0.01 := by
            rw [abs_sub_comm]
            exact hgt
          refine ⟨classifyAfter (resourceMap B.resources) p.1 br, ?_, ?_⟩
          · rw [mem_resourceChanges_iff]
            exact Or.inl ⟨(p.1, br), hmemA, rfl⟩
          · simp only [classifyAfter, hgetB]
            rw [if_pos hgt']
            subst hceq
            simp
        · exfalso
          subst hceq
          simp at hmod
    · exfalso
      subst hceq
      simp at hmod


/-- A calculator that always throws, for exercising the error path at a
concrete input. -/
def errCalc : CalcFn := fun _ _ _ => .error "boom"

/-- A one-entry registry dispatching `AWS::EC2::Instance` to `errCalc`. -/
def errRegistry : Registry :=
  fun t => if t = "AWS::EC2::Instance" then some errCalc else none

/-- A usage estimator that never produces an estimate. -/
def noUsage : UsageFn := fun _ _ _ => none

/-- A concrete resource whose calculator throws. -/
def c8Resource : CfnResource := { resType := "AWS::EC2::Instance", properties := none }

/-- A concrete one-resource template for the error-path witness. -/
def c8Template : CfnTemplate := { parameters := none, resources := [("R", c8Resource)] }

/-- Claim C8, witness: the error-recovery theorem applied to a concrete
one-resource stack whose calculator throws `"boom"`. -/
theorem spec_C8_witness :
    (calculateStackCost errRegistry noUsage "s" c8Template .local).resources =
      entriesResources errRegistry noUsage c8Template ([] ++ []) ∧
    (calculateStackCost errRegistry noUsage "s" c8Template .local).unsupportedResources =
      entriesUnsupported errRegistry noUsage c8Template [] ++
        ({ resourceId := "R", resourceType := c8Resource.resType,
           reason := "Calculation error: " ++ "boom" } ::
         entriesUnsupported errRegistry noUsage c8Template []) ∧
    (calculateStackCost errRegistry noUsage "s" c8Template .local).totalMonthlyCost =
      ((entriesResources errRegistry noUsage c8Template ([] ++ [])).map
        (fun c => c.monthlyCost)).sum ∧
    (calculateStackCost errRegistry noUsage "s" c8Template .local).totalHourlyCost =
      ((entriesResources errRegistry noUsage c8Template ([] ++ [])).map
        (fun c => c.hourlyCost)).sum :=
  spec_C8 errRegistry noUsage "s" .local c8Template [] [] "R" c8Resource errCalc "boom"
    rfl (by decide) rfl rfl

end CfnCost
